import Mathlib

/-!
# FlipClock3D watch application: the world controller of `main.c`

A shallow embedding of `src/c/main.c` (the older `src/main.c` differs only in
identifier spelling and in the drawing code).  The file-level statics of the C
program become the fields of one record, `World`; every C function becomes a
function from `World` to `World`.  Calls into the Pebble SDK and into the
karambola library are appended to the field `log`, in program order, together
with the status of the resource they are applied to.

Conventions.
* `int` is the 32-bit two's-complement integer of the ARM target: every
  arithmetic update of an `int` static goes through `wrapInt32`.
  `uint8_t` arithmetic goes through `wrapUInt8`.
* A variable of an `enum` type holds an `int`: `persist_read_int` may put any
  value into `s_world_mode` and `s_transparencyMode`.
* `float` values, `DEG_045`, `FastMath_normalizeAngle` and the mesh
  transparency enumerators belong to headers that are not part of the sources;
  they are parameters, collected in `Env`.
* A pointer is an `Option`: `none` is `NULL`.  A call through a null pointer
  is logged with `live := false` and changes nothing, which keeps the
  functions total.  Where the C library dereferences the pointer (a sampler
  push, a table builder) the behaviour of the C program is undefined from
  that call on: of a log with such an entry only the part up to the first
  one, `until_null_use`, describes the program.  The means of the samplers
  are read under the assumption `sampler_ready` only.
* The platform is modelled as far as `main.c` drives it: persistent storage
  is a list of key/value pairs whose writes succeed, a service delivers an
  event only while it has a subscriber, `app_timer_register` returns a fresh
  handle and `app_timer_cancel` removes the timer of the handle it is given,
  and the unload handler of the window runs when the window leaves the window
  stack.  Calls that only build or destroy user-interface objects are not
  logged.
-/

namespace FlipClock3D

/-! ## Machine integers -/

/-- Smallest value of a C `int` on the target. -/
def INT_MIN : Int := -2147483648

/-- Largest value of a C `int` on the target. -/
def INT_MAX : Int := 2147483647

/-- Two's-complement reduction of an integer into the range of `int`. -/
def wrapInt32 (x : Int) : Int := (x + 2147483648) % 4294967296 - 2147483648

/-- Reduction of a natural number into the range of `uint8_t`. -/
def wrapUInt8 (x : Nat) : Nat := x % 256

/-- The value is representable as a C `int`. -/
def isInt32 (x : Int) : Prop := INT_MIN ≤ x ∧ x ≤ INT_MAX

instance (x : Int) : Decidable (isInt32 x) := by
  unfold isInt32; exact inferInstance

/-! ## Constants of `main.c` -/

def ACCEL_SAMPLER_CAPACITY : Nat := 8
def WORLD_UPDATE_INTERVAL_MS : Nat := 35

def WORLD_MODE_UNDEFINED : Int := 0
def WORLD_MODE_DYNAMIC : Int := 1
def WORLD_MODE_STEADY : Int := 2

def ANIMATION_INTERVAL_MS : Nat := 40
def ANIMATION_FLIP_STEPS : Nat := 50
def ANIMATION_SPIN_STEPS : Nat := 75

def PKEY_WORLD_MODE : Int := 1
def PKEY_TRANSPARENCY_MODE : Int := 2

def WORLD_MODE_DEFAULT : Int := WORLD_MODE_DYNAMIC

def USER_SECONDSINACTIVE_MAX : Nat := 90

def SPIN_SPEED_BUTTON_STEP : Int := 20
def SPIN_SPEED_PUNCH_STEP : Int := 1000

/-! ## Parameters: what the missing headers provide -/

/-- The items of `karambola/*.h` and `Config.h` that `main.c` uses but that are
not in the sources.  `F` stands for `float`. -/
structure Env (F : Type) where
  /-- The constant `SPIN_ROTATION_STEADY`, defined as `-DEG_045`. -/
  SPIN_ROTATION_STEADY : F
  /-- The expression `r + (float)speed * SPIN_ROTATION_QUANTA`. -/
  spin_advance : F → Int → F
  /-- The library function `FastMath_normalizeAngle`. -/
  FastMath_normalizeAngle : F → F
  MESH_TRANSPARENCY_SOLID : Int
  MESH_TRANSPARENCY_XRAY : Int
  MESH_TRANSPARENCY_WIREFRAME : Int
  /-- The three enumerators label three cases of one `switch`. -/
  solid_ne_xray : MESH_TRANSPARENCY_SOLID ≠ MESH_TRANSPARENCY_XRAY
  solid_ne_wireframe : MESH_TRANSPARENCY_SOLID ≠ MESH_TRANSPARENCY_WIREFRAME
  xray_ne_wireframe : MESH_TRANSPARENCY_XRAY ≠ MESH_TRANSPARENCY_WIREFRAME
  /-- Whether the build defines the macro `QEMU`. -/
  QEMU : Bool

/-- The default mesh transparency, `MESH_TRANSPARENCY_SOLID`. -/
def MESH_TRANSPARENCY_DEFAULT {F : Type} (E : Env F) : Int := E.MESH_TRANSPARENCY_SOLID

/-! ## The sampler -/

/-- Modelled from the spec: the `Sampler` of `karambola/Sampler.h`, a
fixed-capacity buffer of integer samples with a running sum.  The field names
`samplesAcum` and `samplesNum` are the ones `world_update` reads. -/
structure Sampler where
  samplesCapacity : Nat
  /-- The stored samples, oldest first. -/
  samples : List Int
  samplesAcum : Int
  samplesNum : Nat
deriving DecidableEq, Repr

/-- Modelled from the spec: `Sampler_new`, an empty sampler of the given
capacity. -/
def Sampler_new (capacity : Nat) : Sampler :=
  { samplesCapacity := capacity, samples := [], samplesAcum := 0, samplesNum := 0 }

/-- Modelled from the spec: `Sampler_push`.  A full buffer evicts its oldest
sample and subtracts it from the running sum; the new sample is inserted and
added to the sum. -/
def Sampler_push (q : Sampler) (v : Int) : Sampler :=
  if q.samplesNum < q.samplesCapacity then
    { q with samples := q.samples ++ [v]
           , samplesAcum := q.samplesAcum + v
           , samplesNum := q.samplesNum + 1 }
  else
    match q.samples with
    | [] => q
    | oldest :: rest =>
      { q with samples := rest ++ [v]
             , samplesAcum := q.samplesAcum - oldest + v }

/-! ## Resources and the call log -/

/-- The axes of `AccelAxisType`; also used to name the three samplers. -/
inductive AccelAxisType where
  | ACCEL_AXIS_X
  | ACCEL_AXIS_Y
  | ACCEL_AXIS_Z
deriving DecidableEq, Repr

/-- The three interpolation tables. -/
inductive TableId where
  | spinRotationFraction
  | animRotationFraction
  | animTranslationFraction
deriving DecidableEq, Repr

/-- The two blinkers owned by `main.c`. -/
inductive BlinkerRef where
  | configMode_inkBlinker
  | clock_minutes_inkBlinker
deriving DecidableEq, Repr

/-- The two click configuration providers. -/
inductive ClickProvider where
  | normalMode_click_config_provider
  | configMode_click_config_provider
deriving DecidableEq, Repr

/-- Life cycle of the clock object `s_clock`. -/
inductive ClockStatus where
  /-- Never passed to `Clock3D_initialize`. -/
  | fresh
  /-- Initialized and not yet finalized. -/
  | ready
  /-- Passed to `Clock3D_finalize`. -/
  | finalized
deriving DecidableEq, Repr

/-- The two shaping laws of the interpolator. -/
inductive Easing where
  | AccelerateDecelerate
  | TrigonometricYoYo
deriving DecidableEq, Repr

/-- An interpolation table: an array of `size` floats, and the builder that
filled it (if any) with its step count. -/
structure Table where
  size : Nat
  built : Option (Easing × Nat)
deriving DecidableEq, Repr

/-- One call into the SDK or the library, with the arguments that matter.
A Boolean `live` tells whether the pointer argument was non-null at the call. -/
inductive Call (F : Type) where
  | persist_exists (key : Int)
  | persist_read_int (key : Int)
  | persist_write_int (key : Int) (value : Int)
  | Clock3D_initialize (before : ClockStatus)
  | Clock3D_config (st : ClockStatus)
  | Clock3D_finalize (before : ClockStatus)
  | Clock3D_updateAnimation (st : ClockStatus) (steps : Nat)
  | Clock3D_second100ths_update (st : ClockStatus)
  | Clock3D_setTime_DDHHMMSS (st : ClockStatus) (days hours minutes seconds : Int)
  | Clock3D_cycleDigitType (st : ClockStatus)
  | mesh_inkBlinker_write (st : ClockStatus)
  | Sampler_new (which : AccelAxisType) (ok : Bool)
  | Sampler_push (which : AccelAxisType) (live : Bool) (sample : Int)
  | Sampler_read (which : AccelAxisType) (live : Bool)
  | Sampler_free (which : AccelAxisType) (live : Bool)
  | free_sampler (which : AccelAxisType) (live : Bool)
  | malloc (table : TableId) (ok : Bool)
  | Interpolator_AccelerateDecelerate (table : TableId) (live : Bool) (steps : Nat)
  | Interpolator_TrigonometricYoYo (table : TableId) (live : Bool) (steps : Nat)
  | free_table (table : TableId) (live : Bool)
  | accel_service_peek
  | accel_data_service_subscribe
  | accel_data_service_unsubscribe
  | accel_tap_service_subscribe
  | accel_tap_service_unsubscribe
  | tick_timer_service_subscribe
  | tick_timer_service_unsubscribe
  | compass_service_unsubscribe
  | app_timer_register (ms : Nat)
  | app_timer_cancel
  | Blinker_start (b : BlinkerRef) (lengthOn lengthOff : Nat)
  | Blinker_stop (b : BlinkerRef)
  | action_bar_layer_set_click_config_provider (p : ClickProvider)
  | CamR3_lookAtOriginUpwards (x y z : Int) (rotationZ : F)
  | layer_mark_dirty
  | window_stack_push
  | window_stack_pop_all
  | window_stack_remove
  | window_destroy
deriving DecidableEq, Repr

/-! ## The state -/

/-- The clock object `s_clock`, as far as `main.c` looks into it: its life
cycle and the `mesh->inkBlinker` pointer of each of its 16 digit slots. -/
structure Clock3D where
  status : ClockStatus
  days_leftDigitA : Option BlinkerRef
  days_leftDigitB : Option BlinkerRef
  days_rightDigitA : Option BlinkerRef
  days_rightDigitB : Option BlinkerRef
  hours_leftDigitA : Option BlinkerRef
  hours_leftDigitB : Option BlinkerRef
  hours_rightDigitA : Option BlinkerRef
  hours_rightDigitB : Option BlinkerRef
  minutes_leftDigitA : Option BlinkerRef
  minutes_leftDigitB : Option BlinkerRef
  minutes_rightDigitA : Option BlinkerRef
  minutes_rightDigitB : Option BlinkerRef
  seconds_leftDigit : Option BlinkerRef
  seconds_rightDigit : Option BlinkerRef
  second100ths_leftDigit : Option BlinkerRef
  second100ths_rightDigit : Option BlinkerRef
deriving DecidableEq, Repr

/-- The camera `s_cam`, as configured by the last call of `cam_config`: the
view point handed over (before scaling) and the rotation about Z. -/
structure CamR3 (F : Type) where
  x : Int
  y : Int
  z : Int
  rotationZ : F
deriving DecidableEq, Repr

/-- What `accel_service_peek` delivers: its result code and the sample. -/
structure AccelData where
  result : Int
  x : Int
  y : Int
  z : Int
deriving DecidableEq, Repr

/-- The outcome of the six allocations of `world_initialize`
(`true`: the allocation succeeds). -/
structure AllocPlan where
  sampler_accelX : Bool
  sampler_accelY : Bool
  sampler_accelZ : Bool
  spinRotationFraction : Bool
  animRotationFraction : Bool
  animTranslationFraction : Bool
deriving DecidableEq, Repr

/-- The statics of `main.c`, the part of the platform state they interact
with, and the log of calls. -/
structure World (F : Type) where
  s_clock : Clock3D
  s_world_updateCount : Int
  s_world_mode : Int
  sampler_accelX : Option Sampler
  sampler_accelY : Option Sampler
  sampler_accelZ : Option Sampler
  spinRotationFraction : Option Table
  animRotationFraction : Option Table
  animTranslationFraction : Option Table
  s_user_secondsInactive : Nat
  s_spin_speed : Int
  s_spin_rotation : F
  /-- The camera; `none` until `cam_config` runs for the first time. -/
  s_cam : Option (CamR3 F)
  s_transparencyMode : Int
  /-- Persistent storage: the stored keys with their values. -/
  persist : List (Int × Int)
  /-- The accelerometer data service has a subscriber. -/
  accel_data_subscribed : Bool
  /-- The tap service has a subscriber. -/
  accel_tap_subscribed : Bool
  /-- The tick timer service has a subscriber. -/
  tick_subscribed : Bool
  /-- The static `s_world_updateTimer_ptr`: the handle of the timer that was
  registered last, `none` while it is `NULL`. -/
  s_world_updateTimer_ptr : Option Nat
  /-- The handles of the registered timers that have neither fired nor been
  cancelled, the one registered last first. -/
  timers : List Nat
  /-- The handle that the next call of `app_timer_register` returns. -/
  timer_next : Nat
  configMode_inkBlinker_running : Bool
  clock_minutes_inkBlinker_running : Bool
  click_provider : ClickProvider
  /-- The window is on the window stack. -/
  window_on_stack : Bool
  log : List (Call F)
deriving DecidableEq, Repr

section Model

variable {F : Type}

/-- Append one call to the log. -/
def call (s : World F) (c : Call F) : World F :=
  { s with log := s.log ++ [c] }

/-! ### Persistent storage (platform) -/

def persist_exists (store : List (Int × Int)) (key : Int) : Bool :=
  (store.lookup key).isSome

/-- Reads the stored value; the SDK returns 0 for an absent key. -/
def persist_read_int (store : List (Int × Int)) (key : Int) : Int :=
  (store.lookup key).getD 0

def persist_write_int (store : List (Int × Int)) (key : Int) (value : Int) :
    List (Int × Int) :=
  (key, value) :: store.filter (fun kv => kv.1 ≠ key)

/-! ### Samplers behind the three global pointers -/

/-- The sampler pointer of an axis. -/
def samplerOf (s : World F) : AccelAxisType → Option Sampler
  | .ACCEL_AXIS_X => s.sampler_accelX
  | .ACCEL_AXIS_Y => s.sampler_accelY
  | .ACCEL_AXIS_Z => s.sampler_accelZ

/-- The statement `Sampler_push( sampler_accel?, v )`.  On a null pointer the
library dereferences it and the behaviour of the C program is undefined from
there on; the call is logged with `live := false` to mark that point, and the
state is returned as it is, so that the function is total.  Beyond the first
such call the model no longer describes the C program. -/
def push_sample (s : World F) (a : AccelAxisType) (v : Int) : World F :=
  let s1 := call s (.Sampler_push a (samplerOf s a).isSome v)
  match a with
  | .ACCEL_AXIS_X => { s1 with sampler_accelX := s1.sampler_accelX.map (Sampler_push · v) }
  | .ACCEL_AXIS_Y => { s1 with sampler_accelY := s1.sampler_accelY.map (Sampler_push · v) }
  | .ACCEL_AXIS_Z => { s1 with sampler_accelZ := s1.sampler_accelZ.map (Sampler_push · v) }

/-- The three pushes of one acceleration triple, in the order X, Y, Z. -/
def push_triple (s : World F) (x y z : Int) : World F :=
  push_sample (push_sample (push_sample s .ACCEL_AXIS_X x) .ACCEL_AXIS_Y y) .ACCEL_AXIS_Z z

/-- The expression `sampler->samplesAcum / sampler->samplesNum`: C integer
division, which truncates; undefined on a null pointer or an empty sampler. -/
def sampler_mean (p : Option Sampler) : Option Int :=
  match p with
  | none => none
  | some q => if q.samplesNum = 0 then none else some (Int.tdiv q.samplesAcum q.samplesNum)

/-! ### Camera -/

/-- The function `cam_config`: one call of `CamR3_lookAtOriginUpwards` on
`s_cam`, with the given view point (scaled and rotated by `rotationZ`). -/
def cam_config (s : World F) (x y z : Int) (rotationZ : F) : World F :=
  call { s with s_cam := some { x := x, y := y, z := z, rotationZ := rotationZ } }
    (.CamR3_lookAtOriginUpwards x y z rotationZ)

/-! ### World mode -/

def accel_data_service_subscribe (s : World F) : World F :=
  call { s with accel_data_subscribed := true } .accel_data_service_subscribe

def accel_data_service_unsubscribe (s : World F) : World F :=
  call { s with accel_data_subscribed := false } .accel_data_service_unsubscribe

/-- The function `set_world_mode`. -/
def set_world_mode (E : Env F) (s : World F) (pWorldMode : Int) : World F :=
  -- Clean-up exiting mode.
  let s1 := if s.s_world_mode = WORLD_MODE_DYNAMIC then accel_data_service_unsubscribe s else s
  -- Start-up entering mode.
  let s2 := { s1 with s_world_mode := pWorldMode }
  if pWorldMode = WORLD_MODE_STEADY then
    { s2 with s_spin_speed := 0, s_spin_rotation := E.SPIN_ROTATION_STEADY }
  else if pWorldMode = WORLD_MODE_DYNAMIC then
    accel_data_service_subscribe s2
  else
    s2

/-! ### Tap gestures -/

/-- The function `accel_tap_service_handler`. -/
def accel_tap_service_handler (E : Env F) (s : World F) (axis : AccelAxisType)
    (_direction : Int) : World F :=
  let s1 := { s with s_user_secondsInactive := 0 }
  match axis with
  | .ACCEL_AXIS_X =>
    { s1 with s_spin_speed := wrapInt32 (s1.s_spin_speed + SPIN_SPEED_PUNCH_STEP) }
  | .ACCEL_AXIS_Y =>
    if s1.s_world_mode = WORLD_MODE_STEADY then set_world_mode E s1 WORLD_MODE_DYNAMIC
    else if s1.s_world_mode = WORLD_MODE_DYNAMIC then set_world_mode E s1 WORLD_MODE_STEADY
    else s1
  | .ACCEL_AXIS_Z =>
    { s1 with s_spin_speed := 0, s_spin_rotation := E.SPIN_ROTATION_STEADY }

/-! ### The update tick -/

/-- The friction statements of `world_update`: two successive `if`s. -/
def friction (speed : Int) : Int :=
  let v1 := if speed > 0 then wrapInt32 (speed - 1) else speed
  if v1 < 0 then wrapInt32 (v1 + 1) else v1

/-- The `case WORLD_MODE_DYNAMIC` of the inner `switch` of `world_update`,
up to the assignment of `cam_rotation`. -/
def spin_step (E : Env F) (s : World F) : World F :=
  let s1 := { s with s_spin_speed := friction s.s_spin_speed }
  if s1.s_spin_speed ≠ 0 then
    { s1 with s_spin_rotation :=
        E.FastMath_normalizeAngle (E.spin_advance s1.s_spin_rotation s1.s_spin_speed) }
  else s1

/-- The sampler pushes of `world_update`, for the reading `ad`. -/
def push_reading (E : Env F) (s : World F) (ad : AccelData) : World F :=
  if ad.result < 0 then
    push_triple s (-81) (-816) (-571)
  else if E.QEMU && (ad.x == 0 && ad.y == 0 && ad.z == -1000) then
    push_triple s (-81) (-816) (-571)
  else
    push_triple s ad.x ad.y ad.z

/-- The last statement of the guarded block of `world_update`: the three
means are read and handed to `cam_config`.  When a sampler pointer is null or
a sampler is empty, the C program dereferences `NULL` or divides by zero and
its behaviour is undefined; the reads are then logged and the camera is left
alone, so that the function is total.  Every statement about this function
assumes samplers that are allocated and hold a sample (`sampler_ready`). -/
def configure_camera (s : World F) (cam_rotation : F) : World F :=
  match sampler_mean s.sampler_accelX, sampler_mean s.sampler_accelY,
      sampler_mean s.sampler_accelZ with
  | some mx, some my, some mz => cam_config s mx (-my) (-mz) cam_rotation
  | _, _, _ =>
    call (call (call s (.Sampler_read .ACCEL_AXIS_X s.sampler_accelX.isSome))
      (.Sampler_read .ACCEL_AXIS_Y s.sampler_accelY.isSome))
      (.Sampler_read .ACCEL_AXIS_Z s.sampler_accelZ.isSome)

/-- The first two statements of `world_update`: the update counter and the
flip animation. -/
def update_prologue (s : World F) : World F :=
  let s1 := { s with s_world_updateCount := wrapInt32 (s.s_world_updateCount + 1) }
  call s1 (.Clock3D_updateAnimation s1.s_clock.status ANIMATION_FLIP_STEPS)

/-- The block of `world_update` that is guarded by
`s_world_mode != WORLD_MODE_STEADY`; `ad` is what `accel_service_peek`
delivers. -/
def update_active (E : Env F) (s : World F) (ad : AccelData) : World F :=
  let t1 := call s (.Clock3D_second100ths_update s.s_clock.status)
  let t2 := call t1 .accel_service_peek
  let t3 := push_reading E t2 ad
  if t3.s_world_mode = WORLD_MODE_DYNAMIC then
    let t4 := spin_step E t3
    configure_camera t4 t4.s_spin_rotation
  else
    configure_camera t3 E.SPIN_ROTATION_STEADY

/-- The function `world_update`; `ad` is what `accel_service_peek` delivers
if it is called. -/
def world_update (E : Env F) (s : World F) (ad : AccelData) : World F :=
  let s2 := update_prologue s
  let s3 := if s2.s_world_mode ≠ WORLD_MODE_STEADY then update_active E s2 ad else s2
  call s3 .layer_mark_dirty

/-! ### Button click handlers -/

/-- The function `spinSpeed_increment_click_handler`. -/
def spinSpeed_increment_click_handler (s : World F) : World F :=
  { s with s_user_secondsInactive := 0
         , s_spin_speed := wrapInt32 (s.s_spin_speed + SPIN_SPEED_BUTTON_STEP) }

/-- The function `spinSpeed_decrement_click_handler`. -/
def spinSpeed_decrement_click_handler (s : World F) : World F :=
  { s with s_user_secondsInactive := 0
         , s_spin_speed := wrapInt32 (s.s_spin_speed - SPIN_SPEED_BUTTON_STEP) }

/-- The function `transparencyMode_change_click_handler`. -/
def transparencyMode_change_click_handler (E : Env F) (s : World F) : World F :=
  let s1 := { s with s_user_secondsInactive := 0 }
  if s1.s_transparencyMode = E.MESH_TRANSPARENCY_SOLID then
    { s1 with s_transparencyMode := E.MESH_TRANSPARENCY_XRAY }
  else if s1.s_transparencyMode = E.MESH_TRANSPARENCY_XRAY then
    { s1 with s_transparencyMode := E.MESH_TRANSPARENCY_WIREFRAME }
  else
    { s1 with s_transparencyMode := E.MESH_TRANSPARENCY_SOLID }

/-- The function `displayType_cycle_click_handler`. -/
def displayType_cycle_click_handler (s : World F) : World F :=
  let s1 := { s with s_user_secondsInactive := 0 }
  call s1 (.Clock3D_cycleDigitType s1.s_clock.status)

/-- Assign one value to the `mesh->inkBlinker` of the four minutes slots. -/
def Clock3D.set_minutes (c : Clock3D) (b : Option BlinkerRef) : Clock3D :=
  { c with minutes_leftDigitA := b, minutes_leftDigitB := b
         , minutes_rightDigitA := b, minutes_rightDigitB := b }

/-- Assign one value to the `mesh->inkBlinker` of the twelve slots that are
not minutes slots. -/
def Clock3D.set_others (c : Clock3D) (b : Option BlinkerRef) : Clock3D :=
  { c with days_leftDigitA := b, days_leftDigitB := b
         , days_rightDigitA := b, days_rightDigitB := b
         , hours_leftDigitA := b, hours_leftDigitB := b
         , hours_rightDigitA := b, hours_rightDigitB := b
         , seconds_leftDigit := b, seconds_rightDigit := b
         , second100ths_leftDigit := b, second100ths_rightDigit := b }

/-- The call `Blinker_start( &b, ... )`; it returns the address of `b`. -/
def Blinker_start (s : World F) (b : BlinkerRef) (lengthOn lengthOff : Nat) : World F :=
  let s1 := call s (.Blinker_start b lengthOn lengthOff)
  match b with
  | .configMode_inkBlinker => { s1 with configMode_inkBlinker_running := true }
  | .clock_minutes_inkBlinker => { s1 with clock_minutes_inkBlinker_running := true }

/-- The call `Blinker_stop( &b )`: the blinker no longer runs.  The digit
slots are fields of the clock, so the call has no access to them. -/
def Blinker_stop (s : World F) (b : BlinkerRef) : World F :=
  let s1 := call s (.Blinker_stop b)
  match b with
  | .configMode_inkBlinker => { s1 with configMode_inkBlinker_running := false }
  | .clock_minutes_inkBlinker => { s1 with clock_minutes_inkBlinker_running := false }

def action_bar_layer_set_click_config_provider (s : World F) (p : ClickProvider) : World F :=
  call { s with click_provider := p } (.action_bar_layer_set_click_config_provider p)

/-- The function `configMode_enter_click_handler`. -/
def configMode_enter_click_handler (s : World F) : World F :=
  let s1 := { s with s_user_secondsInactive := 0 }
  let s2 := Blinker_start s1 .configMode_inkBlinker 250 250
  let s3 := call s2 (.mesh_inkBlinker_write s2.s_clock.status)
  let b : Option BlinkerRef := some .configMode_inkBlinker
  let s4 := { s3 with s_clock := (s3.s_clock.set_others b).set_minutes b }
  action_bar_layer_set_click_config_provider s4 .configMode_click_config_provider

/-- The function `configMode_exit_click_handler`. -/
def configMode_exit_click_handler (s : World F) : World F :=
  let s1 := { s with s_user_secondsInactive := 0 }
  let s2 := call s1 (.mesh_inkBlinker_write s1.s_clock.status)
  let s3 := { s2 with s_clock := s2.s_clock.set_others none }
  let s4 := call s3 (.mesh_inkBlinker_write s3.s_clock.status)
  let s5 := { s4 with s_clock := s4.s_clock.set_minutes (some .clock_minutes_inkBlinker) }
  let s6 := Blinker_stop s5 .configMode_inkBlinker
  action_bar_layer_set_click_config_provider s6 .normalMode_click_config_provider

/-! ### Initialization and finalization -/

/-- The function `sampler_initialize`, after its three `Sampler_new` calls:
one round of the seeding loop. -/
def seed_round (s : World F) : World F :=
  push_triple s (-81) (-816) (-571)

/-- The seeding loop of `sampler_initialize`: `n` rounds. -/
def seed_loop (s : World F) : Nat → World F
  | 0 => s
  | n + 1 => seed_loop (seed_round s) n

/-- The statement `sampler_accel? = Sampler_new( ACCEL_SAMPLER_CAPACITY )`;
`ok` tells whether the allocation succeeds. -/
def new_sampler (s : World F) (a : AccelAxisType) (ok : Bool) : World F :=
  let p : Option Sampler := if ok then some (Sampler_new ACCEL_SAMPLER_CAPACITY) else none
  let s1 := call s (.Sampler_new a ok)
  match a with
  | .ACCEL_AXIS_X => { s1 with sampler_accelX := p }
  | .ACCEL_AXIS_Y => { s1 with sampler_accelY := p }
  | .ACCEL_AXIS_Z => { s1 with sampler_accelZ := p }

/-- The function `sampler_initialize`; `plan` tells which allocations succeed. -/
def sampler_initialize (s : World F) (plan : AllocPlan) : World F :=
  let s1 := new_sampler s .ACCEL_AXIS_X plan.sampler_accelX
  let s2 := new_sampler s1 .ACCEL_AXIS_Y plan.sampler_accelY
  let s3 := new_sampler s2 .ACCEL_AXIS_Z plan.sampler_accelZ
  seed_loop s3 ACCEL_SAMPLER_CAPACITY

/-- The array that `malloc( (steps+1)*sizeof(float) )` returns and a builder
fills; `ok` tells whether the allocation succeeds. -/
def build_table (ok : Bool) (law : Easing) (steps : Nat) : Option Table :=
  if ok then some { size := steps + 1, built := some (law, steps) } else none

/-- One statement of `interpolations_initialize`: the allocation of table `t`
inside the call of its builder.  When the allocation fails the builder gets
`NULL` and writes through it: the behaviour of the C program is undefined from
there on.  The call is logged with `live := false` to mark that point, and the
table pointer stays null, so that the function is total.  Beyond the first
such call the model no longer describes the C program. -/
def new_table (s : World F) (t : TableId) (ok : Bool) : World F :=
  let s1 := call s (.malloc t ok)
  match t with
  | .spinRotationFraction =>
    let p := build_table ok .AccelerateDecelerate ANIMATION_SPIN_STEPS
    call { s1 with spinRotationFraction := p }
      (.Interpolator_AccelerateDecelerate t ok ANIMATION_SPIN_STEPS)
  | .animRotationFraction =>
    let p := build_table ok .AccelerateDecelerate ANIMATION_FLIP_STEPS
    call { s1 with animRotationFraction := p }
      (.Interpolator_AccelerateDecelerate t ok ANIMATION_FLIP_STEPS)
  | .animTranslationFraction =>
    let p := build_table ok .TrigonometricYoYo ANIMATION_FLIP_STEPS
    call { s1 with animTranslationFraction := p }
      (.Interpolator_TrigonometricYoYo t ok ANIMATION_FLIP_STEPS)

/-- The function `interpolations_initialize`. -/
def interpolations_initialize (s : World F) (plan : AllocPlan) : World F :=
  let s1 := new_table s .spinRotationFraction plan.spinRotationFraction
  let s2 := new_table s1 .animRotationFraction plan.animRotationFraction
  new_table s2 .animTranslationFraction plan.animTranslationFraction

/-- A clock as `Clock3D_initialize` leaves it: ready, no slot bound to a
blinker. -/
def Clock3D.ready : Clock3D :=
  { status := .ready
  , days_leftDigitA := none, days_leftDigitB := none
  , days_rightDigitA := none, days_rightDigitB := none
  , hours_leftDigitA := none, hours_leftDigitB := none
  , hours_rightDigitA := none, hours_rightDigitB := none
  , minutes_leftDigitA := none, minutes_leftDigitB := none
  , minutes_rightDigitA := none, minutes_rightDigitB := none
  , seconds_leftDigit := none, seconds_rightDigit := none
  , second100ths_leftDigit := none, second100ths_rightDigit := none }

/-- The first two statements of `world_initialize`: the two settings are
taken from persistent storage, or set to their defaults. -/
def load_settings (E : Env F) (s : World F) : World F :=
  let s1 := call s (.persist_exists PKEY_WORLD_MODE)
  let s2 :=
    if persist_exists s1.persist PKEY_WORLD_MODE then
      let v := persist_read_int s1.persist PKEY_WORLD_MODE
      call { s1 with s_world_mode := v } (.persist_read_int PKEY_WORLD_MODE)
    else { s1 with s_world_mode := WORLD_MODE_DEFAULT }
  let s3 := call s2 (.persist_exists PKEY_TRANSPARENCY_MODE)
  if persist_exists s3.persist PKEY_TRANSPARENCY_MODE then
    let v := persist_read_int s3.persist PKEY_TRANSPARENCY_MODE
    call { s3 with s_transparencyMode := v } (.persist_read_int PKEY_TRANSPARENCY_MODE)
  else { s3 with s_transparencyMode := MESH_TRANSPARENCY_DEFAULT E }

/-- The statements of `world_initialize` on the clock: the call
`Clock3D_initialize( &s_clock )` and the binding of the four minutes slots to
`clock_minutes_inkBlinker`. -/
def clock_setup (s : World F) : World F :=
  let s1 := call { s with s_clock := Clock3D.ready } ( Call.Clock3D_initialize s.s_clock.status)
  let s2 := call s1 (.mesh_inkBlinker_write s1.s_clock.status)
  { s2 with s_clock := s2.s_clock.set_minutes (some .clock_minutes_inkBlinker) }

/-- The function `world_initialize`. -/
def world_initialize (E : Env F) (s : World F) (plan : AllocPlan) : World F :=
  let s1 := load_settings E s
  let s2 := clock_setup s1
  let s3 := sampler_initialize s2 plan
  let s4 := interpolations_initialize s3 plan
  call s4 (.Clock3D_config s4.s_clock.status)

/-- The statement pair `free( t ) ; t = NULL ;` for one interpolation table. -/
def release_table (s : World F) (t : TableId) : World F :=
  match t with
  | .spinRotationFraction =>
    let s1 := call s (.free_table t s.spinRotationFraction.isSome)
    { s1 with spinRotationFraction := none }
  | .animRotationFraction =>
    let s1 := call s (.free_table t s.animRotationFraction.isSome)
    { s1 with animRotationFraction := none }
  | .animTranslationFraction =>
    let s1 := call s (.free_table t s.animTranslationFraction.isSome)
    { s1 with animTranslationFraction := none }

/-- The function `interpolations_finalize`. -/
def interpolations_finalize (s : World F) : World F :=
  release_table (release_table (release_table s .animRotationFraction)
    .animTranslationFraction) .spinRotationFraction

/-- One line of `sampler_finalize`:
`free( Sampler_free( p ) ) ; p = NULL ;`, logged as two calls. -/
def release_sampler (s : World F) (a : AccelAxisType) : World F :=
  let live := (samplerOf s a).isSome
  let s1 := call (call s (.Sampler_free a live)) (.free_sampler a live)
  match a with
  | .ACCEL_AXIS_X => { s1 with sampler_accelX := none }
  | .ACCEL_AXIS_Y => { s1 with sampler_accelY := none }
  | .ACCEL_AXIS_Z => { s1 with sampler_accelZ := none }

/-- The function `sampler_finalize`. -/
def sampler_finalize (s : World F) : World F :=
  release_sampler (release_sampler (release_sampler s .ACCEL_AXIS_X) .ACCEL_AXIS_Y) .ACCEL_AXIS_Z

/-- The call `Clock3D_finalize( &s_clock )`. -/
def clock_release (s : World F) : World F :=
  let s0 := call s (.Clock3D_finalize s.s_clock.status)
  { s0 with s_clock := { s0.s_clock with status := .finalized } }

/-- The last two statements of `world_finalize`: the two settings are written
to persistent storage. -/
def save_settings (s : World F) : World F :=
  let p1 := persist_write_int s.persist PKEY_WORLD_MODE s.s_world_mode
  let s1 := call { s with persist := p1 } (.persist_write_int PKEY_WORLD_MODE s.s_world_mode)
  let p2 := persist_write_int s1.persist PKEY_TRANSPARENCY_MODE s1.s_transparencyMode
  call { s1 with persist := p2 } (.persist_write_int PKEY_TRANSPARENCY_MODE s1.s_transparencyMode)

/-- The function `world_finalize`. -/
def world_finalize (s : World F) : World F :=
  let s1 := clock_release s
  let s2 := sampler_finalize s1
  let s3 := interpolations_finalize s2
  save_settings s3

/-! ### Starting and stopping the world -/

/-- The statement
`s_world_updateTimer_ptr = app_timer_register( WORLD_UPDATE_INTERVAL_MS, ... )`:
a timer with a fresh handle becomes pending and the static holds its handle. -/
def app_timer_register (s : World F) : World F :=
  let s1 := call s (.app_timer_register WORLD_UPDATE_INTERVAL_MS)
  { s1 with s_world_updateTimer_ptr := some s1.timer_next
          , timers := s1.timer_next :: s1.timers
          , timer_next := s1.timer_next + 1 }

/-- The call `app_timer_cancel( s_world_updateTimer_ptr )`: the timer with
that handle, if it is pending, is no longer pending. -/
def app_timer_cancel (s : World F) : World F :=
  let s1 := call s .app_timer_cancel
  let remaining :=
    match s1.s_world_updateTimer_ptr with
    | none => s1.timers
    | some h => s1.timers.filter (fun t => t ≠ h)
  { s1 with timers := remaining }

/-- The function `world_update_timer_handler`: one update, then the timer is
registered again. -/
def world_update_timer_handler (E : Env F) (s : World F) (ad : AccelData) : World F :=
  app_timer_register (world_update E s ad)

/-- The function `world_start`; `ad` is the reading of its first update. -/
def world_start (E : Env F) (s : World F) (ad : AccelData) : World F :=
  let s1 := Blinker_start s .clock_minutes_inkBlinker 500 500
  let s2 := set_world_mode E s1 s1.s_world_mode
  let s3 := call { s2 with tick_subscribed := true } .tick_timer_service_subscribe
  let s4 := call { s3 with accel_tap_subscribed := true } .accel_tap_service_subscribe
  world_update_timer_handler E s4 ad

/-- The function `world_stop`. -/
def world_stop (s : World F) : World F :=
  let s1 := Blinker_stop s .clock_minutes_inkBlinker
  let s2 := app_timer_cancel s1
  let s3 := call { s2 with tick_subscribed := false } .tick_timer_service_unsubscribe
  let s4 := call { s3 with accel_tap_subscribed := false } .accel_tap_service_unsubscribe
  let s5 := accel_data_service_unsubscribe s4
  call s5 .compass_service_unsubscribe

/-! ### The window and the application -/

/-- The function `window_load`, as far as the world is concerned. -/
def window_load (E : Env F) (s : World F) (ad : AccelData) : World F :=
  let s1 := action_bar_layer_set_click_config_provider s .normalMode_click_config_provider
  world_start E s1 ad

/-- The function `window_unload`, as far as the world is concerned. -/
def window_unload (s : World F) : World F :=
  world_stop s

/-- The platform takes the window off the stack: its unload handler runs. -/
def window_leaves_stack (s : World F) : World F :=
  if s.window_on_stack then window_unload { s with window_on_stack := false } else s

/-- The call `window_stack_pop_all( true )`. -/
def window_stack_pop_all (s : World F) : World F :=
  window_leaves_stack (call s .window_stack_pop_all)

/-- The function `tick_timer_service_handler`, for the time of the tick. -/
def tick_timer_service_handler (s : World F) (tm_mday tm_hour tm_min tm_sec : Int) :
    World F :=
  let s1 :=
    if s.s_spin_speed = 0 then
      { s with s_user_secondsInactive := wrapUInt8 (s.s_user_secondsInactive + 1) }
    else s
  -- Auto-exit application on lack of user interaction.
  let s2 :=
    if s1.s_user_secondsInactive > USER_SECONDSINACTIVE_MAX then
      window_stack_pop_all (world_finalize (world_stop s1))
    else s1
  call s2 (.Clock3D_setTime_DDHHMMSS s2.s_clock.status tm_mday tm_hour tm_min tm_sec)

/-- The function `app_init`: the world is initialized and the window pushed,
which loads it. -/
def app_init (E : Env F) (s : World F) (plan : AllocPlan) (ad : AccelData) : World F :=
  let s1 := world_initialize E s plan
  let s2 := call { s1 with window_on_stack := true } .window_stack_push
  window_load E s2 ad

/-- The function `app_deinit`. -/
def app_deinit (s : World F) : World F :=
  let s1 := window_leaves_stack (call s .window_stack_remove)
  let s2 := call s1 .window_destroy
  world_finalize s2

/-- What the event loop can deliver to the application. -/
inductive Event where
  /-- The tick timer service fires, with the fields of the current time. -/
  | tick (tm_mday tm_hour tm_min tm_sec : Int)
  /-- The tap service reports a tap. -/
  | tap (axis : AccelAxisType) (direction : Int)
  /-- The update timer fires; `ad` is the accelerometer reading at that time. -/
  | update_timer (ad : AccelData)
  | button_up
  | button_down
  | button_select
  | button_select_long
  | button_back
deriving DecidableEq, Repr

/-- Delivery of one event: a handler runs only while it is subscribed, the
update timer fires only while a timer is pending (the one registered last
fires), and a button reaches the handler that the current click configuration
gives it. -/
def dispatch (E : Env F) (s : World F) : Event → World F
  | .tick d h m sec =>
    if s.tick_subscribed then tick_timer_service_handler s d h m sec else s
  | .tap axis direction =>
    if s.accel_tap_subscribed then accel_tap_service_handler E s axis direction else s
  | .update_timer ad =>
    match s.timers with
    | [] => s
    | _ :: rest => world_update_timer_handler E { s with timers := rest } ad
  | .button_up =>
    match s.click_provider with
    | .normalMode_click_config_provider => spinSpeed_decrement_click_handler s
    | .configMode_click_config_provider => displayType_cycle_click_handler s
  | .button_down =>
    match s.click_provider with
    | .normalMode_click_config_provider => spinSpeed_increment_click_handler s
    | .configMode_click_config_provider => displayType_cycle_click_handler s
  | .button_select =>
    match s.click_provider with
    | .normalMode_click_config_provider => transparencyMode_change_click_handler E s
    | .configMode_click_config_provider => s
  | .button_select_long =>
    match s.click_provider with
    | .normalMode_click_config_provider => configMode_enter_click_handler s
    | .configMode_click_config_provider => configMode_exit_click_handler s
  | .button_back => window_leaves_stack s

/-- The call `app_event_loop( )`: events are delivered for as long as the
window is on the stack. -/
def app_event_loop (E : Env F) (s : World F) : List Event → World F
  | [] => s
  | e :: es => if s.window_on_stack then app_event_loop E (dispatch E s e) es else s

/-- A clock that was never initialized. -/
def Clock3D.fresh : Clock3D :=
  { Clock3D.ready with status := .fresh }

/-- The state at program start: the initializers of the statics, the given
persistent storage, no subscription, an empty log. -/
def World.boot (E : Env F) (store : List (Int × Int)) : World F :=
  { s_clock := Clock3D.fresh
  , s_world_updateCount := 0
  , s_world_mode := WORLD_MODE_UNDEFINED
  , sampler_accelX := none, sampler_accelY := none, sampler_accelZ := none
  , spinRotationFraction := none, animRotationFraction := none
  , animTranslationFraction := none
  , s_user_secondsInactive := 0
  , s_spin_speed := 0
  , s_spin_rotation := E.SPIN_ROTATION_STEADY
  , s_cam := none
  , s_transparencyMode := E.MESH_TRANSPARENCY_SOLID
  , persist := store
  , accel_data_subscribed := false, accel_tap_subscribed := false
  , tick_subscribed := false
  , s_world_updateTimer_ptr := none, timers := [], timer_next := 0
  , configMode_inkBlinker_running := false, clock_minutes_inkBlinker_running := false
  , click_provider := .normalMode_click_config_provider
  , window_on_stack := false
  , log := [] }

/-- The function `main`: `app_init`, the event loop over the delivered
events, `app_deinit`. -/
def main (E : Env F) (store : List (Int × Int)) (plan : AllocPlan) (ad : AccelData)
    (events : List Event) : World F :=
  app_deinit (app_event_loop E (app_init E (World.boot E store) plan ad) events)

/-! ### Reading the log -/

/-- Number of log entries that satisfy `p`. -/
def count_calls (p : Call F → Bool) (log : List (Call F)) : Nat :=
  (log.filter p).length

/-- The calls that one step adds: the log of `t` without the first
`s.log.length` entries. -/
def new_calls (s t : World F) : List (Call F) :=
  t.log.drop s.log.length

end Model

/-! ### Auxiliary notions for the statements -/

section Aux

variable {F : Type}

/-- A sampler pointer that is non-null and whose sampler holds a sample. -/
def sampler_ready (p : Option Sampler) : Bool :=
  match p with
  | none => false
  | some q => decide (0 < q.samplesNum)

/-- The triple that `world_update` pushes for the reading `ad`. -/
def reading_pushed (E : Env F) (ad : AccelData) : Int × Int × Int :=
  if ad.result < 0 then (-81, -816, -571)
  else if E.QEMU && (ad.x == 0 && ad.y == 0 && ad.z == -1000) then (-81, -816, -571)
  else (ad.x, ad.y, ad.z)

/-- The `mesh->inkBlinker` pointers of the 16 digit slots, in the order of
the assignment chain of `configMode_enter_click_handler`. -/
def Clock3D.slots (c : Clock3D) : List (Option BlinkerRef) :=
  [ c.days_leftDigitA, c.days_leftDigitB, c.days_rightDigitA, c.days_rightDigitB
  , c.hours_leftDigitA, c.hours_leftDigitB, c.hours_rightDigitA, c.hours_rightDigitB
  , c.minutes_leftDigitA, c.minutes_leftDigitB, c.minutes_rightDigitA, c.minutes_rightDigitB
  , c.seconds_leftDigit, c.seconds_rightDigit
  , c.second100ths_leftDigit, c.second100ths_rightDigit ]

/-- What an update tick, initialization and finalization never touch: the
timers, the three subscriptions, the window stack and the inactivity
counter. -/
def platform_of (s : World F) :
    List Nat × Option Nat × Nat × Bool × Bool × Bool × Bool × Nat :=
  (s.timers, s.s_world_updateTimer_ptr, s.timer_next, s.accel_data_subscribed,
    s.accel_tap_subscribed, s.tick_subscribed, s.window_on_stack, s.s_user_secondsInactive)

/-- The event is a one-second tick. -/
def is_tick : Event → Bool
  | .tick _ _ _ _ => true
  | _ => false

/-- The event is no user interaction: a one-second tick or a firing of the
update timer. -/
def is_idle_event : Event → Bool
  | .tick _ _ _ _ => true
  | .update_timer _ => true
  | _ => false

/-- No timer is pending, or exactly one is and `s_world_updateTimer_ptr`
holds its handle. -/
def timers_ok (s : World F) : Prop :=
  s.timers = [] ∨ ∃ h, s.timers = [h] ∧ s.s_world_updateTimer_ptr = some h

/-- The spin rotation is `SPIN_ROTATION_STEADY` or a value returned by
`FastMath_normalizeAngle`. -/
def rotation_ok (E : Env F) (s : World F) : Prop :=
  s.s_spin_rotation = E.SPIN_ROTATION_STEADY
    ∨ ∃ x, s.s_spin_rotation = E.FastMath_normalizeAngle x

/-- The accelerometer data service has a subscriber exactly when the world
mode is dynamic. -/
def sensor_tracks_mode (s : World F) : Prop :=
  s.accel_data_subscribed = true ↔ s.s_world_mode = WORLD_MODE_DYNAMIC

/-- The event is a tap gesture, a button click or a firing of the update
timer: neither a one-second tick nor the back button. -/
def is_world_input : Event → Bool
  | .tap _ _ => true
  | .update_timer _ => true
  | .button_up => true
  | .button_down => true
  | .button_select => true
  | .button_select_long => true
  | .tick _ _ _ _ => false
  | .button_back => false

/-- The world mode, the spin variables and the inactivity counter. -/
def spin_of (s : World F) : Int × Int × F × Nat :=
  (s.s_world_mode, s.s_spin_speed, s.s_spin_rotation, s.s_user_secondsInactive)

/-- The timer state: the pending timers, `s_world_updateTimer_ptr` and the
next handle. -/
def timer_of (s : World F) : List Nat × Option Nat × Nat :=
  (s.timers, s.s_world_updateTimer_ptr, s.timer_next)

/-- The subscription of the accelerometer data service and the world mode. -/
def sense_of (s : World F) : Bool × Int :=
  (s.accel_data_subscribed, s.s_world_mode)

/-- The call feeds or reads the clock after `Clock3D_finalize`. -/
def uses_finalized_clock : Call F → Bool
  | .Clock3D_config st => decide (st = .finalized)
  | .Clock3D_updateAnimation st _ => decide (st = .finalized)
  | .Clock3D_second100ths_update st => decide (st = .finalized)
  | .Clock3D_setTime_DDHHMMSS st _ _ _ _ => decide (st = .finalized)
  | .Clock3D_cycleDigitType st => decide (st = .finalized)
  | .mesh_inkBlinker_write st => decide (st = .finalized)
  | _ => false

/-- The call applies a sampler push or a table builder to a null pointer. -/
def is_null_use : Call F → Bool
  | .Sampler_push _ live _ => !live
  | .Interpolator_AccelerateDecelerate _ live _ => !live
  | .Interpolator_TrigonometricYoYo _ live _ => !live
  | _ => false

/-- The three pushes of one round of the seeding loop, with the status of
the three sampler pointers. -/
def seed_calls (x y z : Bool) : List (Call F) :=
  [ .Sampler_push .ACCEL_AXIS_X x (-81)
  , .Sampler_push .ACCEL_AXIS_Y y (-816)
  , .Sampler_push .ACCEL_AXIS_Z z (-571) ]

/-- The calls of `sampler_initialize` under an allocation plan: three
`Sampler_new`, then `ACCEL_SAMPLER_CAPACITY` rounds of three pushes. -/
def sampler_initialize_calls (plan : AllocPlan) : List (Call F) :=
  [ .Sampler_new .ACCEL_AXIS_X plan.sampler_accelX
  , .Sampler_new .ACCEL_AXIS_Y plan.sampler_accelY
  , .Sampler_new .ACCEL_AXIS_Z plan.sampler_accelZ ]
  ++ (List.replicate ACCEL_SAMPLER_CAPACITY
        (seed_calls plan.sampler_accelX plan.sampler_accelY plan.sampler_accelZ)).flatten

/-- The calls of `interpolations_initialize` under an allocation plan. -/
def interpolations_initialize_calls (plan : AllocPlan) : List (Call F) :=
  [ .malloc .spinRotationFraction plan.spinRotationFraction
  , .Interpolator_AccelerateDecelerate .spinRotationFraction plan.spinRotationFraction
      ANIMATION_SPIN_STEPS
  , .malloc .animRotationFraction plan.animRotationFraction
  , .Interpolator_AccelerateDecelerate .animRotationFraction plan.animRotationFraction
      ANIMATION_FLIP_STEPS
  , .malloc .animTranslationFraction plan.animTranslationFraction
  , .Interpolator_TrigonometricYoYo .animTranslationFraction plan.animTranslationFraction
      ANIMATION_FLIP_STEPS ]

/-- The calls of `load_settings` on a store. -/
def load_settings_calls (store : List (Int × Int)) : List (Call F) :=
  [ .persist_exists PKEY_WORLD_MODE ]
  ++ (if persist_exists store PKEY_WORLD_MODE then [ .persist_read_int PKEY_WORLD_MODE ]
      else [])
  ++ [ .persist_exists PKEY_TRANSPARENCY_MODE ]
  ++ (if persist_exists store PKEY_TRANSPARENCY_MODE then
        [ .persist_read_int PKEY_TRANSPARENCY_MODE ]
      else [])

/-- A full sampler of capacity 8 that holds eight times the sample `v`. -/
def seeded (v : Int) : Sampler :=
  { samplesCapacity := 8, samples := List.replicate 8 v, samplesAcum := 8 * v, samplesNum := 8 }

/-- The view point of the camera, as last configured. -/
def view_point (s : World F) : Option (Int × Int × Int) :=
  s.s_cam.map fun c => (c.x, c.y, c.z)

/-- An allocation plan in which one sampler and one table fail. -/
def allocFailing : AllocPlan :=
  { sampler_accelX := false, sampler_accelY := true, sampler_accelZ := true
  , spinRotationFraction := false, animRotationFraction := true
  , animTranslationFraction := true }

/-- An allocation plan in which the allocation of the spin table fails and
every other allocation succeeds. -/
def allocTableFailing : AllocPlan :=
  { sampler_accelX := true, sampler_accelY := true, sampler_accelZ := true
  , spinRotationFraction := false, animRotationFraction := true
  , animTranslationFraction := true }

/-- The part of a log that describes the C program: the calls up to and
including the first one that hands a null pointer to a sampler push or to a
table builder; the whole log when there is no such call. -/
def until_null_use : List (Call F) → List (Call F)
  | [] => []
  | c :: cs => if is_null_use c then [c] else c :: until_null_use cs

/-- The call is a `Sampler_push` into the sampler of axis `a`. -/
def is_push_to (a : AccelAxisType) : Call F → Bool
  | .Sampler_push a' _ _ => decide (a' = a)
  | _ => false

/-- The call is a `Sampler_push` of the sample `v` into the sampler of axis
`a`. -/
def is_push_of (a : AccelAxisType) (v : Int) : Call F → Bool
  | .Sampler_push a' _ v' => decide (a' = a) && decide (v' = v)
  | _ => false

/-- The three samplers are full and hold the steady attractor only. -/
def samplers_seeded (s : World F) : Prop :=
  s.sampler_accelX = some (seeded (-81)) ∧ s.sampler_accelY = some (seeded (-816))
    ∧ s.sampler_accelZ = some (seeded (-571))

instance (s : World F) : Decidable (samplers_seeded s) := by
  unfold samplers_seeded; exact inferInstance

/-- The application exit has been triggered: the window is off the stack, the
tick service has no subscriber, the clock is finalized and the log holds a
call of `window_stack_pop_all`. -/
def exited (s : World F) : Prop :=
  s.window_on_stack = false ∧ s.tick_subscribed = false ∧ s.s_clock.status = .finalized
    ∧ Call.window_stack_pop_all ∈ s.log

/-- The world mode is one of the two modes of operation. -/
def mode_defined (s : World F) : Prop :=
  s.s_world_mode = WORLD_MODE_DYNAMIC ∨ s.s_world_mode = WORLD_MODE_STEADY

instance (s : World F) : Decidable (mode_defined s) := by
  unfold mode_defined
  infer_instance

/-- The value that a call writes under `PKEY_WORLD_MODE`, if it is such a
write. -/
def mode_write_value : Call F → Option Int
  | .persist_write_int key value => if key = PKEY_WORLD_MODE then some value else none
  | _ => none

/-- The values that a log records as written under `PKEY_WORLD_MODE`, in the
order of the writes. -/
def mode_writes (log : List (Call F)) : List Int :=
  log.filterMap mode_write_value

/-- The world mode of a state and the values written under `PKEY_WORLD_MODE`
so far. -/
def mode_trace (s : World F) : Int × List Int :=
  (s.s_world_mode, mode_writes s.log)

/-- Persistent storage in which key 1 is absent or holds one of the two modes
of operation. -/
def mode_key_ok (store : List (Int × Int)) : Prop :=
  store.lookup PKEY_WORLD_MODE = none
    ∨ store.lookup PKEY_WORLD_MODE = some WORLD_MODE_DYNAMIC
    ∨ store.lookup PKEY_WORLD_MODE = some WORLD_MODE_STEADY

instance (store : List (Int × Int)) : Decidable (mode_key_ok store) := by
  unfold mode_key_ok
  infer_instance

/-- The world mode is defined, and every value written under `PKEY_WORLD_MODE`
after the writes `base` is one of the two modes of operation. -/
def mode_kept (base : List Int) (s : World F) : Prop :=
  mode_defined s
    ∧ ∃ added, mode_writes s.log = base ++ added
        ∧ ∀ v ∈ added, v = WORLD_MODE_DYNAMIC ∨ v = WORLD_MODE_STEADY

/-- What can happen to an initialized world: `world_start` runs, the platform
delivers an event (a tick, a tap gesture, the update timer, a button click), or
`world_stop` runs. -/
inductive WorldOp where
  | world_start (ad : AccelData)
  | deliver (e : Event)
  | world_stop
deriving DecidableEq, Repr

/-- The state after one operation. -/
def apply_op (E : Env F) (s : World F) : WorldOp → World F
  | .world_start ad => world_start E s ad
  | .deliver e => dispatch E s e
  | .world_stop => world_stop s

/-- The state after a sequence of operations. -/
def apply_ops (E : Env F) (s : World F) (ops : List WorldOp) : World F :=
  ops.foldl (apply_op E) s


/-- The two settings of a state and its persistent storage. -/
def settings (s : World F) : Int × Int × List (Int × Int) :=
  (s.s_world_mode, s.s_transparencyMode, s.persist)

/-- The call is `Clock3D_second100ths_update`. -/
def is_second100ths_update : Call F → Bool
  | .Clock3D_second100ths_update _ => true
  | _ => false

/-- The call is `Clock3D_initialize`. -/
def is_clock_initialize : Call F → Bool
  | Call.Clock3D_initialize _ => true
  | _ => false

/-- The call is `Clock3D_finalize`. -/
def is_clock_finalize : Call F → Bool
  | .Clock3D_finalize _ => true
  | _ => false

/-- The call releases a resource that is not live: the clock when it is not
ready, a sampler or a table through a null pointer. -/
def is_bad_release : Call F → Bool
  | .Clock3D_finalize st => decide (st ≠ .ready)
  | .Sampler_free _ live => !live
  | .free_sampler _ live => !live
  | .free_table _ live => !live
  | _ => false

end Aux

/-! ## A concrete interpretation of the parameters

Angles are counted in units of `SPIN_ROTATION_QUANTA`, a full turn being
62832 units; the three transparency modes are numbered 0, 1, 2.  It serves to
evaluate the model on examples. -/

/-- A concrete `Env`, with `Int` for `float`. -/
def demoEnv : Env Int :=
  { SPIN_ROTATION_STEADY := -7854
  , spin_advance := fun r speed => r + speed
  , FastMath_normalizeAngle := fun r => r % 62832
  , MESH_TRANSPARENCY_SOLID := 0
  , MESH_TRANSPARENCY_XRAY := 1
  , MESH_TRANSPARENCY_WIREFRAME := 2
  , solid_ne_xray := by decide
  , solid_ne_wireframe := by decide
  , xray_ne_wireframe := by decide
  , QEMU := false }

/-- An allocation plan in which every allocation succeeds. -/
def allocAll : AllocPlan :=
  { sampler_accelX := true, sampler_accelY := true, sampler_accelZ := true
  , spinRotationFraction := true, animRotationFraction := true
  , animTranslationFraction := true }

/-- A reading of a watch lying flat: the peek succeeds. -/
def flatReading : AccelData := { result := 0, x := 0, y := 0, z := -1000 }

/-- A failed peek. -/
def failedReading : AccelData := { result := -1, x := 0, y := 0, z := 0 }

/-- The state in which `app_init` leaves a first launch: empty storage, every
allocation successful, the watch lying flat.  The world mode is dynamic. -/
def demoWorld : World Int :=
  app_init demoEnv (World.boot demoEnv []) allocAll flatReading

/-- The state in which `app_init` leaves a launch that finds the steady world
mode in persistent storage. -/
def demoSteadyWorld : World Int :=
  app_init demoEnv (World.boot demoEnv [(PKEY_WORLD_MODE, WORLD_MODE_STEADY)]) allocAll
    flatReading

/-- The state of a first launch after one punch: dynamic mode, spin speed
1000. -/
def demoPunchedWorld : World Int :=
  accel_tap_service_handler demoEnv demoWorld .ACCEL_AXIS_X 1


/-- Ninety-one seconds without user interaction: the one-second ticks from
12:00:00 to 12:01:30 of the first day of a month. -/
def idleEvents : List Event :=
  (List.range 91).map fun i => Event.tick 1 12 (i / 60) (i % 60)

end FlipClock3D

/-! # Theorems -/

namespace FlipClock3D

section Frames

variable {F : Type}

/-! ## Frame lemmas: what the auxiliary steps leave alone -/

@[simp] theorem call_log (s : World F) (c : Call F) : (call s c).log = s.log ++ [c] := rfl
@[simp] theorem call_mode (s : World F) (c : Call F) :
    (call s c).s_world_mode = s.s_world_mode := rfl
@[simp] theorem call_speed (s : World F) (c : Call F) :
    (call s c).s_spin_speed = s.s_spin_speed := rfl
@[simp] theorem call_rotation (s : World F) (c : Call F) :
    (call s c).s_spin_rotation = s.s_spin_rotation := rfl
@[simp] theorem call_cam (s : World F) (c : Call F) : (call s c).s_cam = s.s_cam := rfl

@[simp] theorem push_sample_mode (s : World F) (a : AccelAxisType) (v : Int) :
    (push_sample s a v).s_world_mode = s.s_world_mode := by
  cases a <;> rfl

@[simp] theorem push_sample_speed (s : World F) (a : AccelAxisType) (v : Int) :
    (push_sample s a v).s_spin_speed = s.s_spin_speed := by
  cases a <;> rfl

@[simp] theorem push_sample_rotation (s : World F) (a : AccelAxisType) (v : Int) :
    (push_sample s a v).s_spin_rotation = s.s_spin_rotation := by
  cases a <;> rfl

@[simp] theorem push_sample_cam (s : World F) (a : AccelAxisType) (v : Int) :
    (push_sample s a v).s_cam = s.s_cam := by
  cases a <;> rfl

@[simp] theorem push_sample_log (s : World F) (a : AccelAxisType) (v : Int) :
    (push_sample s a v).log = s.log ++ [.Sampler_push a (samplerOf s a).isSome v] := by
  cases a <;> rfl

@[simp] theorem push_reading_mode (E : Env F) (s : World F) (ad : AccelData) :
    (push_reading E s ad).s_world_mode = s.s_world_mode := by
  unfold push_reading push_triple
  split_ifs <;> simp

@[simp] theorem push_reading_speed (E : Env F) (s : World F) (ad : AccelData) :
    (push_reading E s ad).s_spin_speed = s.s_spin_speed := by
  unfold push_reading push_triple
  split_ifs <;> simp

@[simp] theorem push_reading_rotation (E : Env F) (s : World F) (ad : AccelData) :
    (push_reading E s ad).s_spin_rotation = s.s_spin_rotation := by
  unfold push_reading push_triple
  split_ifs <;> simp

@[simp] theorem configure_camera_mode (s : World F) (r : F) :
    (configure_camera s r).s_world_mode = s.s_world_mode := by
  unfold configure_camera
  split <;> simp [cam_config]

@[simp] theorem configure_camera_speed (s : World F) (r : F) :
    (configure_camera s r).s_spin_speed = s.s_spin_speed := by
  unfold configure_camera
  split <;> simp [cam_config]

@[simp] theorem configure_camera_rotation (s : World F) (r : F) :
    (configure_camera s r).s_spin_rotation = s.s_spin_rotation := by
  unfold configure_camera
  split <;> simp [cam_config]

@[simp] theorem spin_step_mode (E : Env F) (s : World F) :
    (spin_step E s).s_world_mode = s.s_world_mode := by
  unfold spin_step
  simp only []
  split_ifs <;> rfl

@[simp] theorem spin_step_speed (E : Env F) (s : World F) :
    (spin_step E s).s_spin_speed = friction s.s_spin_speed := by
  unfold spin_step
  simp only []
  split_ifs <;> rfl

@[simp] theorem update_prologue_mode (s : World F) :
    (update_prologue s).s_world_mode = s.s_world_mode := rfl

@[simp] theorem update_prologue_speed (s : World F) :
    (update_prologue s).s_spin_speed = s.s_spin_speed := rfl

@[simp] theorem update_prologue_log (s : World F) :
    (update_prologue s).log
      = s.log ++ [.Clock3D_updateAnimation s.s_clock.status ANIMATION_FLIP_STEPS] := rfl

@[simp] theorem update_active_mode (E : Env F) (s : World F) (ad : AccelData) :
    (update_active E s ad).s_world_mode = s.s_world_mode := by
  unfold update_active
  dsimp only
  split_ifs <;> simp

theorem update_active_speed_dynamic (E : Env F) (s : World F) (ad : AccelData)
    (h : s.s_world_mode = WORLD_MODE_DYNAMIC) :
    (update_active E s ad).s_spin_speed = friction s.s_spin_speed := by
  unfold update_active
  dsimp only
  rw [if_pos (by simpa using h)]
  simp

/-- An update tick never changes the world mode. -/
theorem world_update_mode (E : Env F) (s : World F) (ad : AccelData) :
    (world_update E s ad).s_world_mode = s.s_world_mode := by
  unfold world_update
  dsimp only
  split_ifs <;> simp

/-- In dynamic mode an update tick is the prologue, the guarded block and the
request to redraw. -/
theorem world_update_dynamic (E : Env F) (s : World F) (ad : AccelData)
    (h : s.s_world_mode = WORLD_MODE_DYNAMIC) :
    world_update E s ad = call (update_active E (update_prologue s) ad) .layer_mark_dirty := by
  unfold world_update
  dsimp only
  rw [if_pos]
  rw [update_prologue_mode, h]
  decide

/-- In steady mode an update tick is the prologue and the request to redraw. -/
theorem world_update_steady (E : Env F) (s : World F) (ad : AccelData)
    (h : s.s_world_mode = WORLD_MODE_STEADY) :
    world_update E s ad = call (update_prologue s) .layer_mark_dirty := by
  unfold world_update
  dsimp only
  rw [if_neg]
  rw [update_prologue_mode, h]
  simp

/-- In dynamic mode an update tick applies the friction statements to the
spin speed, and nothing else. -/
theorem world_update_speed_dynamic (E : Env F) (s : World F) (ad : AccelData)
    (h : s.s_world_mode = WORLD_MODE_DYNAMIC) :
    (world_update E s ad).s_spin_speed = friction s.s_spin_speed := by
  rw [world_update_dynamic E s ad h, call_speed,
    update_active_speed_dynamic E _ ad (by simpa using h), update_prologue_speed]

/-- On a representable speed the friction statements move the speed one unit
toward 0 and stop at 0. -/
theorem friction_eq (v : Int) (h : isInt32 v) :
    friction v = if 0 < v then v - 1 else if v < 0 then v + 1 else 0 := by
  unfold isInt32 INT_MIN INT_MAX at h
  unfold friction wrapInt32
  dsimp only
  split_ifs <;> omega

theorem friction_isInt32 (v : Int) (h : isInt32 v) : isInt32 (friction v) := by
  rw [friction_eq v h]
  unfold isInt32 INT_MIN INT_MAX at *
  split_ifs <;> omega

theorem friction_closed_form (v : Int) (h : isInt32 v) (k : Int) (hk : 0 ≤ k) :
    Int.sign (friction v) * max (|friction v| - k) 0
      = Int.sign v * max (|v| - (k + 1)) 0 := by
  rw [friction_eq v h]
  rcases lt_trichotomy v 0 with hv | hv | hv
  · have h1 : ¬ 0 < v := by omega
    simp only [h1, hv, if_true, if_false]
    rcases eq_or_lt_of_le (show v + 1 ≤ 0 by omega) with h0 | h0
    · have : v = -1 := by omega
      subst this
      simp
      omega
    · rw [Int.sign_eq_neg_one_of_neg h0, Int.sign_eq_neg_one_of_neg hv,
        abs_of_neg h0, abs_of_neg hv]
      congr 2
      omega
  · subst hv; simp
  · simp only [hv, if_true]
    rcases eq_or_lt_of_le (show 0 ≤ v - 1 by omega) with h0 | h0
    · have : v = 1 := by omega
      subst this
      simp
      omega
    · rw [Int.sign_eq_one_of_pos h0, Int.sign_eq_one_of_pos hv,
        abs_of_pos h0, abs_of_pos hv]
      congr 2
      omega

@[simp] theorem push_sample_clock (s : World F) (a : AccelAxisType) (v : Int) :
    (push_sample s a v).s_clock = s.s_clock := by
  cases a <;> rfl

@[simp] theorem push_sample_samplerOf_X (s : World F) (a : AccelAxisType) (v : Int) :
    (push_sample s a v).sampler_accelX
      = if a = .ACCEL_AXIS_X then s.sampler_accelX.map (Sampler_push · v)
        else s.sampler_accelX := by
  cases a <;> rfl

@[simp] theorem push_sample_samplerOf_Y (s : World F) (a : AccelAxisType) (v : Int) :
    (push_sample s a v).sampler_accelY
      = if a = .ACCEL_AXIS_Y then s.sampler_accelY.map (Sampler_push · v)
        else s.sampler_accelY := by
  cases a <;> rfl

@[simp] theorem push_sample_samplerOf_Z (s : World F) (a : AccelAxisType) (v : Int) :
    (push_sample s a v).sampler_accelZ
      = if a = .ACCEL_AXIS_Z then s.sampler_accelZ.map (Sampler_push · v)
        else s.sampler_accelZ := by
  cases a <;> rfl

/-- The calls and the sampler updates of one pushed triple. -/
theorem push_triple_spec (s : World F) (x y z : Int) :
    (push_triple s x y z).log
        = s.log ++ [.Sampler_push .ACCEL_AXIS_X s.sampler_accelX.isSome x,
                    .Sampler_push .ACCEL_AXIS_Y s.sampler_accelY.isSome y,
                    .Sampler_push .ACCEL_AXIS_Z s.sampler_accelZ.isSome z]
      ∧ (push_triple s x y z).sampler_accelX = s.sampler_accelX.map (Sampler_push · x)
      ∧ (push_triple s x y z).sampler_accelY = s.sampler_accelY.map (Sampler_push · y)
      ∧ (push_triple s x y z).sampler_accelZ = s.sampler_accelZ.map (Sampler_push · z) := by
  unfold push_triple
  simp [samplerOf]

theorem Sampler_push_samplesNum_pos (q : Sampler) (v : Int) (h : 0 < q.samplesNum) :
    0 < (Sampler_push q v).samplesNum := by
  unfold Sampler_push
  split_ifs
  · simp
  · split <;> simpa using h

theorem sampler_ready_push (p : Option Sampler) (v : Int) (h : sampler_ready p = true) :
    ∃ m, sampler_mean (p.map (Sampler_push · v)) = some m := by
  cases p with
  | none => simp [sampler_ready] at h
  | some q =>
    have hq : 0 < q.samplesNum := by simpa [sampler_ready] using h
    have := Sampler_push_samplesNum_pos q v hq
    refine ⟨Int.tdiv (Sampler_push q v).samplesAcum (Sampler_push q v).samplesNum, ?_⟩
    simp only [Option.map_some', sampler_mean]
    rw [if_neg (by omega)]

theorem push_reading_eq (E : Env F) (s : World F) (ad : AccelData) :
    push_reading E s ad
      = push_triple s (reading_pushed E ad).1 (reading_pushed E ad).2.1
          (reading_pushed E ad).2.2 := by
  unfold push_reading reading_pushed
  split_ifs <;> rfl

/-- The camera step adds calls, none of which is the hundredths update. -/
theorem configure_camera_log (s : World F) (r : F) :
    ∃ L, (configure_camera s r).log = s.log ++ L
      ∧ count_calls is_second100ths_update L = 0 := by
  unfold configure_camera
  split
  · refine ⟨_, rfl, ?_⟩
    rfl
  · refine ⟨[.Sampler_read .ACCEL_AXIS_X s.sampler_accelX.isSome,
        .Sampler_read .ACCEL_AXIS_Y s.sampler_accelY.isSome,
        .Sampler_read .ACCEL_AXIS_Z s.sampler_accelZ.isSome], ?_, ?_⟩
    · simp
    · rfl

/-- With three ready samplers the camera step is one call of `cam_config`. -/
theorem configure_camera_ready (s : World F) (r : F)
    (hx : ∃ m, sampler_mean s.sampler_accelX = some m)
    (hy : ∃ m, sampler_mean s.sampler_accelY = some m)
    (hz : ∃ m, sampler_mean s.sampler_accelZ = some m) :
    ∃ x y z, configure_camera s r = cam_config s x y z r := by
  obtain ⟨mx, hx⟩ := hx
  obtain ⟨my, hy⟩ := hy
  obtain ⟨mz, hz⟩ := hz
  refine ⟨mx, -my, -mz, ?_⟩
  unfold configure_camera
  rw [hx, hy, hz]

@[simp] theorem spin_step_log (E : Env F) (s : World F) : (spin_step E s).log = s.log := by
  unfold spin_step
  simp only []
  split_ifs <;> rfl

@[simp] theorem spin_step_samplers (E : Env F) (s : World F) :
    (spin_step E s).sampler_accelX = s.sampler_accelX
      ∧ (spin_step E s).sampler_accelY = s.sampler_accelY
      ∧ (spin_step E s).sampler_accelZ = s.sampler_accelZ := by
  unfold spin_step
  simp only []
  split_ifs <;> exact ⟨rfl, rfl, rfl⟩

theorem count_calls_append (p : Call F → Bool) (L M : List (Call F)) :
    count_calls p (L ++ M) = count_calls p L + count_calls p M := by
  simp [count_calls]

theorem new_calls_append (s t : World F) (L : List (Call F)) (h : t.log = s.log ++ L) :
    new_calls s t = L := by
  simp [new_calls, h]

/-- The calls of the guarded block of `world_update`: the hundredths update,
the peek, the three pushes, then the calls of the camera step. -/
theorem update_active_log (E : Env F) (s : World F) (ad : AccelData) :
    ∃ L, (update_active E s ad).log
        = s.log ++ ([.Clock3D_second100ths_update s.s_clock.status, .accel_service_peek,
            .Sampler_push .ACCEL_AXIS_X s.sampler_accelX.isSome (reading_pushed E ad).1,
            .Sampler_push .ACCEL_AXIS_Y s.sampler_accelY.isSome (reading_pushed E ad).2.1,
            .Sampler_push .ACCEL_AXIS_Z s.sampler_accelZ.isSome (reading_pushed E ad).2.2]
            ++ L)
      ∧ count_calls is_second100ths_update L = 0 := by
  unfold update_active
  dsimp only
  split_ifs
  · obtain ⟨L, hL, hc⟩ := configure_camera_log
      (spin_step E (push_reading E (call (call s
        (.Clock3D_second100ths_update s.s_clock.status)) .accel_service_peek) ad))
      (spin_step E (push_reading E (call (call s
        (.Clock3D_second100ths_update s.s_clock.status)) .accel_service_peek) ad)).s_spin_rotation
    refine ⟨L, ?_, hc⟩
    rw [hL, spin_step_log, push_reading_eq, (push_triple_spec _ _ _ _).1]
    simp [call]
  · obtain ⟨L, hL, hc⟩ := configure_camera_log
      (push_reading E (call (call s
        (.Clock3D_second100ths_update s.s_clock.status)) .accel_service_peek) ad)
      E.SPIN_ROTATION_STEADY
    refine ⟨L, ?_, hc⟩
    rw [hL, push_reading_eq, (push_triple_spec _ _ _ _).1]
    simp [call]


@[simp] theorem call_samplerX (s : World F) (c : Call F) :
    (call s c).sampler_accelX = s.sampler_accelX := rfl
@[simp] theorem call_samplerY (s : World F) (c : Call F) :
    (call s c).sampler_accelY = s.sampler_accelY := rfl
@[simp] theorem call_samplerZ (s : World F) (c : Call F) :
    (call s c).sampler_accelZ = s.sampler_accelZ := rfl
@[simp] theorem call_clock (s : World F) (c : Call F) : (call s c).s_clock = s.s_clock := rfl

theorem sampler_ready_isSome (p : Option Sampler) (h : sampler_ready p = true) :
    p.isSome = true := by
  cases p with
  | none => simp [sampler_ready] at h
  | some q => rfl

theorem reading_pushed_failed (E : Env F) (ad : AccelData) (h : ad.result < 0) :
    reading_pushed E ad = (-81, -816, -571) := by
  unfold reading_pushed
  rw [if_pos h]

/-- Outside steady mode an update tick is the prologue, the guarded block and
the request to redraw. -/
theorem world_update_active (E : Env F) (s : World F) (ad : AccelData)
    (h : s.s_world_mode ≠ WORLD_MODE_STEADY) :
    world_update E s ad = call (update_active E (update_prologue s) ad) .layer_mark_dirty := by
  unfold world_update
  dsimp only
  rw [if_pos]
  rw [update_prologue_mode]
  exact h

/-- The guarded block on a failed peek, with ready samplers: the attractor is
pushed and `cam_config` is called once. -/
theorem update_active_failed (E : Env F) (s : World F) (ad : AccelData)
    (hfail : ad.result < 0)
    (hx : sampler_ready s.sampler_accelX = true)
    (hy : sampler_ready s.sampler_accelY = true)
    (hz : sampler_ready s.sampler_accelZ = true) :
    ∃ x y z r,
      (update_active E s ad).s_cam = some { x := x, y := y, z := z, rotationZ := r }
      ∧ (update_active E s ad).log
          = s.log ++ [.Clock3D_second100ths_update s.s_clock.status, .accel_service_peek,
              .Sampler_push .ACCEL_AXIS_X true (-81),
              .Sampler_push .ACCEL_AXIS_Y true (-816),
              .Sampler_push .ACCEL_AXIS_Z true (-571),
              .CamR3_lookAtOriginUpwards x y z r]
      ∧ (update_active E s ad).sampler_accelX = s.sampler_accelX.map (Sampler_push · (-81))
      ∧ (update_active E s ad).sampler_accelY = s.sampler_accelY.map (Sampler_push · (-816))
      ∧ (update_active E s ad).sampler_accelZ = s.sampler_accelZ.map (Sampler_push · (-571)) := by
  obtain ⟨hl, hX, hY, hZ⟩ := push_triple_spec
    (call (call s (.Clock3D_second100ths_update s.s_clock.status)) .accel_service_peek)
    (-81) (-816) (-571)
  simp only [call_samplerX, call_samplerY, call_samplerZ, call_log,
    sampler_ready_isSome _ hx, sampler_ready_isSome _ hy, sampler_ready_isSome _ hz] at hl hX hY hZ
  have mX := sampler_ready_push _ (-81) hx
  have mY := sampler_ready_push _ (-816) hy
  have mZ := sampler_ready_push _ (-571) hz
  rw [← hX] at mX
  rw [← hY] at mY
  rw [← hZ] at mZ
  unfold update_active
  dsimp only
  rw [push_reading_eq, reading_pushed_failed E ad hfail]
  dsimp only
  split_ifs
  · obtain ⟨sX, sY, sZ⟩ := spin_step_samplers E
      (push_triple (call (call s (.Clock3D_second100ths_update s.s_clock.status))
        .accel_service_peek) (-81) (-816) (-571))
    rw [← sX] at mX
    rw [← sY] at mY
    rw [← sZ] at mZ
    obtain ⟨x, y, z, hc⟩ := configure_camera_ready _
      (spin_step E (push_triple (call (call s (.Clock3D_second100ths_update s.s_clock.status))
        .accel_service_peek) (-81) (-816) (-571))).s_spin_rotation mX mY mZ
    refine ⟨x, y, z,
      (spin_step E (push_triple (call (call s (.Clock3D_second100ths_update s.s_clock.status))
        .accel_service_peek) (-81) (-816) (-571))).s_spin_rotation, ?_⟩
    rw [hc]
    refine ⟨rfl, ?_, ?_, ?_, ?_⟩
    · simp [cam_config, hl]
    · simp [cam_config, sX, hX]
    · simp [cam_config, sY, hY]
    · simp [cam_config, sZ, hZ]
  · obtain ⟨x, y, z, hc⟩ := configure_camera_ready _ E.SPIN_ROTATION_STEADY mX mY mZ
    refine ⟨x, y, z, E.SPIN_ROTATION_STEADY, ?_⟩
    rw [hc]
    refine ⟨rfl, ?_, ?_, ?_, ?_⟩
    · simp [cam_config, hl]
    · simp [cam_config, hX]
    · simp [cam_config, hY]
    · simp [cam_config, hZ]


@[simp] theorem set_world_mode_mode (E : Env F) (s : World F) (m : Int) :
    (set_world_mode E s m).s_world_mode = m := by
  unfold set_world_mode
  dsimp only
  split_ifs <;> rfl

/-- The world mode after a twist. -/
theorem twist_mode (E : Env F) (s : World F) (d : Int) :
    (accel_tap_service_handler E s .ACCEL_AXIS_Y d).s_world_mode
      = if s.s_world_mode = WORLD_MODE_STEADY then WORLD_MODE_DYNAMIC
        else if s.s_world_mode = WORLD_MODE_DYNAMIC then WORLD_MODE_STEADY
        else s.s_world_mode := by
  unfold accel_tap_service_handler
  dsimp only
  split_ifs <;> simp


/-! ### Settings through initialization and finalization -/

@[simp] theorem call_transparency (s : World F) (c : Call F) :
    (call s c).s_transparencyMode = s.s_transparencyMode := rfl
@[simp] theorem call_persist (s : World F) (c : Call F) : (call s c).persist = s.persist := rfl

@[simp] theorem call_settings (s : World F) (c : Call F) :
    settings (call s c) = settings s := rfl

@[simp] theorem push_sample_settings (s : World F) (a : AccelAxisType) (v : Int) :
    settings (push_sample s a v) = settings s := by
  cases a <;> rfl

@[simp] theorem seed_loop_settings (n : Nat) (s : World F) :
    settings (seed_loop s n) = settings s := by
  induction n generalizing s with
  | zero => rfl
  | succ n ih =>
    rw [seed_loop, ih]
    unfold seed_round push_triple
    simp

@[simp] theorem new_sampler_settings (s : World F) (a : AccelAxisType) (ok : Bool) :
    settings (new_sampler s a ok) = settings s := by
  cases a <;> rfl

@[simp] theorem new_table_settings (s : World F) (t : TableId) (ok : Bool) :
    settings (new_table s t ok) = settings s := by
  cases t <;> rfl

@[simp] theorem release_sampler_settings (s : World F) (a : AccelAxisType) :
    settings (release_sampler s a) = settings s := by
  cases a <;> rfl

@[simp] theorem release_table_settings (s : World F) (t : TableId) :
    settings (release_table s t) = settings s := by
  cases t <;> rfl

/-- What `load_settings` assigns. -/
theorem load_settings_spec (E : Env F) (s : World F) :
    settings (load_settings E s)
      = ((s.persist.lookup PKEY_WORLD_MODE).getD WORLD_MODE_DYNAMIC,
         (s.persist.lookup PKEY_TRANSPARENCY_MODE).getD E.MESH_TRANSPARENCY_SOLID,
         s.persist) := by
  unfold load_settings settings
  dsimp only
  cases h1 : s.persist.lookup PKEY_WORLD_MODE <;>
    cases h2 : s.persist.lookup PKEY_TRANSPARENCY_MODE <;>
    simp [persist_exists, persist_read_int, h1, h2, WORLD_MODE_DEFAULT,
      MESH_TRANSPARENCY_DEFAULT]

@[simp] theorem clock_setup_settings (s : World F) :
    settings (clock_setup s) = settings s := rfl

@[simp] theorem clock_release_settings (s : World F) :
    settings (clock_release s) = settings s := rfl

@[simp] theorem sampler_initialize_settings (s : World F) (plan : AllocPlan) :
    settings ( sampler_initialize s plan) = settings s := by
  unfold sampler_initialize
  simp

@[simp] theorem interpolations_initialize_settings (s : World F) (plan : AllocPlan) :
    settings ( interpolations_initialize s plan) = settings s := by
  unfold interpolations_initialize
  simp

@[simp] theorem sampler_finalize_settings (s : World F) :
    settings (sampler_finalize s) = settings s := by
  unfold sampler_finalize
  simp

@[simp] theorem interpolations_finalize_settings (s : World F) :
    settings (interpolations_finalize s) = settings s := by
  unfold interpolations_finalize
  simp

/-- After `load_settings`, `world_initialize` leaves the settings alone. -/
theorem world_initialize_settings (E : Env F) (s : World F) (plan : AllocPlan) :
    settings ( world_initialize E s plan) = settings (load_settings E s) := by
  unfold world_initialize
  simp

theorem save_settings_persist (s : World F) :
    (save_settings s).persist
      = persist_write_int (persist_write_int s.persist PKEY_WORLD_MODE s.s_world_mode)
          PKEY_TRANSPARENCY_MODE s.s_transparencyMode := rfl

/-- The function `world_finalize` changes the store by its two writes only. -/
theorem world_finalize_persist (s : World F) :
    (world_finalize s).persist
      = persist_write_int (persist_write_int s.persist PKEY_WORLD_MODE s.s_world_mode)
          PKEY_TRANSPARENCY_MODE s.s_transparencyMode := by
  have h : settings (interpolations_finalize (sampler_finalize (clock_release s)))
      = settings s := by simp
  simp only [settings, Prod.mk.injEq] at h
  obtain ⟨h1, h2, h3⟩ := h
  unfold world_finalize
  dsimp only
  rw [save_settings_persist, h1, h2, h3]

theorem lookup_filter_ne (p : List (Int × Int)) (k k' : Int) (h : k' ≠ k) :
    (p.filter (fun kv => decide (kv.1 ≠ k))).lookup k' = p.lookup k' := by
  induction p with
  | nil => rfl
  | cons kv p ih =>
    obtain ⟨a, b⟩ := kv
    by_cases ha : a = k
    · subst ha
      have hk : (k' == a) = false := by simpa using h
      simpa [List.filter_cons, List.lookup_cons, hk] using ih
    · by_cases hk : k' = a
      · subst hk
        simp [List.filter_cons, List.lookup_cons, ha]
      · have hk' : (k' == a) = false := by simpa using hk
        simpa [List.filter_cons, List.lookup_cons, ha, hk'] using ih

theorem lookup_write_same (p : List (Int × Int)) (k v : Int) :
    (persist_write_int p k v).lookup k = some v := by
  simp [persist_write_int, List.lookup_cons]

theorem lookup_write_other (p : List (Int × Int)) (k k' v : Int) (h : k' ≠ k) :
    (persist_write_int p k v).lookup k' = p.lookup k' := by
  have hk : (k' == k) = false := by simpa using h
  unfold persist_write_int
  rw [List.lookup_cons, hk]
  exact lookup_filter_ne p k k' h


/-- The transparency mode after a click on the select button. -/
theorem transparency_after_click (E : Env F) (s : World F) :
    (transparencyMode_change_click_handler E s).s_transparencyMode
      = if s.s_transparencyMode = E.MESH_TRANSPARENCY_SOLID then E.MESH_TRANSPARENCY_XRAY
        else if s.s_transparencyMode = E.MESH_TRANSPARENCY_XRAY then
          E.MESH_TRANSPARENCY_WIREFRAME
        else E.MESH_TRANSPARENCY_SOLID := by
  unfold transparencyMode_change_click_handler
  dsimp only
  split_ifs <;> rfl

/-- In steady mode an update tick changes the update counter and the log, and
nothing else. -/
theorem world_update_steady_frame (E : Env F) (s : World F) (ad : AccelData)
    (h : s.s_world_mode = WORLD_MODE_STEADY) :
    world_update E s ad
      = { s with s_world_updateCount := wrapInt32 (s.s_world_updateCount + 1)
               , log := s.log ++ [.Clock3D_updateAnimation s.s_clock.status ANIMATION_FLIP_STEPS,
                                  .layer_mark_dirty] } := by
  rw [world_update_steady E s ad h]
  simp [call, update_prologue]

/-- What `world_stop` does to the state, field by field: the minutes blinker
stops, the timer of `s_world_updateTimer_ptr` is cancelled, the three services
lose their subscriber, six calls are logged. -/
theorem world_stop_eq (s : World F) :
    world_stop s
      = { s with clock_minutes_inkBlinker_running := false
               , timers :=
                   match s.s_world_updateTimer_ptr with
                   | none => s.timers
                   | some h => s.timers.filter (fun t => t ≠ h)
               , tick_subscribed := false
               , accel_tap_subscribed := false
               , accel_data_subscribed := false
               , log := s.log ++ [.Blinker_stop .clock_minutes_inkBlinker, .app_timer_cancel,
                                  .tick_timer_service_unsubscribe,
                                  .accel_tap_service_unsubscribe,
                                  .accel_data_service_unsubscribe,
                                  .compass_service_unsubscribe] } := by
  simp [world_stop, Blinker_stop, app_timer_cancel, accel_data_service_unsubscribe, call]


/-! ### The platform state through the handlers -/

@[simp] theorem call_platform (s : World F) (c : Call F) :
    platform_of (call s c) = platform_of s := rfl

@[simp] theorem push_sample_platform (s : World F) (a : AccelAxisType) (v : Int) :
    platform_of (push_sample s a v) = platform_of s := by
  cases a <;> rfl

@[simp] theorem push_reading_platform (E : Env F) (s : World F) (ad : AccelData) :
    platform_of (push_reading E s ad) = platform_of s := by
  rw [push_reading_eq]
  unfold push_triple
  simp

@[simp] theorem configure_camera_platform (s : World F) (r : F) :
    platform_of (configure_camera s r) = platform_of s := by
  unfold configure_camera
  split <;> rfl

@[simp] theorem spin_step_platform (E : Env F) (s : World F) :
    platform_of (spin_step E s) = platform_of s := by
  unfold spin_step
  dsimp only
  split_ifs <;> rfl

@[simp] theorem update_prologue_platform (s : World F) :
    platform_of (update_prologue s) = platform_of s := rfl

@[simp] theorem update_active_platform (E : Env F) (s : World F) (ad : AccelData) :
    platform_of (update_active E s ad) = platform_of s := by
  unfold update_active
  dsimp only
  split_ifs <;> simp

/-- An update tick leaves the timers, the subscriptions and the window stack
alone. -/
@[simp] theorem world_update_platform (E : Env F) (s : World F) (ad : AccelData) :
    platform_of (world_update E s ad) = platform_of s := by
  unfold world_update
  dsimp only
  split_ifs <;> simp

@[simp] theorem release_sampler_platform (s : World F) (a : AccelAxisType) :
    platform_of (release_sampler s a) = platform_of s := by
  cases a <;> rfl

@[simp] theorem release_table_platform (s : World F) (t : TableId) :
    platform_of (release_table s t) = platform_of s := by
  cases t <;> rfl

@[simp] theorem clock_release_platform (s : World F) :
    platform_of (clock_release s) = platform_of s := rfl

@[simp] theorem save_settings_platform (s : World F) :
    platform_of (save_settings s) = platform_of s := rfl

/-- The function `world_finalize` leaves the timers, the subscriptions and the
window stack alone. -/
@[simp] theorem world_finalize_platform (s : World F) :
    platform_of (world_finalize s) = platform_of s := by
  unfold world_finalize sampler_finalize interpolations_finalize
  simp

@[simp] theorem new_sampler_platform (s : World F) (a : AccelAxisType) (ok : Bool) :
    platform_of (new_sampler s a ok) = platform_of s := by
  cases a <;> rfl

@[simp] theorem new_table_platform (s : World F) (t : TableId) (ok : Bool) :
    platform_of (new_table s t ok) = platform_of s := by
  cases t <;> rfl

@[simp] theorem seed_loop_platform (n : Nat) (s : World F) :
    platform_of (seed_loop s n) = platform_of s := by
  induction n generalizing s with
  | zero => rfl
  | succ n ih =>
    rw [seed_loop, ih]
    unfold seed_round push_triple
    simp

@[simp] theorem load_settings_platform (E : Env F) (s : World F) :
    platform_of (load_settings E s) = platform_of s := by
  unfold load_settings
  dsimp only
  split_ifs <;> rfl

@[simp] theorem clock_setup_platform (s : World F) :
    platform_of (clock_setup s) = platform_of s := rfl

/-- The function `world_initialize` leaves the timers, the subscriptions and
the window stack alone. -/
@[simp] theorem world_initialize_platform (E : Env F) (s : World F) (plan : AllocPlan) :
    platform_of ( world_initialize E s plan) = platform_of s := by
  unfold world_initialize sampler_initialize interpolations_initialize
  simp


/-! ### The spin variables through starting, stopping and the life cycle -/

@[simp] theorem call_spin (s : World F) (c : Call F) : spin_of (call s c) = spin_of s := rfl

@[simp] theorem push_sample_spin (s : World F) (a : AccelAxisType) (v : Int) :
    spin_of (push_sample s a v) = spin_of s := by
  cases a <;> rfl

@[simp] theorem release_sampler_spin (s : World F) (a : AccelAxisType) :
    spin_of (release_sampler s a) = spin_of s := by
  cases a <;> rfl

@[simp] theorem release_table_spin (s : World F) (t : TableId) :
    spin_of (release_table s t) = spin_of s := by
  cases t <;> rfl

@[simp] theorem clock_release_spin (s : World F) :
    spin_of (clock_release s) = spin_of s := rfl

@[simp] theorem save_settings_spin (s : World F) :
    spin_of (save_settings s) = spin_of s := rfl

/-- The function `world_finalize` leaves the world mode, the spin variables
and the inactivity counter alone. -/
@[simp] theorem world_finalize_spin (s : World F) :
    spin_of (world_finalize s) = spin_of s := by
  unfold world_finalize sampler_finalize interpolations_finalize
  simp

/-- The function `world_stop` leaves the world mode, the spin variables and
the inactivity counter alone. -/
@[simp] theorem world_stop_spin (s : World F) : spin_of (world_stop s) = spin_of s := by
  rw [world_stop_eq]
  rfl

@[simp] theorem window_leaves_stack_spin (s : World F) :
    spin_of (window_leaves_stack s) = spin_of s := by
  unfold window_leaves_stack window_unload
  split_ifs
  · rw [world_stop_spin]
    rfl
  · rfl

@[simp] theorem window_stack_pop_all_spin (s : World F) :
    spin_of (window_stack_pop_all s) = spin_of s := by
  unfold window_stack_pop_all
  simp

@[simp] theorem app_timer_register_spin (s : World F) :
    spin_of (app_timer_register s) = spin_of s := rfl

@[simp] theorem new_sampler_spin (s : World F) (a : AccelAxisType) (ok : Bool) :
    spin_of (new_sampler s a ok) = spin_of s := by
  cases a <;> rfl

@[simp] theorem new_table_spin (s : World F) (t : TableId) (ok : Bool) :
    spin_of (new_table s t ok) = spin_of s := by
  cases t <;> rfl

@[simp] theorem seed_loop_spin (n : Nat) (s : World F) :
    spin_of (seed_loop s n) = spin_of s := by
  induction n generalizing s with
  | zero => rfl
  | succ n ih =>
    rw [seed_loop, ih]
    unfold seed_round push_triple
    simp

@[simp] theorem clock_setup_spin (s : World F) : spin_of (clock_setup s) = spin_of s := rfl

/-- After `load_settings`, `world_initialize` leaves the world mode, the spin
variables and the inactivity counter alone. -/
theorem world_initialize_spin (E : Env F) (s : World F) (plan : AllocPlan) :
    spin_of ( world_initialize E s plan) = spin_of (load_settings E s) := by
  unfold world_initialize sampler_initialize interpolations_initialize
  simp

theorem load_settings_rotation (E : Env F) (s : World F) :
    (load_settings E s).s_spin_rotation = s.s_spin_rotation := by
  unfold load_settings
  dsimp only
  split_ifs <;> rfl

/-- The spin rotation after `set_world_mode`. -/
theorem set_world_mode_rotation (E : Env F) (s : World F) (m : Int) :
    (set_world_mode E s m).s_spin_rotation
      = if m = WORLD_MODE_STEADY then E.SPIN_ROTATION_STEADY else s.s_spin_rotation := by
  unfold set_world_mode
  dsimp only
  split_ifs <;> rfl

/-- The tick handler leaves the world mode and the spin variables alone. -/
theorem tick_handler_spin (s : World F) (d h m sec : Int) :
    (tick_timer_service_handler s d h m sec).s_world_mode = s.s_world_mode
      ∧ (tick_timer_service_handler s d h m sec).s_spin_speed = s.s_spin_speed
      ∧ (tick_timer_service_handler s d h m sec).s_spin_rotation = s.s_spin_rotation := by
  have key : ∀ u : World F,
      spin_of (window_stack_pop_all (world_finalize (world_stop u))) = spin_of u := by
    intro u
    simp
  unfold tick_timer_service_handler
  dsimp only
  split_ifs with h1 h2 h2
  · have := key { s with s_user_secondsInactive := wrapUInt8 (s.s_user_secondsInactive + 1) }
    simp only [spin_of, Prod.mk.injEq] at this
    exact ⟨this.1, this.2.1, this.2.2.1⟩
  · exact ⟨rfl, rfl, rfl⟩
  · have := key s
    simp only [spin_of, Prod.mk.injEq] at this
    exact ⟨this.1, this.2.1, this.2.2.1⟩
  · exact ⟨rfl, rfl, rfl⟩


/-! ### Invariants of the event loop -/

/-- A property that every delivery preserves holds after the event loop. -/
theorem app_event_loop_invariant (E : Env F) (P : World F → Prop)
    (hstep : ∀ s e, P s → P (dispatch E s e)) (events : List Event) :
    ∀ s, P s → P (app_event_loop E s events) := by
  induction events with
  | nil => intro s h; exact h
  | cons e es ih =>
    intro s h
    unfold app_event_loop
    split_ifs
    · exact ih _ (hstep s e h)
    · exact h

/-! ### Delivery, event by event -/

theorem dispatch_tick (E : Env F) (s : World F) (d h m sec : Int) :
    dispatch E s (.tick d h m sec)
      = if s.tick_subscribed then tick_timer_service_handler s d h m sec else s := rfl

theorem dispatch_tap (E : Env F) (s : World F) (axis : AccelAxisType) (d : Int) :
    dispatch E s (.tap axis d)
      = if s.accel_tap_subscribed then accel_tap_service_handler E s axis d else s := rfl

theorem dispatch_update_timer (E : Env F) (s : World F) (ad : AccelData) :
    dispatch E s (.update_timer ad)
      = match s.timers with
        | [] => s
        | _ :: rest => world_update_timer_handler E { s with timers := rest } ad := rfl

theorem dispatch_button_up (E : Env F) (s : World F) :
    dispatch E s .button_up
      = match s.click_provider with
        | .normalMode_click_config_provider => spinSpeed_decrement_click_handler s
        | .configMode_click_config_provider => displayType_cycle_click_handler s := rfl

theorem dispatch_button_down (E : Env F) (s : World F) :
    dispatch E s .button_down
      = match s.click_provider with
        | .normalMode_click_config_provider => spinSpeed_increment_click_handler s
        | .configMode_click_config_provider => displayType_cycle_click_handler s := rfl

theorem dispatch_button_select (E : Env F) (s : World F) :
    dispatch E s .button_select
      = match s.click_provider with
        | .normalMode_click_config_provider => transparencyMode_change_click_handler E s
        | .configMode_click_config_provider => s := rfl

theorem dispatch_button_select_long (E : Env F) (s : World F) :
    dispatch E s .button_select_long
      = match s.click_provider with
        | .normalMode_click_config_provider => configMode_enter_click_handler s
        | .configMode_click_config_provider => configMode_exit_click_handler s := rfl

theorem dispatch_button_back (E : Env F) (s : World F) :
    dispatch E s .button_back = window_leaves_stack s := rfl

/-- The rotation that an update tick stores: the old one, or the normalized
sum of the old one and the new speed. -/
theorem spin_step_rotation (E : Env F) (s : World F) :
    (spin_step E s).s_spin_rotation
      = if friction s.s_spin_speed ≠ 0 then
          E.FastMath_normalizeAngle (E.spin_advance s.s_spin_rotation (friction s.s_spin_speed))
        else s.s_spin_rotation := by
  unfold spin_step
  dsimp only
  split_ifs <;> rfl

theorem update_active_rotation (E : Env F) (s : World F) (ad : AccelData) :
    (update_active E s ad).s_spin_rotation
      = if s.s_world_mode = WORLD_MODE_DYNAMIC ∧ friction s.s_spin_speed ≠ 0 then
          E.FastMath_normalizeAngle (E.spin_advance s.s_spin_rotation (friction s.s_spin_speed))
        else s.s_spin_rotation := by
  unfold update_active
  dsimp only
  by_cases hm : s.s_world_mode = WORLD_MODE_DYNAMIC
  · rw [if_pos (by simpa using hm), configure_camera_rotation, spin_step_rotation]
    simp [hm]
  · rw [if_neg (by simpa using hm), configure_camera_rotation]
    simp [hm]

/-- The spin rotation after an update tick: in dynamic mode with a new speed
other than 0 it is the normalized sum, otherwise it is the old rotation. -/
theorem world_update_rotation (E : Env F) (s : World F) (ad : AccelData) :
    (world_update E s ad).s_spin_rotation
      = if s.s_world_mode = WORLD_MODE_DYNAMIC ∧ friction s.s_spin_speed ≠ 0 then
          E.FastMath_normalizeAngle (E.spin_advance s.s_spin_rotation (friction s.s_spin_speed))
        else s.s_spin_rotation := by
  by_cases hs : s.s_world_mode = WORLD_MODE_STEADY
  · rw [world_update_steady_frame E s ad hs, if_neg]
    intro hc
    rw [hs] at hc
    exact absurd hc.1 (by decide)
  · rw [world_update_active E s ad hs, call_rotation, update_active_rotation]
    rfl

/-- The property `rotation_ok` depends on the spin rotation only. -/
theorem rotation_ok_of_eq (E : Env F) {s t : World F}
    (h : t.s_spin_rotation = s.s_spin_rotation) (hs : rotation_ok E s) : rotation_ok E t := by
  unfold rotation_ok at hs ⊢
  rw [h]
  exact hs

theorem world_update_timer_handler_spin (E : Env F) (s : World F) (ad : AccelData) :
    spin_of (world_update_timer_handler E s ad) = spin_of (world_update E s ad) := by
  unfold world_update_timer_handler
  exact app_timer_register_spin _

@[simp] theorem app_deinit_spin (s : World F) : spin_of (app_deinit s) = spin_of s := by
  unfold app_deinit
  simp

theorem spin_of_rotation {s t : World F} (h : spin_of t = spin_of s) :
    t.s_spin_rotation = s.s_spin_rotation := by
  simp only [spin_of, Prod.mk.injEq] at h
  exact h.2.2.1

theorem world_update_rotation_ok (E : Env F) (s : World F) (ad : AccelData)
    (h : rotation_ok E s) : rotation_ok E (world_update E s ad) := by
  unfold rotation_ok
  rw [world_update_rotation]
  split_ifs
  · exact Or.inr ⟨_, rfl⟩
  · exact h

theorem set_world_mode_rotation_ok (E : Env F) (s : World F) (m : Int)
    (h : rotation_ok E s) : rotation_ok E (set_world_mode E s m) := by
  unfold rotation_ok
  rw [set_world_mode_rotation]
  split_ifs
  · exact Or.inl rfl
  · exact h

theorem tap_rotation_ok (E : Env F) (s : World F) (axis : AccelAxisType) (d : Int)
    (h : rotation_ok E s) : rotation_ok E (accel_tap_service_handler E s axis d) := by
  unfold accel_tap_service_handler
  dsimp only
  cases axis
  · exact h
  · dsimp only
    split_ifs
    · exact set_world_mode_rotation_ok E _ _ h
    · exact set_world_mode_rotation_ok E _ _ h
    · exact h
  · exact Or.inl rfl

theorem transparency_click_spin (E : Env F) (s : World F) :
    (transparencyMode_change_click_handler E s).s_world_mode = s.s_world_mode
      ∧ (transparencyMode_change_click_handler E s).s_spin_speed = s.s_spin_speed
      ∧ (transparencyMode_change_click_handler E s).s_spin_rotation = s.s_spin_rotation := by
  unfold transparencyMode_change_click_handler
  dsimp only
  split_ifs <;> exact ⟨rfl, rfl, rfl⟩

/-- Every delivery keeps the spin rotation at `SPIN_ROTATION_STEADY` or at a
value of `FastMath_normalizeAngle`. -/
theorem dispatch_rotation_ok (E : Env F) (s : World F) (e : Event)
    (h : rotation_ok E s) : rotation_ok E (dispatch E s e) := by
  cases e with
  | tick d hh m sec =>
    rw [dispatch_tick]
    split_ifs
    · unfold rotation_ok
      rw [(tick_handler_spin s d hh m sec).2.2]
      exact h
    · exact h
  | tap axis d =>
    rw [dispatch_tap]
    split_ifs
    · exact tap_rotation_ok E s axis d h
    · exact h
  | update_timer ad =>
    rw [dispatch_update_timer]
    split
    · exact h
    · rename_i t rest _
      apply rotation_ok_of_eq E
        (spin_of_rotation (world_update_timer_handler_spin E { s with timers := rest } ad))
      apply world_update_rotation_ok
      exact rotation_ok_of_eq E (s := s) rfl h
  | button_up =>
    rw [dispatch_button_up]
    split
    · exact rotation_ok_of_eq E (s := s) rfl h
    · exact rotation_ok_of_eq E (s := s) rfl h
  | button_down =>
    rw [dispatch_button_down]
    split
    · exact rotation_ok_of_eq E (s := s) rfl h
    · exact rotation_ok_of_eq E (s := s) rfl h
  | button_select =>
    rw [dispatch_button_select]
    split
    · unfold rotation_ok
      rw [(transparency_click_spin E s).2.2]
      exact h
    · exact h
  | button_select_long =>
    rw [dispatch_button_select_long]
    split
    · exact rotation_ok_of_eq E (s := s) rfl h
    · exact rotation_ok_of_eq E (s := s) rfl h
  | button_back =>
    rw [dispatch_button_back]
    unfold rotation_ok
    have := window_leaves_stack_spin s
    simp only [spin_of, Prod.mk.injEq] at this
    rw [this.2.2.1]
    exact h

/-- The function `world_start` keeps the spin rotation at
`SPIN_ROTATION_STEADY` or at a value of `FastMath_normalizeAngle`. -/
theorem world_start_rotation_ok (E : Env F) (s : World F) (ad : AccelData)
    (h : rotation_ok E s) : rotation_ok E (world_start E s ad) := by
  unfold world_start
  dsimp only
  apply rotation_ok_of_eq E (spin_of_rotation (world_update_timer_handler_spin E _ ad))
  apply world_update_rotation_ok
  apply rotation_ok_of_eq E
    (s := set_world_mode E (Blinker_start s .clock_minutes_inkBlinker 500 500)
      (Blinker_start s .clock_minutes_inkBlinker 500 500).s_world_mode) rfl
  apply set_world_mode_rotation_ok
  exact rotation_ok_of_eq E (s := s) rfl h

/-- The function `app_init` is `world_initialize`, the push of the window and
`world_start` on the result. -/
theorem app_init_eq (E : Env F) (s : World F) (plan : AllocPlan) (ad : AccelData) :
    app_init E s plan ad
      = world_start E
          (action_bar_layer_set_click_config_provider
            (call { ( world_initialize E s plan) with window_on_stack := true }
              .window_stack_push)
            .normalMode_click_config_provider) ad := rfl

theorem window_push_spin (s : World F) :
    spin_of (action_bar_layer_set_click_config_provider
        (call { s with window_on_stack := true } .window_stack_push)
        .normalMode_click_config_provider) = spin_of s := rfl

theorem app_init_rotation_ok (E : Env F) (s : World F) (plan : AllocPlan) (ad : AccelData)
    (h : rotation_ok E s) : rotation_ok E (app_init E s plan ad) := by
  rw [app_init_eq]
  refine world_start_rotation_ok E _ ad ?_
  refine rotation_ok_of_eq E (s := s) ?_ h
  rw [spin_of_rotation (window_push_spin _),
    spin_of_rotation (world_initialize_spin E s plan), load_settings_rotation]


/-! ### The update timer -/

@[simp] theorem call_timers (s : World F) (c : Call F) : (call s c).timers = s.timers := rfl

theorem timer_of_platform {s t : World F} (h : platform_of t = platform_of s) :
    timer_of t = timer_of s := by
  simp only [platform_of, Prod.mk.injEq] at h
  simp only [timer_of, Prod.mk.injEq]
  exact ⟨h.1, h.2.1, h.2.2.1⟩

/-- The property `timers_ok` depends on the timer state only. -/
theorem timers_ok_of_eq {s t : World F} (h : timer_of t = timer_of s) (hs : timers_ok s) :
    timers_ok t := by
  simp only [timer_of, Prod.mk.injEq] at h
  unfold timers_ok at hs ⊢
  rw [h.1, h.2.1]
  exact hs

theorem set_world_mode_timer (E : Env F) (s : World F) (m : Int) :
    timer_of (set_world_mode E s m) = timer_of s := by
  unfold set_world_mode
  dsimp only
  split_ifs <;> rfl

theorem tap_timer (E : Env F) (s : World F) (axis : AccelAxisType) (d : Int) :
    timer_of (accel_tap_service_handler E s axis d) = timer_of s := by
  unfold accel_tap_service_handler
  dsimp only
  cases axis
  · rfl
  · dsimp only
    split_ifs
    · rw [set_world_mode_timer]; rfl
    · rw [set_world_mode_timer]; rfl
    · rfl
  · rfl

theorem transparency_click_timer (E : Env F) (s : World F) :
    timer_of (transparencyMode_change_click_handler E s) = timer_of s := by
  unfold transparencyMode_change_click_handler
  dsimp only
  split_ifs <;> rfl

/-- After `world_stop` no timer is pending, provided at most the timer of
`s_world_updateTimer_ptr` was. -/
theorem world_stop_timers (s : World F) (h : timers_ok s) : (world_stop s).timers = [] := by
  rw [world_stop_eq]
  dsimp only
  rcases h with h | ⟨t, h, hp⟩
  · rw [h]
    cases s.s_world_updateTimer_ptr <;> rfl
  · rw [h, hp]
    simp

theorem world_stop_timer_ptr (s : World F) :
    (world_stop s).s_world_updateTimer_ptr = s.s_world_updateTimer_ptr := by
  rw [world_stop_eq]

/-- A state without pending timer satisfies `timers_ok`. -/
theorem timers_ok_of_nil {s : World F} (h : s.timers = []) : timers_ok s := Or.inl h

theorem window_leaves_stack_timers (s : World F) (h : s.timers = []) :
    (window_leaves_stack s).timers = [] := by
  unfold window_leaves_stack window_unload
  split_ifs
  · exact world_stop_timers _ (Or.inl h)
  · exact h

theorem window_leaves_stack_timers_ok (s : World F) (h : timers_ok s) :
    timers_ok (window_leaves_stack s) := by
  unfold window_leaves_stack window_unload
  split_ifs
  · exact Or.inl (world_stop_timers _ (timers_ok_of_eq (s := s) rfl h))
  · exact h

/-- The exit sequence of the tick handler leaves no timer pending. -/
theorem exit_sequence_timers (s : World F) (h : timers_ok s) :
    (window_stack_pop_all (world_finalize (world_stop s))).timers = [] := by
  unfold window_stack_pop_all
  apply window_leaves_stack_timers
  have h1 := timer_of_platform (world_finalize_platform (world_stop s))
  simp only [timer_of, Prod.mk.injEq] at h1
  rw [call_timers, h1.1]
  exact world_stop_timers s h

theorem tick_handler_timers_ok (s : World F) (d h m sec : Int) (hs : timers_ok s) :
    timers_ok (tick_timer_service_handler s d h m sec) := by
  unfold tick_timer_service_handler
  dsimp only
  split_ifs
  · exact Or.inl (exit_sequence_timers _ (timers_ok_of_eq (s := s) rfl hs))
  · exact timers_ok_of_eq (s := s) rfl hs
  · exact Or.inl (exit_sequence_timers _ hs)
  · exact timers_ok_of_eq (s := s) rfl hs

theorem app_timer_register_timer (s : World F) :
    (app_timer_register s).timers = s.timer_next :: s.timers
      ∧ (app_timer_register s).s_world_updateTimer_ptr = some s.timer_next := ⟨rfl, rfl⟩

/-- When no timer is pending, `world_update_timer_handler` leaves exactly the
timer it registers, and `s_world_updateTimer_ptr` holds its handle. -/
theorem world_update_timer_handler_timers_ok (E : Env F) (s : World F) (ad : AccelData)
    (h : s.timers = []) : timers_ok (world_update_timer_handler E s ad) := by
  have hp := timer_of_platform (world_update_platform E s ad)
  simp only [timer_of, Prod.mk.injEq] at hp
  unfold world_update_timer_handler
  refine Or.inr ⟨(world_update E s ad).timer_next, ?_, ?_⟩
  · rw [(app_timer_register_timer _).1, hp.1, h]
  · rw [(app_timer_register_timer _).2]

/-- Every delivery keeps at most the timer of `s_world_updateTimer_ptr`
pending. -/
theorem dispatch_timers_ok (E : Env F) (s : World F) (e : Event) (h : timers_ok s) :
    timers_ok (dispatch E s e) := by
  cases e with
  | tick d hh m sec =>
    rw [dispatch_tick]
    split_ifs
    · exact tick_handler_timers_ok s d hh m sec h
    · exact h
  | tap axis d =>
    rw [dispatch_tap]
    split_ifs
    · exact timers_ok_of_eq (tap_timer E s axis d) h
    · exact h
  | update_timer ad =>
    rw [dispatch_update_timer]
    split
    · exact h
    · rename_i t rest ht
      apply world_update_timer_handler_timers_ok
      rcases h with h | ⟨u, h, _⟩
      · rw [h] at ht
        exact absurd ht (by simp)
      · rw [h] at ht
        simp only [List.cons.injEq] at ht
        exact ht.2.symm
  | button_up =>
    rw [dispatch_button_up]
    split
    · exact timers_ok_of_eq (s := s) rfl h
    · exact timers_ok_of_eq (s := s) rfl h
  | button_down =>
    rw [dispatch_button_down]
    split
    · exact timers_ok_of_eq (s := s) rfl h
    · exact timers_ok_of_eq (s := s) rfl h
  | button_select =>
    rw [dispatch_button_select]
    split
    · exact timers_ok_of_eq (transparency_click_timer E s) h
    · exact h
  | button_select_long =>
    rw [dispatch_button_select_long]
    split
    · exact timers_ok_of_eq (s := s) rfl h
    · exact timers_ok_of_eq (s := s) rfl h
  | button_back =>
    rw [dispatch_button_back]
    exact window_leaves_stack_timers_ok s h

theorem world_start_timers_ok (E : Env F) (s : World F) (ad : AccelData)
    (h : s.timers = []) : timers_ok (world_start E s ad) := by
  unfold world_start
  dsimp only
  apply world_update_timer_handler_timers_ok
  have h1 := set_world_mode_timer E (Blinker_start s .clock_minutes_inkBlinker 500 500)
    (Blinker_start s .clock_minutes_inkBlinker 500 500).s_world_mode
  simp only [timer_of, Prod.mk.injEq] at h1
  show (set_world_mode E (Blinker_start s .clock_minutes_inkBlinker 500 500)
    (Blinker_start s .clock_minutes_inkBlinker 500 500).s_world_mode).timers = []
  rw [h1.1]
  exact h

theorem window_push_platform (s : World F) :
    timer_of (action_bar_layer_set_click_config_provider
        (call { s with window_on_stack := true } .window_stack_push)
        .normalMode_click_config_provider) = timer_of s := rfl

theorem app_init_timers_ok (E : Env F) (s : World F) (plan : AllocPlan) (ad : AccelData)
    (h : s.timers = []) : timers_ok (app_init E s plan ad) := by
  rw [app_init_eq]
  apply world_start_timers_ok
  have h1 := window_push_platform ( world_initialize E s plan)
  have h2 := timer_of_platform (world_initialize_platform E s plan)
  simp only [timer_of, Prod.mk.injEq] at h1 h2
  rw [h1.1, h2.1]
  exact h


/-! ### The accelerometer data subscription -/

/-- The property `sensor_tracks_mode` depends on the subscription and the
world mode only. -/
theorem sensor_tracks_mode_of_eq {s t : World F} (h : sense_of t = sense_of s)
    (hs : sensor_tracks_mode s) : sensor_tracks_mode t := by
  simp only [sense_of, Prod.mk.injEq] at h
  unfold sensor_tracks_mode at hs ⊢
  rw [h.1, h.2]
  exact hs

/-- The subscription after `set_world_mode`. -/
theorem set_world_mode_subscribed (E : Env F) (s : World F) (m : Int) :
    (set_world_mode E s m).accel_data_subscribed
      = if m = WORLD_MODE_DYNAMIC then true
        else if s.s_world_mode = WORLD_MODE_DYNAMIC then false
        else s.accel_data_subscribed := by
  unfold set_world_mode
  dsimp only
  by_cases h1 : m = WORLD_MODE_STEADY
  · have h2 : m ≠ WORLD_MODE_DYNAMIC := by rw [h1]; decide
    rw [if_pos h1, if_neg h2]
    split_ifs <;> rfl
  · rw [if_neg h1]
    split_ifs <;> rfl

/-- After `set_world_mode` the subscription tracks the mode, provided it did
before or the service had no subscriber. -/
theorem set_world_mode_tracks (E : Env F) (s : World F) (m : Int)
    (h : sensor_tracks_mode s ∨ s.accel_data_subscribed = false) :
    sensor_tracks_mode (set_world_mode E s m) := by
  unfold sensor_tracks_mode
  rw [set_world_mode_subscribed, set_world_mode_mode]
  by_cases hm : m = WORLD_MODE_DYNAMIC
  · rw [if_pos hm]
    exact ⟨fun _ => hm, fun _ => rfl⟩
  · rw [if_neg hm]
    by_cases hs : s.s_world_mode = WORLD_MODE_DYNAMIC
    · rw [if_pos hs]
      exact ⟨fun h => absurd h (by decide), fun h => absurd h hm⟩
    · rw [if_neg hs]
      constructor
      · intro hsub
        rcases h with h | h
        · exact absurd (h.mp hsub) hs
        · rw [h] at hsub
          exact absurd hsub (by decide)
      · intro h'
        exact absurd h' hm

theorem world_update_sense (E : Env F) (s : World F) (ad : AccelData) :
    sense_of (world_update E s ad) = sense_of s := by
  have h1 := world_update_platform E s ad
  simp only [platform_of, Prod.mk.injEq] at h1
  simp only [sense_of, Prod.mk.injEq]
  exact ⟨h1.2.2.2.1, world_update_mode E s ad⟩

theorem app_timer_register_sense (s : World F) :
    sense_of (app_timer_register s) = sense_of s := rfl

theorem world_update_timer_handler_sense (E : Env F) (s : World F) (ad : AccelData) :
    sense_of (world_update_timer_handler E s ad) = sense_of (world_update E s ad) := by
  unfold world_update_timer_handler
  exact app_timer_register_sense _

theorem tap_tracks (E : Env F) (s : World F) (axis : AccelAxisType) (d : Int)
    (h : sensor_tracks_mode s) : sensor_tracks_mode (accel_tap_service_handler E s axis d) := by
  unfold accel_tap_service_handler
  dsimp only
  cases axis
  · exact sensor_tracks_mode_of_eq (s := s) rfl h
  · dsimp only
    split_ifs
    · exact set_world_mode_tracks E _ _ (Or.inl (sensor_tracks_mode_of_eq (s := s) rfl h))
    · exact set_world_mode_tracks E _ _ (Or.inl (sensor_tracks_mode_of_eq (s := s) rfl h))
    · exact sensor_tracks_mode_of_eq (s := s) rfl h
  · exact sensor_tracks_mode_of_eq (s := s) rfl h

theorem transparency_click_sense (E : Env F) (s : World F) :
    sense_of (transparencyMode_change_click_handler E s) = sense_of s := by
  unfold transparencyMode_change_click_handler
  dsimp only
  split_ifs <;> rfl

/-- A tap, a click or a firing of the update timer keeps the subscription in
step with the world mode. -/
theorem dispatch_tracks (E : Env F) (s : World F) (e : Event) (he : is_world_input e = true)
    (h : sensor_tracks_mode s) : sensor_tracks_mode (dispatch E s e) := by
  cases e with
  | tick d hh m sec => simp [is_world_input] at he
  | tap axis d =>
    rw [dispatch_tap]
    split_ifs
    · exact tap_tracks E s axis d h
    · exact h
  | update_timer ad =>
    rw [dispatch_update_timer]
    split
    · exact h
    · rename_i t rest _
      apply sensor_tracks_mode_of_eq
        ((world_update_timer_handler_sense E _ ad).trans (world_update_sense E _ ad))
      exact sensor_tracks_mode_of_eq (s := s) rfl h
  | button_up =>
    rw [dispatch_button_up]
    split
    · exact sensor_tracks_mode_of_eq (s := s) rfl h
    · exact sensor_tracks_mode_of_eq (s := s) rfl h
  | button_down =>
    rw [dispatch_button_down]
    split
    · exact sensor_tracks_mode_of_eq (s := s) rfl h
    · exact sensor_tracks_mode_of_eq (s := s) rfl h
  | button_select =>
    rw [dispatch_button_select]
    split
    · exact sensor_tracks_mode_of_eq (transparency_click_sense E s) h
    · exact h
  | button_select_long =>
    rw [dispatch_button_select_long]
    split
    · exact sensor_tracks_mode_of_eq (s := s) rfl h
    · exact sensor_tracks_mode_of_eq (s := s) rfl h
  | button_back => simp [is_world_input] at he

/-- After `world_start` from a state without subscriber the subscription
tracks the world mode. -/
theorem world_start_tracks (E : Env F) (s : World F) (ad : AccelData)
    (h : s.accel_data_subscribed = false) : sensor_tracks_mode (world_start E s ad) := by
  unfold world_start
  dsimp only
  apply sensor_tracks_mode_of_eq
    ((world_update_timer_handler_sense E _ ad).trans (world_update_sense E _ ad))
  apply sensor_tracks_mode_of_eq
    (s := set_world_mode E (Blinker_start s .clock_minutes_inkBlinker 500 500)
      (Blinker_start s .clock_minutes_inkBlinker 500 500).s_world_mode) rfl
  apply set_world_mode_tracks
  right
  rw [← h]
  cases s
  rfl

theorem foldl_dispatch_tracks (E : Env F) (events : List Event)
    (hin : ∀ e ∈ events, is_world_input e = true) :
    ∀ s : World F, sensor_tracks_mode s → sensor_tracks_mode (events.foldl (dispatch E) s) := by
  induction events with
  | nil => intro s h; exact h
  | cons e es ih =>
    intro s h
    rw [List.foldl_cons]
    exact ih (fun e' he' => hin e' (List.mem_cons_of_mem _ he')) _
      (dispatch_tracks E s e (hin e (List.mem_cons_self _ _)) h)


/-! ### The calls of initialization -/

theorem push_triple_isSome (s : World F) (x y z : Int) :
    (push_triple s x y z).sampler_accelX.isSome = s.sampler_accelX.isSome
      ∧ (push_triple s x y z).sampler_accelY.isSome = s.sampler_accelY.isSome
      ∧ (push_triple s x y z).sampler_accelZ.isSome = s.sampler_accelZ.isSome := by
  obtain ⟨_, hX, hY, hZ⟩ := push_triple_spec s x y z
  rw [hX, hY, hZ]
  simp

/-- The calls of `n` rounds of the seeding loop. -/
theorem seed_loop_log (n : Nat) (s : World F) :
    (seed_loop s n).log
      = s.log ++ (List.replicate n (seed_calls s.sampler_accelX.isSome
          s.sampler_accelY.isSome s.sampler_accelZ.isSome)).flatten := by
  induction n generalizing s with
  | zero => simp [seed_loop]
  | succ n ih =>
    obtain ⟨hX, hY, hZ⟩ := push_triple_isSome s (-81) (-816) (-571)
    rw [seed_loop, ih, seed_round, hX, hY, hZ, (push_triple_spec s _ _ _).1,
      List.replicate_succ, List.flatten_cons, List.append_assoc]
    rfl

/-- The samplers after `n` rounds of the seeding loop. -/
theorem seed_loop_samplers (n : Nat) (s : World F) :
    (seed_loop s n).sampler_accelX = s.sampler_accelX.map (fun q => (Sampler_push · (-81))^[n] q)
      ∧ (seed_loop s n).sampler_accelY
          = s.sampler_accelY.map (fun q => (Sampler_push · (-816))^[n] q)
      ∧ (seed_loop s n).sampler_accelZ
          = s.sampler_accelZ.map (fun q => (Sampler_push · (-571))^[n] q) := by
  induction n generalizing s with
  | zero => simp [seed_loop]
  | succ n ih =>
    obtain ⟨_, hX, hY, hZ⟩ := push_triple_spec s (-81) (-816) (-571)
    obtain ⟨iX, iY, iZ⟩ := ih (seed_round s)
    rw [seed_loop, iX, iY, iZ, seed_round, hX, hY, hZ]
    simp only [Option.map_map]
    exact ⟨rfl, rfl, rfl⟩

theorem new_sampler_log (s : World F) (a : AccelAxisType) (ok : Bool) :
    (new_sampler s a ok).log = s.log ++ [.Sampler_new a ok] := by
  cases a <;> rfl

theorem new_samplers_pointers (s : World F) (x y z : Bool) :
    (new_sampler (new_sampler (new_sampler s .ACCEL_AXIS_X x) .ACCEL_AXIS_Y y)
        .ACCEL_AXIS_Z z).sampler_accelX
        = (if x then some (Sampler_new ACCEL_SAMPLER_CAPACITY) else none)
      ∧ (new_sampler (new_sampler (new_sampler s .ACCEL_AXIS_X x) .ACCEL_AXIS_Y y)
        .ACCEL_AXIS_Z z).sampler_accelY
        = (if y then some (Sampler_new ACCEL_SAMPLER_CAPACITY) else none)
      ∧ (new_sampler (new_sampler (new_sampler s .ACCEL_AXIS_X x) .ACCEL_AXIS_Y y)
        .ACCEL_AXIS_Z z).sampler_accelZ
        = (if z then some (Sampler_new ACCEL_SAMPLER_CAPACITY) else none) :=
  ⟨rfl, rfl, rfl⟩

/-- The calls of `sampler_initialize`. -/
theorem sampler_initialize_log (s : World F) (plan : AllocPlan) :
    ( sampler_initialize s plan).log = s.log ++ sampler_initialize_calls plan := by
  obtain ⟨pX, pY, pZ⟩ := new_samplers_pointers s plan.sampler_accelX plan.sampler_accelY
    plan.sampler_accelZ
  unfold sampler_initialize sampler_initialize_calls
  dsimp only
  rw [seed_loop_log, pX, pY, pZ, new_sampler_log, new_sampler_log, new_sampler_log]
  have e : ∀ b : Bool,
      (if b then some (Sampler_new ACCEL_SAMPLER_CAPACITY) else none).isSome = b := by
    intro b; cases b <;> rfl
  rw [e, e, e]
  simp

/-- The samplers after `sampler_initialize`. -/
theorem sampler_initialize_samplers (s : World F) (plan : AllocPlan) :
    ( sampler_initialize s plan).sampler_accelX
        = (if plan.sampler_accelX then some (seeded (-81)) else none)
      ∧ ( sampler_initialize s plan).sampler_accelY
        = (if plan.sampler_accelY then some (seeded (-816)) else none)
      ∧ ( sampler_initialize s plan).sampler_accelZ
        = (if plan.sampler_accelZ then some (seeded (-571)) else none) := by
  obtain ⟨pX, pY, pZ⟩ := new_samplers_pointers s plan.sampler_accelX plan.sampler_accelY
    plan.sampler_accelZ
  obtain ⟨hX, hY, hZ⟩ := seed_loop_samplers ACCEL_SAMPLER_CAPACITY
    (new_sampler (new_sampler (new_sampler s .ACCEL_AXIS_X plan.sampler_accelX)
      .ACCEL_AXIS_Y plan.sampler_accelY) .ACCEL_AXIS_Z plan.sampler_accelZ)
  unfold sampler_initialize
  dsimp only
  rw [hX, hY, hZ, pX, pY, pZ]
  have eX : (Sampler_push · (-81))^[ACCEL_SAMPLER_CAPACITY] (Sampler_new ACCEL_SAMPLER_CAPACITY)
      = seeded (-81) := by decide
  have eY : (Sampler_push · (-816))^[ACCEL_SAMPLER_CAPACITY] (Sampler_new ACCEL_SAMPLER_CAPACITY)
      = seeded (-816) := by decide
  have eZ : (Sampler_push · (-571))^[ACCEL_SAMPLER_CAPACITY] (Sampler_new ACCEL_SAMPLER_CAPACITY)
      = seeded (-571) := by decide
  refine ⟨?_, ?_, ?_⟩
  · cases plan.sampler_accelX
    · rfl
    · simp only [if_true, Option.map_some', eX]
  · cases plan.sampler_accelY
    · rfl
    · simp only [if_true, Option.map_some', eY]
  · cases plan.sampler_accelZ
    · rfl
    · simp only [if_true, Option.map_some', eZ]

/-- The calls of `interpolations_initialize`. -/
theorem interpolations_initialize_log (s : World F) (plan : AllocPlan) :
    ( interpolations_initialize s plan).log = s.log ++ interpolations_initialize_calls plan := by
  unfold interpolations_initialize interpolations_initialize_calls new_table
  simp [call]

/-- The calls of `load_settings`. -/
theorem load_settings_log (E : Env F) (s : World F) :
    (load_settings E s).log = s.log ++ load_settings_calls s.persist := by
  unfold load_settings load_settings_calls
  dsimp only
  cases h1 : persist_exists s.persist PKEY_WORLD_MODE <;>
    cases h2 : persist_exists s.persist PKEY_TRANSPARENCY_MODE <;>
    simp [call, h1, h2]


@[simp] theorem new_sampler_clock (s : World F) (a : AccelAxisType) (ok : Bool) :
    (new_sampler s a ok).s_clock = s.s_clock := by
  cases a <;> rfl

@[simp] theorem new_table_clock (s : World F) (t : TableId) (ok : Bool) :
    (new_table s t ok).s_clock = s.s_clock := by
  cases t <;> rfl

@[simp] theorem seed_loop_clock (n : Nat) (s : World F) :
    (seed_loop s n).s_clock = s.s_clock := by
  induction n generalizing s with
  | zero => rfl
  | succ n ih =>
    rw [seed_loop, ih]
    unfold seed_round push_triple
    simp

theorem sampler_initialize_clock (s : World F) (plan : AllocPlan) :
    ( sampler_initialize s plan).s_clock = s.s_clock := by
  unfold sampler_initialize
  simp

theorem interpolations_initialize_clock (s : World F) (plan : AllocPlan) :
    ( interpolations_initialize s plan).s_clock = s.s_clock := by
  unfold interpolations_initialize
  simp

theorem load_settings_clock (E : Env F) (s : World F) :
    (load_settings E s).s_clock = s.s_clock := by
  unfold load_settings
  dsimp only
  split_ifs <;> rfl

theorem clock_setup_log (s : World F) :
    (clock_setup s).log
      = s.log ++ [ Call.Clock3D_initialize s.s_clock.status, .mesh_inkBlinker_write .ready] := by
  simp [clock_setup, call, Clock3D.ready]

theorem clock_setup_status (s : World F) : (clock_setup s).s_clock.status = .ready := rfl

/-- The calls of `world_initialize`, in program order: the settings are
loaded, the clock initialized and its minutes slots bound, the samplers
created and seeded, the tables allocated and built, the clock configured. -/
theorem world_initialize_log (E : Env F) (s : World F) (plan : AllocPlan) :
    ( world_initialize E s plan).log
      = s.log ++ (load_settings_calls s.persist
          ++ [ Call.Clock3D_initialize s.s_clock.status, .mesh_inkBlinker_write .ready]
          ++ sampler_initialize_calls plan ++ interpolations_initialize_calls plan
          ++ [.Clock3D_config .ready]) := by
  unfold world_initialize
  dsimp only
  rw [call_log, interpolations_initialize_clock, sampler_initialize_clock, clock_setup_status,
    interpolations_initialize_log, sampler_initialize_log, clock_setup_log, load_settings_log,
    load_settings_clock]
  simp only [List.append_assoc]

/-- With the three means defined, the camera step is `cam_config` on them. -/
theorem configure_camera_of_means (s : World F) (r : F) (mx my mz : Int)
    (hx : sampler_mean s.sampler_accelX = some mx)
    (hy : sampler_mean s.sampler_accelY = some my)
    (hz : sampler_mean s.sampler_accelZ = some mz) :
    configure_camera s r = cam_config s mx (-my) (-mz) r := by
  unfold configure_camera
  rw [hx, hy, hz]

theorem seeded_fixed :
    Sampler_push (seeded (-81)) (-81) = seeded (-81)
      ∧ Sampler_push (seeded (-816)) (-816) = seeded (-816)
      ∧ Sampler_push (seeded (-571)) (-571) = seeded (-571) := by
  decide

theorem seeded_mean :
    sampler_mean (some (seeded (-81))) = some (-81)
      ∧ sampler_mean (some (seeded (-816))) = some (-816)
      ∧ sampler_mean (some (seeded (-571))) = some (-571) := by
  decide

/-- The guarded block of `world_update` on seeded samplers, when the attractor
is pushed: the samplers stay seeded and the view point is (-81, 816, 571). -/
theorem update_active_seeded (E : Env F) (s : World F) (ad : AccelData)
    (hread : reading_pushed E ad = (-81, -816, -571))
    (hx : s.sampler_accelX = some (seeded (-81)))
    (hy : s.sampler_accelY = some (seeded (-816)))
    (hz : s.sampler_accelZ = some (seeded (-571))) :
    (update_active E s ad).sampler_accelX = some (seeded (-81))
      ∧ (update_active E s ad).sampler_accelY = some (seeded (-816))
      ∧ (update_active E s ad).sampler_accelZ = some (seeded (-571))
      ∧ view_point (update_active E s ad) = some (-81, 816, 571) := by
  obtain ⟨_, hX, hY, hZ⟩ := push_triple_spec
    (call (call s (.Clock3D_second100ths_update s.s_clock.status)) .accel_service_peek)
    (-81) (-816) (-571)
  simp only [call_samplerX, call_samplerY, call_samplerZ, hx, hy, hz, Option.map_some',
    seeded_fixed.1, seeded_fixed.2.1, seeded_fixed.2.2] at hX hY hZ
  unfold update_active
  dsimp only
  rw [push_reading_eq, hread]
  dsimp only
  split_ifs
  · obtain ⟨sX, sY, sZ⟩ := spin_step_samplers E
      (push_triple (call (call s (.Clock3D_second100ths_update s.s_clock.status))
        .accel_service_peek) (-81) (-816) (-571))
    rw [hX] at sX
    rw [hY] at sY
    rw [hZ] at sZ
    rw [configure_camera_of_means _ _ (-81) (-816) (-571)
      (by rw [sX]; exact seeded_mean.1) (by rw [sY]; exact seeded_mean.2.1)
      (by rw [sZ]; exact seeded_mean.2.2)]
    exact ⟨sX, sY, sZ, rfl⟩
  · rw [configure_camera_of_means _ _ (-81) (-816) (-571)
      (by rw [hX]; exact seeded_mean.1) (by rw [hY]; exact seeded_mean.2.1)
      (by rw [hZ]; exact seeded_mean.2.2)]
    exact ⟨hX, hY, hZ, rfl⟩

/-- An update tick outside steady mode on seeded samplers, when the attractor
is pushed: the samplers stay seeded and the view point is (-81, 816, 571). -/
theorem world_update_seeded (E : Env F) (s : World F) (ad : AccelData)
    (hmode : s.s_world_mode ≠ WORLD_MODE_STEADY)
    (hread : reading_pushed E ad = (-81, -816, -571))
    (hx : s.sampler_accelX = some (seeded (-81)))
    (hy : s.sampler_accelY = some (seeded (-816)))
    (hz : s.sampler_accelZ = some (seeded (-571))) :
    (world_update E s ad).sampler_accelX = some (seeded (-81))
      ∧ (world_update E s ad).sampler_accelY = some (seeded (-816))
      ∧ (world_update E s ad).sampler_accelZ = some (seeded (-571))
      ∧ view_point (world_update E s ad) = some (-81, 816, 571) := by
  rw [world_update_active E s ad hmode]
  exact update_active_seeded E (update_prologue s) ad hread hx hy hz


/-- Update ticks outside steady mode that push the attractor keep seeded
samplers seeded and keep the view point (-81, 816, 571). -/
theorem foldl_world_update_seeded (E : Env F) (ads : List AccelData)
    (hall : ∀ ad ∈ ads, reading_pushed E ad = (-81, -816, -571)) :
    ∀ u : World F, u.s_world_mode ≠ WORLD_MODE_STEADY → samplers_seeded u →
      view_point u = some (-81, 816, 571) →
      samplers_seeded (ads.foldl (world_update E) u)
        ∧ view_point (ads.foldl (world_update E) u) = some (-81, 816, 571) := by
  induction ads with
  | nil => intro u _ hs hv; exact ⟨hs, hv⟩
  | cons ad rest ih =>
    intro u hm hs _
    obtain ⟨a, b, c, d⟩ := world_update_seeded E u ad hm
      (hall ad (List.mem_cons_self _ _)) hs.1 hs.2.1 hs.2.2
    rw [List.foldl_cons]
    exact ih (fun x hx => hall x (List.mem_cons_of_mem _ hx)) _
      (by rw [world_update_mode]; exact hm) ⟨a, b, c⟩ d

theorem new_table_samplers (s : World F) (t : TableId) (ok : Bool) :
    (new_table s t ok).sampler_accelX = s.sampler_accelX
      ∧ (new_table s t ok).sampler_accelY = s.sampler_accelY
      ∧ (new_table s t ok).sampler_accelZ = s.sampler_accelZ := by
  cases t <;> exact ⟨rfl, rfl, rfl⟩

theorem interpolations_initialize_samplers (s : World F) (plan : AllocPlan) :
    ( interpolations_initialize s plan).sampler_accelX = s.sampler_accelX
      ∧ ( interpolations_initialize s plan).sampler_accelY = s.sampler_accelY
      ∧ ( interpolations_initialize s plan).sampler_accelZ = s.sampler_accelZ := by
  unfold interpolations_initialize
  dsimp only
  simp only [(new_table_samplers _ _ _).1, (new_table_samplers _ _ _).2.1,
    (new_table_samplers _ _ _).2.2]
  exact ⟨trivial, trivial, trivial⟩

theorem interpolations_initialize_tables (s : World F) (plan : AllocPlan) :
    ( interpolations_initialize s plan).spinRotationFraction
        = build_table plan.spinRotationFraction .AccelerateDecelerate ANIMATION_SPIN_STEPS
      ∧ ( interpolations_initialize s plan).animRotationFraction
        = build_table plan.animRotationFraction .AccelerateDecelerate ANIMATION_FLIP_STEPS
      ∧ ( interpolations_initialize s plan).animTranslationFraction
        = build_table plan.animTranslationFraction .TrigonometricYoYo ANIMATION_FLIP_STEPS :=
  ⟨rfl, rfl, rfl⟩

theorem call_tables (s : World F) (c : Call F) :
    (call s c).spinRotationFraction = s.spinRotationFraction
      ∧ (call s c).animRotationFraction = s.animRotationFraction
      ∧ (call s c).animTranslationFraction = s.animTranslationFraction := ⟨rfl, rfl, rfl⟩

/-- The samplers and the tables that `world_initialize` leaves. -/
theorem world_initialize_pointers (E : Env F) (s : World F) (plan : AllocPlan) :
    ( world_initialize E s plan).sampler_accelX
        = (if plan.sampler_accelX then some (seeded (-81)) else none)
      ∧ ( world_initialize E s plan).sampler_accelY
        = (if plan.sampler_accelY then some (seeded (-816)) else none)
      ∧ ( world_initialize E s plan).sampler_accelZ
        = (if plan.sampler_accelZ then some (seeded (-571)) else none)
      ∧ ( world_initialize E s plan).spinRotationFraction
        = build_table plan.spinRotationFraction .AccelerateDecelerate ANIMATION_SPIN_STEPS
      ∧ ( world_initialize E s plan).animRotationFraction
        = build_table plan.animRotationFraction .AccelerateDecelerate ANIMATION_FLIP_STEPS
      ∧ ( world_initialize E s plan).animTranslationFraction
        = build_table plan.animTranslationFraction .TrigonometricYoYo ANIMATION_FLIP_STEPS := by
  obtain ⟨a, b, c⟩ := sampler_initialize_samplers (clock_setup (load_settings E s)) plan
  obtain ⟨a', b', c'⟩ := interpolations_initialize_samplers
    ( sampler_initialize (clock_setup (load_settings E s)) plan) plan
  obtain ⟨t1, t2, t3⟩ := interpolations_initialize_tables
    ( sampler_initialize (clock_setup (load_settings E s)) plan) plan
  unfold world_initialize
  dsimp only
  rw [call_samplerX, call_samplerY, call_samplerZ, a', b', c', a, b, c,
    (call_tables _ _).1, (call_tables _ _).2.1, (call_tables _ _).2.2, t1, t2, t3]
  exact ⟨rfl, rfl, rfl, rfl, rfl, rfl⟩


/-! ### The inactivity exit -/

@[simp] theorem release_sampler_clock (s : World F) (a : AccelAxisType) :
    (release_sampler s a).s_clock = s.s_clock := by
  cases a <;> rfl

@[simp] theorem release_table_clock (s : World F) (t : TableId) :
    (release_table s t).s_clock = s.s_clock := by
  cases t <;> rfl

@[simp] theorem save_settings_clock (s : World F) : (save_settings s).s_clock = s.s_clock := rfl

/-- The function `world_finalize` leaves the clock finalized. -/
theorem world_finalize_status (s : World F) :
    (world_finalize s).s_clock.status = .finalized := by
  unfold world_finalize sampler_finalize interpolations_finalize
  simp [clock_release]

/-- The window leaves the stack: either `world_stop` runs on the state without
the window, or nothing happens. -/
theorem window_leaves_stack_eq (s : World F) :
    window_leaves_stack s
      = if s.window_on_stack then world_stop { s with window_on_stack := false } else s := rfl

theorem window_leaves_stack_window (s : World F) :
    (window_leaves_stack s).window_on_stack = false := by
  rw [window_leaves_stack_eq]
  split_ifs with h
  · rw [world_stop_eq]
  · simpa using h

theorem window_leaves_stack_clock (s : World F) :
    (window_leaves_stack s).s_clock = s.s_clock := by
  rw [window_leaves_stack_eq]
  split_ifs
  · rw [world_stop_eq]
  · rfl

theorem window_leaves_stack_tick (s : World F) (h : s.tick_subscribed = false) :
    (window_leaves_stack s).tick_subscribed = false := by
  rw [window_leaves_stack_eq]
  split_ifs
  · rw [world_stop_eq]
  · exact h

theorem window_leaves_stack_log (s : World F) (c : Call F) (h : c ∈ s.log) :
    c ∈ (window_leaves_stack s).log := by
  rw [window_leaves_stack_eq]
  split_ifs
  · rw [world_stop_eq]
    exact List.mem_append_left _ h
  · exact h

theorem platform_tick {s t : World F} (h : platform_of t = platform_of s) :
    t.tick_subscribed = s.tick_subscribed := by
  simp only [platform_of, Prod.mk.injEq] at h
  exact h.2.2.2.2.2.1

theorem platform_window {s t : World F} (h : platform_of t = platform_of s) :
    t.window_on_stack = s.window_on_stack := by
  simp only [platform_of, Prod.mk.injEq] at h
  exact h.2.2.2.2.2.2.1

theorem platform_counter {s t : World F} (h : platform_of t = platform_of s) :
    t.s_user_secondsInactive = s.s_user_secondsInactive := by
  simp only [platform_of, Prod.mk.injEq] at h
  exact h.2.2.2.2.2.2.2

/-- The exit sequence of the tick handler: afterwards the window is off the
stack, the tick service has no subscriber, the clock is finalized and
`window_stack_pop_all` is in the log. -/
theorem exit_sequence_effects (s : World F) :
    (window_stack_pop_all (world_finalize (world_stop s))).window_on_stack = false
      ∧ (window_stack_pop_all (world_finalize (world_stop s))).tick_subscribed = false
      ∧ (window_stack_pop_all (world_finalize (world_stop s))).s_clock.status = .finalized
      ∧ Call.window_stack_pop_all
          ∈ (window_stack_pop_all (world_finalize (world_stop s))).log := by
  unfold window_stack_pop_all
  refine ⟨window_leaves_stack_window _, ?_, ?_, ?_⟩
  · apply window_leaves_stack_tick
    rw [platform_tick (call_platform _ _),
      platform_tick (world_finalize_platform (world_stop s)), world_stop_eq]
  · rw [window_leaves_stack_clock, call_clock]
    exact world_finalize_status _
  · apply window_leaves_stack_log
    rw [call_log]
    exact List.mem_append_right _ (List.mem_singleton_self _)

/-- An update tick on a world at rest leaves it at rest. -/
theorem world_update_rest (E : Env F) (s : World F) (ad : AccelData)
    (h : s.s_spin_speed = 0) : (world_update E s ad).s_spin_speed = 0 := by
  by_cases hd : s.s_world_mode = WORLD_MODE_DYNAMIC
  · rw [world_update_speed_dynamic E s ad hd, h]
    rfl
  · by_cases hs : s.s_world_mode = WORLD_MODE_STEADY
    · rw [world_update_steady_frame E s ad hs]
      exact h
    · rw [world_update_active E s ad hs, call_speed]
      unfold update_active
      dsimp only
      rw [if_neg (by simpa using hd), configure_camera_speed, push_reading_speed]
      exact h

/-- Once the window is off the stack the event loop delivers nothing. -/
theorem app_event_loop_stopped (E : Env F) (s : World F) (events : List Event)
    (h : s.window_on_stack = false) : app_event_loop E s events = s := by
  cases events with
  | nil => rfl
  | cons e es =>
    unfold app_event_loop
    rw [if_neg (by rw [h]; decide)]

/-- A tick at rest below the limit counts one second and feeds the clock. -/
theorem tick_counts (s : World F) (d h m sec : Int) (hspeed : s.s_spin_speed = 0)
    (hc : s.s_user_secondsInactive + 1 ≤ USER_SECONDSINACTIVE_MAX) :
    tick_timer_service_handler s d h m sec
      = call { s with s_user_secondsInactive := s.s_user_secondsInactive + 1 }
          (.Clock3D_setTime_DDHHMMSS s.s_clock.status d h m sec) := by
  unfold USER_SECONDSINACTIVE_MAX at hc
  have hw : wrapUInt8 (s.s_user_secondsInactive + 1) = s.s_user_secondsInactive + 1 := by
    unfold wrapUInt8
    omega
  unfold tick_timer_service_handler
  dsimp only
  rw [if_pos hspeed, hw]
  dsimp only
  rw [if_neg (by unfold USER_SECONDSINACTIVE_MAX; omega)]

/-- A tick at rest that finds the limit on the counter runs the exit
sequence. -/
theorem tick_exits (s : World F) (d h m sec : Int) (hspeed : s.s_spin_speed = 0)
    (hc : s.s_user_secondsInactive = USER_SECONDSINACTIVE_MAX) :
    ∃ t : World F,
      tick_timer_service_handler s d h m sec
        = call (window_stack_pop_all (world_finalize (world_stop t)))
            (.Clock3D_setTime_DDHHMMSS
              (window_stack_pop_all (world_finalize (world_stop t))).s_clock.status
              d h m sec) := by
  refine ⟨{ s with s_user_secondsInactive := wrapUInt8 (s.s_user_secondsInactive + 1) }, ?_⟩
  unfold tick_timer_service_handler
  dsimp only
  rw [if_pos hspeed]
  dsimp only
  rw [if_pos (by rw [hc]; decide)]

/-- A tick while the world spins leaves the counter and does not exit. -/
theorem tick_while_spinning (s : World F) (d h m sec : Int) (hspeed : s.s_spin_speed ≠ 0)
    (hc : s.s_user_secondsInactive ≤ USER_SECONDSINACTIVE_MAX) :
    tick_timer_service_handler s d h m sec
      = call s (.Clock3D_setTime_DDHHMMSS s.s_clock.status d h m sec) := by
  unfold tick_timer_service_handler
  dsimp only
  rw [if_neg hspeed, if_neg (by omega)]


theorem app_timer_register_platform (s : World F) :
    (app_timer_register s).tick_subscribed = s.tick_subscribed
      ∧ (app_timer_register s).window_on_stack = s.window_on_stack
      ∧ (app_timer_register s).s_user_secondsInactive = s.s_user_secondsInactive
      ∧ (app_timer_register s).s_spin_speed = s.s_spin_speed := ⟨rfl, rfl, rfl, rfl⟩

/-- A firing of the update timer on a world at rest: the world stays at rest,
the tick subscription, the window stack and the inactivity counter stay. -/
theorem world_update_timer_handler_idle (E : Env F) (s : World F) (ad : AccelData)
    (h : s.s_spin_speed = 0) :
    (world_update_timer_handler E s ad).tick_subscribed = s.tick_subscribed
      ∧ (world_update_timer_handler E s ad).window_on_stack = s.window_on_stack
      ∧ (world_update_timer_handler E s ad).s_user_secondsInactive = s.s_user_secondsInactive
      ∧ (world_update_timer_handler E s ad).s_spin_speed = 0 := by
  obtain ⟨a, b, c, d⟩ := app_timer_register_platform (world_update E s ad)
  unfold world_update_timer_handler
  rw [a, b, c, d, platform_tick (world_update_platform E s ad),
    platform_window (world_update_platform E s ad),
    platform_counter (world_update_platform E s ad), world_update_rest E s ad h]
  exact ⟨rfl, rfl, rfl, rfl⟩

/-- The state after the exit tick has exited. -/
theorem exit_tick_exited (t : World F) (d h m sec : Int) :
    exited (call (window_stack_pop_all (world_finalize (world_stop t)))
      (.Clock3D_setTime_DDHHMMSS
        (window_stack_pop_all (world_finalize (world_stop t))).s_clock.status d h m sec)) := by
  obtain ⟨a, b, c, e⟩ := exit_sequence_effects t
  unfold exited
  rw [platform_window (call_platform _ _), platform_tick (call_platform _ _), call_clock,
    call_log]
  exact ⟨a, b, c, List.mem_append_left _ e⟩

/-- From a running world at rest, the event loop over ticks and firings of the
update timer has exited as soon as the counter and the ticks together exceed
the limit. -/
theorem idle_loop_exits (E : Env F) (events : List Event) :
    ∀ s : World F, s.tick_subscribed = true → s.window_on_stack = true →
      s.s_spin_speed = 0 → s.s_user_secondsInactive ≤ USER_SECONDSINACTIVE_MAX →
      (∀ e ∈ events, is_idle_event e = true) →
      USER_SECONDSINACTIVE_MAX < s.s_user_secondsInactive + (events.filter is_tick).length →
      exited (app_event_loop E s events) := by
  induction events with
  | nil =>
    intro s _ _ _ hc _ hn
    simp only [List.filter_nil, List.length_nil, Nat.add_zero] at hn
    omega
  | cons e es ih =>
    intro s ht hw hs hc hidle hn
    have hrest : ∀ e' ∈ es, is_idle_event e' = true :=
      fun e' he' => hidle e' (List.mem_cons_of_mem _ he')
    unfold app_event_loop
    rw [if_pos hw]
    cases e with
    | tick d h m sec =>
      rw [dispatch_tick, if_pos ht]
      have hn' : USER_SECONDSINACTIVE_MAX
          < s.s_user_secondsInactive + 1 + (es.filter is_tick).length := by
        simp only [List.filter_cons, is_tick, if_true, List.length_cons] at hn
        omega
      by_cases hlim : s.s_user_secondsInactive + 1 ≤ USER_SECONDSINACTIVE_MAX
      · rw [tick_counts s d h m sec hs hlim]
        exact ih _ ht hw hs hlim hrest hn'
      · obtain ⟨t, ht'⟩ := tick_exits s d h m sec hs (by omega)
        rw [ht']
        have hx := exit_tick_exited t d h m sec
        rw [app_event_loop_stopped E _ es hx.1]
        exact hx
    | update_timer ad =>
      have hn' : USER_SECONDSINACTIVE_MAX
          < s.s_user_secondsInactive + (es.filter is_tick).length := by
        simpa [List.filter_cons, is_tick] using hn
      rw [dispatch_update_timer]
      split
      · exact ih s ht hw hs hc hrest hn'
      · rename_i t rest _
        obtain ⟨a, b, c, d⟩ := world_update_timer_handler_idle E { s with timers := rest } ad hs
        apply ih
        · rw [a]; exact ht
        · rw [b]; exact hw
        · exact d
        · rw [c]; exact hc
        · exact hrest
        · rw [c]; exact hn'
    | tap axis d => simpa [is_idle_event] using hidle _ (List.mem_cons_self _ _)
    | button_up => simpa [is_idle_event] using hidle _ (List.mem_cons_self _ _)
    | button_down => simpa [is_idle_event] using hidle _ (List.mem_cons_self _ _)
    | button_select => simpa [is_idle_event] using hidle _ (List.mem_cons_self _ _)
    | button_select_long => simpa [is_idle_event] using hidle _ (List.mem_cons_self _ _)
    | button_back => simpa [is_idle_event] using hidle _ (List.mem_cons_self _ _)

/-- While the world spins and the timer does not fire, ticks leave the window
on the stack, the tick subscription, the speed and the counter. -/
theorem spinning_ticks_stay (E : Env F) (events : List Event)
    (hall : ∀ e ∈ events, is_tick e = true) :
    ∀ s : World F, s.s_spin_speed ≠ 0 →
      s.s_user_secondsInactive ≤ USER_SECONDSINACTIVE_MAX →
      (app_event_loop E s events).window_on_stack = s.window_on_stack
        ∧ (app_event_loop E s events).tick_subscribed = s.tick_subscribed
        ∧ (app_event_loop E s events).s_spin_speed = s.s_spin_speed
        ∧ (app_event_loop E s events).s_user_secondsInactive = s.s_user_secondsInactive
        ∧ (app_event_loop E s events).s_clock = s.s_clock := by
  induction events with
  | nil => intro s _ _; exact ⟨rfl, rfl, rfl, rfl, rfl⟩
  | cons e es ih =>
    intro s hs hc
    have hrest : ∀ e' ∈ es, is_tick e' = true :=
      fun e' he' => hall e' (List.mem_cons_of_mem _ he')
    unfold app_event_loop
    split_ifs
    · cases e with
      | tick d h m sec =>
        rw [dispatch_tick]
        split_ifs
        · rw [tick_while_spinning s d h m sec hs hc]
          exact ih hrest _ hs hc
        · exact ih hrest s hs hc
      | tap axis d => simpa [is_tick] using hall _ (List.mem_cons_self _ _)
      | update_timer ad => simpa [is_tick] using hall _ (List.mem_cons_self _ _)
      | button_up => simpa [is_tick] using hall _ (List.mem_cons_self _ _)
      | button_down => simpa [is_tick] using hall _ (List.mem_cons_self _ _)
      | button_select => simpa [is_tick] using hall _ (List.mem_cons_self _ _)
      | button_select_long => simpa [is_tick] using hall _ (List.mem_cons_self _ _)
      | button_back => simpa [is_tick] using hall _ (List.mem_cons_self _ _)
    · exact ⟨rfl, rfl, rfl, rfl, rfl⟩


theorem window_push_sense (s : World F) :
    (action_bar_layer_set_click_config_provider
        (call { s with window_on_stack := true } .window_stack_push)
        .normalMode_click_config_provider).accel_data_subscribed
      = s.accel_data_subscribed := rfl

/-- After `app_init` from the state of program start the subscription tracks
the world mode. -/
theorem app_init_tracks (E : Env F) (store : List (Int × Int)) (plan : AllocPlan)
    (ad : AccelData) : sensor_tracks_mode (app_init E (World.boot E store) plan ad) := by
  rw [app_init_eq]
  apply world_start_tracks
  have h := world_initialize_platform E (World.boot E store) plan
  simp only [platform_of, Prod.mk.injEq] at h
  rw [window_push_sense, h.2.2.2.1]
  rfl


/-! ### The world mode and the writes under key 1 -/

theorem mode_writes_append (l1 l2 : List (Call F)) :
    mode_writes (l1 ++ l2) = mode_writes l1 ++ mode_writes l2 := by
  unfold mode_writes
  exact List.filterMap_append _ _ _

/-- A call leaves the world mode alone and adds at most one write. -/
theorem call_mode_trace (s : World F) (c : Call F) :
    mode_trace (call s c)
      = ((mode_trace s).1, (mode_trace s).2 ++ (mode_write_value c).toList) := by
  unfold mode_trace call
  dsimp only
  rw [mode_writes_append]
  cases h : mode_write_value c <;> simp [mode_writes, h]

/-- A state with the same world mode and the same writes keeps the property. -/
theorem mode_kept_of_eq {base : List Int} {s t : World F}
    (h : mode_trace t = mode_trace s) (hs : mode_kept base s) : mode_kept base t := by
  simp only [mode_trace, Prod.mk.injEq] at h
  unfold mode_kept mode_defined at hs ⊢
  rw [h.1, h.2]
  exact hs

/-- A write of the current world mode keeps the property. -/
theorem mode_kept_write {base : List Int} {s t : World F}
    (h : mode_trace t = ((mode_trace s).1, (mode_trace s).2 ++ [(mode_trace s).1]))
    (hs : mode_kept base s) : mode_kept base t := by
  simp only [mode_trace, Prod.mk.injEq] at h
  unfold mode_kept mode_defined at hs ⊢
  obtain ⟨hm, added, ha, hv⟩ := hs
  rw [h.1, h.2]
  refine ⟨hm, added ++ [s.s_world_mode], ?_, ?_⟩
  · rw [ha, List.append_assoc]
  · intro v hmem
    rcases List.mem_append.mp hmem with h1 | h1
    · exact hv v h1
    · rw [List.mem_singleton] at h1
      rw [h1]
      exact hm

@[simp] theorem push_sample_mode_trace (s : World F) (a : AccelAxisType) (v : Int) :
    mode_trace (push_sample s a v) = mode_trace s := by
  have h := call_mode_trace s (.Sampler_push a (samplerOf s a).isSome v)
  simp only [mode_write_value, Option.toList, List.append_nil, Prod.mk.eta] at h
  rw [← h]
  cases a <;> rfl

@[simp] theorem push_triple_mode_trace (s : World F) (x y z : Int) :
    mode_trace (push_triple s x y z) = mode_trace s := by
  unfold push_triple
  simp

@[simp] theorem push_reading_mode_trace (E : Env F) (s : World F) (ad : AccelData) :
    mode_trace (push_reading E s ad) = mode_trace s := by
  rw [push_reading_eq]
  simp

@[simp] theorem cam_config_mode_trace (s : World F) (x y z : Int) (r : F) :
    mode_trace (cam_config s x y z r) = mode_trace s := by
  unfold cam_config
  rw [call_mode_trace]
  simp only [mode_write_value, Option.toList, List.append_nil]
  rfl

@[simp] theorem configure_camera_mode_trace (s : World F) (r : F) :
    mode_trace (configure_camera s r) = mode_trace s := by
  unfold configure_camera
  split
  · exact cam_config_mode_trace _ _ _ _ _
  · simp only [call_mode_trace, mode_write_value, Option.toList, List.append_nil, Prod.mk.eta]

@[simp] theorem spin_step_mode_trace (E : Env F) (s : World F) :
    mode_trace (spin_step E s) = mode_trace s := by
  unfold spin_step
  dsimp only
  split_ifs <;> rfl

@[simp] theorem update_prologue_mode_trace (s : World F) :
    mode_trace (update_prologue s) = mode_trace s := by
  unfold update_prologue
  dsimp only
  rw [call_mode_trace]
  simp only [mode_write_value, Option.toList, List.append_nil]
  rfl

@[simp] theorem update_active_mode_trace (E : Env F) (s : World F) (ad : AccelData) :
    mode_trace (update_active E s ad) = mode_trace s := by
  unfold update_active
  dsimp only
  split_ifs <;>
    simp [call_mode_trace, mode_write_value, Option.toList]

/-- An update tick leaves the world mode alone and writes nothing. -/
@[simp] theorem world_update_mode_trace (E : Env F) (s : World F) (ad : AccelData) :
    mode_trace (world_update E s ad) = mode_trace s := by
  unfold world_update
  dsimp only
  rw [call_mode_trace]
  simp only [mode_write_value, Option.toList, List.append_nil, Prod.mk.eta]
  split_ifs
  · rw [update_active_mode_trace, update_prologue_mode_trace]
  · rw [update_prologue_mode_trace]

/-- The function `set_world_mode` assigns the world mode and writes nothing. -/
theorem set_world_mode_mode_trace (E : Env F) (s : World F) (m : Int) :
    mode_trace (set_world_mode E s m) = (m, (mode_trace s).2) := by
  simp only [mode_trace, Prod.mk.injEq]
  refine ⟨set_world_mode_mode E s m, ?_⟩
  unfold set_world_mode accel_data_service_subscribe accel_data_service_unsubscribe
  dsimp only
  split_ifs <;>
    simp [call, mode_writes, mode_write_value, List.filterMap_append]

/-- A tap gesture writes nothing. -/
theorem tap_writes (E : Env F) (s : World F) (axis : AccelAxisType) (d : Int) :
    (mode_trace (accel_tap_service_handler E s axis d)).2 = (mode_trace s).2 := by
  unfold accel_tap_service_handler
  dsimp only
  cases axis
  · rfl
  · dsimp only
    split_ifs
    · rw [set_world_mode_mode_trace]; rfl
    · rw [set_world_mode_mode_trace]; rfl
    · rfl
  · rfl

/-- A tap gesture keeps a defined world mode defined. -/
theorem tap_mode_defined (E : Env F) (s : World F) (axis : AccelAxisType) (d : Int)
    (h : mode_defined s) : mode_defined (accel_tap_service_handler E s axis d) := by
  unfold accel_tap_service_handler mode_defined
  dsimp only
  cases axis
  · exact h
  · dsimp only
    split_ifs
    · rw [set_world_mode_mode]; exact Or.inl rfl
    · rw [set_world_mode_mode]; exact Or.inr rfl
    · exact h
  · exact h

theorem mode_kept_of_writes {base : List Int} {s t : World F}
    (hw : (mode_trace t).2 = (mode_trace s).2) (hm : mode_defined t)
    (hs : mode_kept base s) : mode_kept base t := by
  simp only [mode_trace] at hw
  unfold mode_kept at hs ⊢
  rw [hw]
  exact ⟨hm, hs.2⟩

@[simp] theorem spinSpeed_increment_mode_trace (s : World F) :
    mode_trace (spinSpeed_increment_click_handler s) = mode_trace s := rfl

@[simp] theorem spinSpeed_decrement_mode_trace (s : World F) :
    mode_trace (spinSpeed_decrement_click_handler s) = mode_trace s := rfl

@[simp] theorem transparency_click_mode_trace (E : Env F) (s : World F) :
    mode_trace (transparencyMode_change_click_handler E s) = mode_trace s := by
  unfold transparencyMode_change_click_handler
  dsimp only
  split_ifs <;> rfl

@[simp] theorem displayType_cycle_mode_trace (s : World F) :
    mode_trace (displayType_cycle_click_handler s) = mode_trace s := by
  unfold displayType_cycle_click_handler
  dsimp only
  rw [call_mode_trace]
  simp only [mode_write_value, Option.toList, List.append_nil]
  rfl

@[simp] theorem Blinker_start_mode_trace (s : World F) (b : BlinkerRef) (n m : Nat) :
    mode_trace (Blinker_start s b n m) = mode_trace s := by
  have h := call_mode_trace s (.Blinker_start b n m)
  simp only [mode_write_value, Option.toList, List.append_nil, Prod.mk.eta] at h
  rw [← h]
  cases b <;> rfl

@[simp] theorem Blinker_stop_mode_trace (s : World F) (b : BlinkerRef) :
    mode_trace (Blinker_stop s b) = mode_trace s := by
  have h := call_mode_trace s (.Blinker_stop b)
  simp only [mode_write_value, Option.toList, List.append_nil, Prod.mk.eta] at h
  rw [← h]
  cases b <;> rfl

@[simp] theorem action_bar_mode_trace (s : World F) (p : ClickProvider) :
    mode_trace (action_bar_layer_set_click_config_provider s p) = mode_trace s := by
  unfold action_bar_layer_set_click_config_provider
  rw [call_mode_trace]
  simp only [mode_write_value, Option.toList, List.append_nil]
  rfl

@[simp] theorem mesh_write_mode_trace (s : World F) (st : ClockStatus) :
    mode_trace (call s (.mesh_inkBlinker_write st)) = mode_trace s := by
  rw [call_mode_trace]
  simp only [mode_write_value, Option.toList, List.append_nil, Prod.mk.eta]

theorem clock_update_mode_trace (s : World F) (c : Clock3D) :
    mode_trace { s with s_clock := c } = mode_trace s := rfl

theorem counter_update_mode_trace (s : World F) (n : Nat) :
    mode_trace { s with s_user_secondsInactive := n } = mode_trace s := rfl

@[simp] theorem configMode_enter_mode_trace (s : World F) :
    mode_trace (configMode_enter_click_handler s) = mode_trace s := by
  unfold configMode_enter_click_handler
  dsimp only
  rw [action_bar_mode_trace, clock_update_mode_trace, mesh_write_mode_trace,
    Blinker_start_mode_trace, counter_update_mode_trace]

@[simp] theorem configMode_exit_mode_trace (s : World F) :
    mode_trace (configMode_exit_click_handler s) = mode_trace s := by
  unfold configMode_exit_click_handler
  dsimp only
  rw [action_bar_mode_trace, Blinker_stop_mode_trace, clock_update_mode_trace,
    mesh_write_mode_trace, clock_update_mode_trace, mesh_write_mode_trace,
    counter_update_mode_trace]

@[simp] theorem app_timer_register_mode_trace (s : World F) :
    mode_trace (app_timer_register s) = mode_trace s := by
  have h := call_mode_trace s (.app_timer_register WORLD_UPDATE_INTERVAL_MS)
  simp only [mode_write_value, Option.toList, List.append_nil, Prod.mk.eta] at h
  rw [← h]
  rfl

/-- The update timer handler leaves the world mode alone and writes nothing. -/
@[simp] theorem world_update_timer_handler_mode_trace (E : Env F) (s : World F)
    (ad : AccelData) : mode_trace (world_update_timer_handler E s ad) = mode_trace s := by
  unfold world_update_timer_handler
  rw [app_timer_register_mode_trace, world_update_mode_trace]

/-- The function `world_stop` leaves the world mode alone and writes nothing. -/
@[simp] theorem world_stop_mode_trace (s : World F) :
    mode_trace (world_stop s) = mode_trace s := by
  rw [world_stop_eq]
  simp only [mode_trace, mode_writes, List.filterMap_append, List.filterMap_cons,
    List.filterMap_nil, mode_write_value, List.append_nil]

theorem subscription_update_mode_trace (s : World F) (a b : Bool) :
    mode_trace { s with tick_subscribed := a, accel_tap_subscribed := b } = mode_trace s := rfl

/-- The function `world_start` leaves the world mode alone and writes nothing:
it sets the mode to the value it has. -/
theorem world_start_mode_trace (E : Env F) (s : World F) (ad : AccelData) :
    mode_trace (world_start E s ad) = mode_trace s := by
  unfold world_start
  dsimp only
  rw [world_update_timer_handler_mode_trace, call_mode_trace]
  simp only [mode_write_value, Option.toList, List.append_nil]
  have h1 : ∀ u : World F, mode_trace { u with accel_tap_subscribed := true } = mode_trace u :=
    fun _ => rfl
  have h2 : ∀ u : World F, mode_trace { u with tick_subscribed := true } = mode_trace u :=
    fun _ => rfl
  rw [h1, call_mode_trace]
  simp only [mode_write_value, Option.toList, List.append_nil]
  rw [h2, set_world_mode_mode_trace, Blinker_start_mode_trace]
  rfl

@[simp] theorem release_sampler_mode_trace (s : World F) (a : AccelAxisType) :
    mode_trace (release_sampler s a) = mode_trace s := by
  have h : mode_trace (call (call s (.Sampler_free a (samplerOf s a).isSome))
      (.free_sampler a (samplerOf s a).isSome)) = mode_trace s := by
    simp only [call_mode_trace, mode_write_value, Option.toList, List.append_nil, Prod.mk.eta]
  rw [← h]
  cases a <;> rfl

@[simp] theorem release_table_mode_trace (s : World F) (t : TableId) :
    mode_trace (release_table s t) = mode_trace s := by
  cases t <;>
    simp only [release_table, mode_trace, mode_writes, call, List.filterMap_append,
      List.filterMap_cons, List.filterMap_nil, mode_write_value, List.append_nil]

@[simp] theorem clock_release_mode_trace (s : World F) :
    mode_trace (clock_release s) = mode_trace s := by
  have h := call_mode_trace s (.Clock3D_finalize s.s_clock.status)
  simp only [mode_write_value, Option.toList, List.append_nil, Prod.mk.eta] at h
  rw [← h]
  rfl

@[simp] theorem sampler_finalize_mode_trace (s : World F) :
    mode_trace (sampler_finalize s) = mode_trace s := by
  unfold sampler_finalize
  simp

@[simp] theorem interpolations_finalize_mode_trace (s : World F) :
    mode_trace (interpolations_finalize s) = mode_trace s := by
  unfold interpolations_finalize
  simp

/-- The function `save_settings` writes the world mode under key 1, and
nothing else under that key. -/
theorem save_settings_mode_trace (s : World F) :
    mode_trace (save_settings s)
      = ((mode_trace s).1, (mode_trace s).2 ++ [(mode_trace s).1]) := by
  simp only [save_settings, mode_trace, mode_writes, call, List.filterMap_append,
    List.filterMap_cons, List.filterMap_nil, mode_write_value, List.append_nil,
    PKEY_WORLD_MODE, PKEY_TRANSPARENCY_MODE]
  simp

/-- The function `world_finalize` leaves the world mode alone and writes it
under key 1, once. -/
theorem world_finalize_mode_trace (s : World F) :
    mode_trace (world_finalize s)
      = ((mode_trace s).1, (mode_trace s).2 ++ [(mode_trace s).1]) := by
  unfold world_finalize
  dsimp only
  rw [save_settings_mode_trace, interpolations_finalize_mode_trace,
    sampler_finalize_mode_trace, clock_release_mode_trace]

theorem window_flag_mode_trace (s : World F) (b : Bool) :
    mode_trace { s with window_on_stack := b } = mode_trace s := rfl

@[simp] theorem window_leaves_stack_mode_trace (s : World F) :
    mode_trace (window_leaves_stack s) = mode_trace s := by
  unfold window_leaves_stack window_unload
  split_ifs
  · rw [world_stop_mode_trace, window_flag_mode_trace]
  · rfl

@[simp] theorem window_stack_pop_all_mode_trace (s : World F) :
    mode_trace (window_stack_pop_all s) = mode_trace s := by
  unfold window_stack_pop_all
  rw [window_leaves_stack_mode_trace, call_mode_trace]
  simp only [mode_write_value, Option.toList, List.append_nil, Prod.mk.eta]

/-- The exit sequence of the tick handler writes the world mode once. -/
theorem exit_sequence_mode_trace (s : World F) :
    mode_trace (window_stack_pop_all (world_finalize (world_stop s)))
      = ((mode_trace s).1, (mode_trace s).2 ++ [(mode_trace s).1]) := by
  rw [window_stack_pop_all_mode_trace, world_finalize_mode_trace, world_stop_mode_trace]

/-- The tick handler leaves the world mode alone and writes nothing, or it
writes the world mode once (when it exits). -/
theorem tick_handler_mode_trace (s : World F) (d h m sec : Int) :
    mode_trace (tick_timer_service_handler s d h m sec) = mode_trace s
      ∨ mode_trace (tick_timer_service_handler s d h m sec)
          = ((mode_trace s).1, (mode_trace s).2 ++ [(mode_trace s).1]) := by
  unfold tick_timer_service_handler
  dsimp only
  rw [call_mode_trace]
  simp only [mode_write_value, Option.toList, List.append_nil, Prod.mk.eta]
  split_ifs
  · right
    rw [exit_sequence_mode_trace, counter_update_mode_trace]
  · left
    rfl
  · right
    rw [exit_sequence_mode_trace]
  · left
    rfl

theorem tick_handler_mode_kept {base : List Int} (s : World F) (d h m sec : Int)
    (hs : mode_kept base s) : mode_kept base (tick_timer_service_handler s d h m sec) := by
  rcases tick_handler_mode_trace s d h m sec with hh | hh
  · exact mode_kept_of_eq hh hs
  · exact mode_kept_write hh hs

theorem timers_update_mode_trace (s : World F) (l : List Nat) :
    mode_trace { s with timers := l } = mode_trace s := rfl

/-- Every delivery keeps the world mode defined and writes defined modes only. -/
theorem dispatch_mode_kept {base : List Int} (E : Env F) (s : World F) (e : Event)
    (hs : mode_kept base s) : mode_kept base (dispatch E s e) := by
  cases e with
  | tick d hh m sec =>
    rw [dispatch_tick]
    split_ifs
    · exact tick_handler_mode_kept s d hh m sec hs
    · exact hs
  | tap axis d =>
    rw [dispatch_tap]
    split_ifs
    · exact mode_kept_of_writes (tap_writes E s axis d) (tap_mode_defined E s axis d hs.1) hs
    · exact hs
  | update_timer ad =>
    rw [dispatch_update_timer]
    split
    · exact hs
    · rename_i t rest _
      refine mode_kept_of_eq ?_ hs
      rw [world_update_timer_handler_mode_trace, timers_update_mode_trace]
  | button_up =>
    rw [dispatch_button_up]
    split
    · exact mode_kept_of_eq (spinSpeed_decrement_mode_trace s) hs
    · exact mode_kept_of_eq (displayType_cycle_mode_trace s) hs
  | button_down =>
    rw [dispatch_button_down]
    split
    · exact mode_kept_of_eq (spinSpeed_increment_mode_trace s) hs
    · exact mode_kept_of_eq (displayType_cycle_mode_trace s) hs
  | button_select =>
    rw [dispatch_button_select]
    split
    · exact mode_kept_of_eq (transparency_click_mode_trace E s) hs
    · exact hs
  | button_select_long =>
    rw [dispatch_button_select_long]
    split
    · exact mode_kept_of_eq (configMode_enter_mode_trace s) hs
    · exact mode_kept_of_eq (configMode_exit_mode_trace s) hs
  | button_back =>
    rw [dispatch_button_back]
    exact mode_kept_of_eq (window_leaves_stack_mode_trace s) hs

theorem apply_op_mode_kept {base : List Int} (E : Env F) (s : World F) (op : WorldOp)
    (hs : mode_kept base s) : mode_kept base (apply_op E s op) := by
  cases op with
  | world_start ad => exact mode_kept_of_eq (world_start_mode_trace E s ad) hs
  | deliver e => exact dispatch_mode_kept E s e hs
  | world_stop => exact mode_kept_of_eq (world_stop_mode_trace s) hs

theorem apply_ops_mode_kept {base : List Int} (E : Env F) (ops : List WorldOp) :
    ∀ s : World F, mode_kept base s → mode_kept base (apply_ops E s ops) := by
  induction ops with
  | nil => intro s hs; exact hs
  | cons op ops ih =>
    intro s hs
    exact ih _ (apply_op_mode_kept E s op hs)

/-- What `load_settings` does to the world mode: it takes the value stored
under key 1, or the default; it writes nothing. -/
theorem load_settings_mode_trace (E : Env F) (s : World F) :
    mode_trace (load_settings E s)
      = ((s.persist.lookup PKEY_WORLD_MODE).getD WORLD_MODE_DYNAMIC, (mode_trace s).2) := by
  have h := load_settings_spec E s
  simp only [settings, Prod.mk.injEq] at h
  simp only [mode_trace, Prod.mk.injEq]
  refine ⟨h.1, ?_⟩
  rw [load_settings_log]
  cases h1 : persist_exists s.persist PKEY_WORLD_MODE <;>
    cases h2 : persist_exists s.persist PKEY_TRANSPARENCY_MODE <;>
    simp [load_settings_calls, mode_writes, mode_write_value, List.filterMap_append, h1, h2]

@[simp] theorem clock_setup_mode_trace (s : World F) :
    mode_trace (clock_setup s) = mode_trace s := by
  simp only [mode_trace, Prod.mk.injEq]
  refine ⟨rfl, ?_⟩
  rw [clock_setup_log]
  simp [mode_writes, mode_write_value, List.filterMap_append]

@[simp] theorem new_sampler_mode_trace (s : World F) (a : AccelAxisType) (ok : Bool) :
    mode_trace (new_sampler s a ok) = mode_trace s := by
  have h := call_mode_trace s (.Sampler_new a ok)
  simp only [mode_write_value, Option.toList, List.append_nil, Prod.mk.eta] at h
  rw [← h]
  cases a <;> rfl

@[simp] theorem new_table_mode_trace (s : World F) (t : TableId) (ok : Bool) :
    mode_trace (new_table s t ok) = mode_trace s := by
  cases t <;>
    simp only [new_table, mode_trace, mode_writes, call, List.filterMap_append,
      List.filterMap_cons, List.filterMap_nil, mode_write_value, List.append_nil]

@[simp] theorem seed_loop_mode_trace (n : Nat) (s : World F) :
    mode_trace (seed_loop s n) = mode_trace s := by
  induction n generalizing s with
  | zero => rfl
  | succ n ih =>
    rw [seed_loop, ih]
    unfold seed_round
    simp

@[simp] theorem sampler_initialize_mode_trace (s : World F) (plan : AllocPlan) :
    mode_trace ( sampler_initialize s plan) = mode_trace s := by
  unfold sampler_initialize
  simp

@[simp] theorem interpolations_initialize_mode_trace (s : World F) (plan : AllocPlan) :
    mode_trace ( interpolations_initialize s plan) = mode_trace s := by
  unfold interpolations_initialize
  simp

/-- The function `world_initialize` sets the world mode to the value stored
under key 1, or to the default, and writes nothing. -/
theorem world_initialize_mode_trace (E : Env F) (s : World F) (plan : AllocPlan) :
    mode_trace ( world_initialize E s plan)
      = ((s.persist.lookup PKEY_WORLD_MODE).getD WORLD_MODE_DYNAMIC, (mode_trace s).2) := by
  unfold world_initialize
  dsimp only
  rw [call_mode_trace]
  simp only [mode_write_value, Option.toList, List.append_nil, Prod.mk.eta]
  rw [interpolations_initialize_mode_trace, sampler_initialize_mode_trace,
    clock_setup_mode_trace, load_settings_mode_trace]

/-- When key 1 is absent or holds one of the two modes, `world_initialize`
leaves a defined world mode and writes nothing. -/
theorem world_initialize_mode_kept (E : Env F) (s : World F) (plan : AllocPlan)
    (hkey : mode_key_ok s.persist) :
    mode_kept (mode_writes s.log) ( world_initialize E s plan) := by
  have h := world_initialize_mode_trace E s plan
  simp only [mode_trace, Prod.mk.injEq] at h
  unfold mode_kept mode_defined
  rw [h.1, h.2]
  refine ⟨?_, [], by simp, by simp⟩
  rcases hkey with hk | hk | hk <;> rw [hk]
  · exact Or.inl rfl
  · exact Or.inl rfl
  · exact Or.inr rfl

theorem window_push_mode_trace (s : World F) :
    mode_trace (action_bar_layer_set_click_config_provider
        (call { s with window_on_stack := true } .window_stack_push)
        .normalMode_click_config_provider) = mode_trace s := by
  rw [action_bar_mode_trace, call_mode_trace]
  simp only [mode_write_value, Option.toList, List.append_nil]
  rfl

/-- The function `app_init` leaves the world mode as `world_initialize` set
it, and writes nothing. -/
theorem app_init_mode_trace (E : Env F) (s : World F) (plan : AllocPlan) (ad : AccelData) :
    mode_trace (app_init E s plan ad) = mode_trace ( world_initialize E s plan) := by
  rw [app_init_eq, world_start_mode_trace, window_push_mode_trace]

/-- The function `app_deinit` writes the world mode once. -/
theorem app_deinit_mode_trace (s : World F) :
    mode_trace (app_deinit s)
      = ((mode_trace s).1, (mode_trace s).2 ++ [(mode_trace s).1]) := by
  unfold app_deinit
  dsimp only
  rw [world_finalize_mode_trace, call_mode_trace]
  simp only [mode_write_value, Option.toList, List.append_nil, Prod.mk.eta]
  rw [window_leaves_stack_mode_trace, call_mode_trace]
  simp only [mode_write_value, Option.toList, List.append_nil, Prod.mk.eta]

/-- After `world_finalize` key 1 holds the world mode. -/
theorem world_finalize_mode_stored (s : World F) :
    (world_finalize s).persist.lookup PKEY_WORLD_MODE = some s.s_world_mode := by
  rw [world_finalize_persist,
    lookup_write_other _ PKEY_TRANSPARENCY_MODE PKEY_WORLD_MODE _ (by decide),
    lookup_write_same]

theorem mode_trace_mode {s t : World F} (h : mode_trace t = mode_trace s) :
    t.s_world_mode = s.s_world_mode := by
  simp only [mode_trace, Prod.mk.injEq] at h
  exact h.1

/-- After `app_deinit` key 1 holds the world mode. -/
theorem app_deinit_mode_stored (s : World F) :
    (app_deinit s).persist.lookup PKEY_WORLD_MODE = some s.s_world_mode := by
  unfold app_deinit
  dsimp only
  rw [world_finalize_mode_stored]
  have h : mode_trace (call (window_leaves_stack (call s .window_stack_remove)) .window_destroy)
      = mode_trace s := by
    rw [call_mode_trace]
    simp only [mode_write_value, Option.toList, List.append_nil, Prod.mk.eta]
    rw [window_leaves_stack_mode_trace, call_mode_trace]
    simp only [mode_write_value, Option.toList, List.append_nil, Prod.mk.eta]
  rw [mode_trace_mode h]

theorem mode_defined_ne_undefined {s : World F} (h : mode_defined s) :
    s.s_world_mode ≠ WORLD_MODE_UNDEFINED := by
  rcases h with h | h <;> rw [h] <;> decide



/-! ### The dynamic-mode tick and the camera -/

/-- The guarded block in dynamic mode, with ready samplers: the reading is
pushed, the spin step runs, and `cam_config` is called once, with the rotation
that the spin step stored. -/
theorem update_active_dynamic (E : Env F) (s : World F) (ad : AccelData)
    (hm : s.s_world_mode = WORLD_MODE_DYNAMIC)
    (hx : sampler_ready s.sampler_accelX = true)
    (hy : sampler_ready s.sampler_accelY = true)
    (hz : sampler_ready s.sampler_accelZ = true) :
    ∃ x y z,
      (update_active E s ad).s_cam
          = some { x := x, y := y, z := z
                 , rotationZ := (update_active E s ad).s_spin_rotation }
      ∧ (update_active E s ad).log
          = s.log ++ [.Clock3D_second100ths_update s.s_clock.status, .accel_service_peek,
              .Sampler_push .ACCEL_AXIS_X true (reading_pushed E ad).1,
              .Sampler_push .ACCEL_AXIS_Y true (reading_pushed E ad).2.1,
              .Sampler_push .ACCEL_AXIS_Z true (reading_pushed E ad).2.2,
              .CamR3_lookAtOriginUpwards x y z (update_active E s ad).s_spin_rotation] := by
  obtain ⟨hl, hX, hY, hZ⟩ := push_triple_spec
    (call (call s (.Clock3D_second100ths_update s.s_clock.status)) .accel_service_peek)
    (reading_pushed E ad).1 (reading_pushed E ad).2.1 (reading_pushed E ad).2.2
  simp only [call_samplerX, call_samplerY, call_samplerZ, call_log,
    sampler_ready_isSome _ hx, sampler_ready_isSome _ hy, sampler_ready_isSome _ hz] at hl hX hY hZ
  have mX := sampler_ready_push _ (reading_pushed E ad).1 hx
  have mY := sampler_ready_push _ (reading_pushed E ad).2.1 hy
  have mZ := sampler_ready_push _ (reading_pushed E ad).2.2 hz
  rw [← hX] at mX
  rw [← hY] at mY
  rw [← hZ] at mZ
  unfold update_active
  dsimp only
  rw [if_pos (by rw [push_reading_mode]; exact hm), push_reading_eq]
  obtain ⟨sX, sY, sZ⟩ := spin_step_samplers E
    (push_triple (call (call s (.Clock3D_second100ths_update s.s_clock.status))
      .accel_service_peek) (reading_pushed E ad).1 (reading_pushed E ad).2.1
      (reading_pushed E ad).2.2)
  rw [← sX] at mX
  rw [← sY] at mY
  rw [← sZ] at mZ
  obtain ⟨x, y, z, hc⟩ := configure_camera_ready _
    (spin_step E (push_triple (call (call s (.Clock3D_second100ths_update s.s_clock.status))
      .accel_service_peek) (reading_pushed E ad).1 (reading_pushed E ad).2.1
      (reading_pushed E ad).2.2)).s_spin_rotation mX mY mZ
  refine ⟨x, y, z, ?_⟩
  rw [hc]
  refine ⟨rfl, ?_⟩
  simp [cam_config, hl]

/-! ### The log up to the first use of a null pointer -/

/-- Calls that use no null pointer pass into the described part of a log. -/
theorem until_null_use_append_clean (l1 l2 : List (Call F))
    (h : ∀ c ∈ l1, is_null_use c = false) :
    until_null_use (l1 ++ l2) = l1 ++ until_null_use l2 := by
  induction l1 with
  | nil => rfl
  | cons c cs ih =>
    have hc := h c (List.mem_cons_self _ _)
    rw [List.cons_append, until_null_use, hc, ih (fun x hx => h x (List.mem_cons_of_mem _ hx))]
    rfl

/-- A log without use of a null pointer is described as a whole. -/
theorem until_null_use_clean (l : List (Call F)) (h : ∀ c ∈ l, is_null_use c = false) :
    until_null_use l = l := by
  have := until_null_use_append_clean l [] h
  rw [List.append_nil] at this
  rw [this]
  simp [until_null_use]

/-- When a log has a use of a null pointer, its described part ends with one. -/
theorem until_null_use_last (l : List (Call F)) (h : l.any is_null_use = true) :
    ∃ c, (until_null_use l).getLast? = some c ∧ is_null_use c = true := by
  induction l with
  | nil => simp at h
  | cons c cs ih =>
    rw [until_null_use]
    by_cases hc : is_null_use c = true
    · rw [if_pos hc]
      exact ⟨c, rfl, hc⟩
    · rw [if_neg hc]
      have hcs : cs.any is_null_use = true := by
        rw [List.any_cons] at h
        simpa [hc] using h
      obtain ⟨x, hx, hn⟩ := ih hcs
      refine ⟨x, ?_, hn⟩
      cases hu : until_null_use cs with
      | nil => rw [hu] at hx; simp at hx
      | cons y ys =>
        rw [hu] at hx
        rw [List.getLast?_cons_cons]
        exact hx

theorem clean_of_all (l : List (Call F)) (h : l.all (fun c => !is_null_use c) = true) :
    ∀ c ∈ l, is_null_use c = false := by
  intro c hc
  have := List.all_eq_true.mp h c hc
  simpa using this

theorem load_settings_calls_clean (store : List (Int × Int)) :
    ∀ c ∈ (load_settings_calls store : List (Call F)), is_null_use c = false := by
  apply clean_of_all
  unfold load_settings_calls
  split_ifs <;> rfl

/-- When an allocation fails, a sampler push or a table builder of
`world_initialize` gets a null pointer. -/
theorem failed_allocation_null_use (plan : AllocPlan) (h : plan ≠ allocAll) :
    (sampler_initialize_calls plan ++ interpolations_initialize_calls plan
      : List (Call F)).any is_null_use = true := by
  obtain ⟨a, b, c, d, e, f⟩ := plan
  cases a <;> cases b <;> cases c <;> cases d <;> cases e <;> cases f <;>
    first
      | exact absurd rfl h
      | rfl


end Frames

/-! ## The claims -/

section Claims

variable {F : Type}

/-- C1 (spin friction).  From a dynamic-mode state with spin speed `v`, after
any number `k` of consecutive update ticks, whatever the accelerometer
delivers, the spin speed is `sign v * max (|v| - k) 0`: one unit toward 0 per
tick, never past 0, the same for both signs. -/
theorem C1_spin_friction (E : Env F) (s : World F) (ads : List AccelData)
    (hmode : s.s_world_mode = WORLD_MODE_DYNAMIC) (hspeed : isInt32 s.s_spin_speed) :
    (ads.foldl (world_update E) s).s_spin_speed
      = Int.sign s.s_spin_speed * max (|s.s_spin_speed| - (ads.length : Int)) 0 := by
  induction ads generalizing s with
  | nil =>
    simp only [List.foldl_nil, List.length_nil, Int.ofNat_zero, sub_zero]
    rw [max_eq_left (abs_nonneg _), Int.sign_mul_abs]
  | cons ad ads ih =>
    have h1 : (world_update E s ad).s_world_mode = WORLD_MODE_DYNAMIC := by
      rw [world_update_mode]; exact hmode
    have h2 : (world_update E s ad).s_spin_speed = friction s.s_spin_speed :=
      world_update_speed_dynamic E s ad hmode
    have h3 : isInt32 (world_update E s ad).s_spin_speed := by
      rw [h2]; exact friction_isInt32 _ hspeed
    simp only [List.foldl_cons, List.length_cons]
    rw [ih (world_update E s ad) h1 h3, h2]
    push_cast
    exact friction_closed_form _ hspeed _ (Int.ofNat_nonneg _)

/-- Witness of C1: three units of negative speed are gone after five ticks. -/
theorem C1_spin_friction_witness :
    ({ demoWorld with s_spin_speed := -3 } : World Int).s_world_mode = WORLD_MODE_DYNAMIC
      ∧ isInt32 ({ demoWorld with s_spin_speed := -3 } : World Int).s_spin_speed
      ∧ ((List.replicate 5 failedReading).foldl (world_update demoEnv)
            { demoWorld with s_spin_speed := -3 }).s_spin_speed
          = Int.sign (-3) * max (|(-3 : Int)| - ((List.replicate 5 failedReading).length : Int)) 0 :=
  ⟨by decide, by decide,
    C1_spin_friction demoEnv { demoWorld with s_spin_speed := -3 }
      (List.replicate 5 failedReading) (by decide) (by decide)⟩

/-- C2 (steady mode and the camera), evaluated where it fails.  A launch that
finds the steady mode in storage leaves the camera unconfigured, and an update
tick in that state leaves it so.  And after a punch and one dynamic tick, a
twist into steady mode followed by an update tick leaves the camera at the
rotation of the dynamic tick, 55977, not at `SPIN_ROTATION_STEADY`. -/
theorem C2_steady_update_keeps_camera :
    demoSteadyWorld.s_world_mode = WORLD_MODE_STEADY
      ∧ demoSteadyWorld.s_cam = none
      ∧ (world_update demoEnv demoSteadyWorld flatReading).s_cam = none
      ∧ (accel_tap_service_handler demoEnv
            (world_update demoEnv
              (accel_tap_service_handler demoEnv demoWorld .ACCEL_AXIS_X 1) flatReading)
            .ACCEL_AXIS_Y 1).s_world_mode = WORLD_MODE_STEADY
      ∧ ((world_update demoEnv
            (accel_tap_service_handler demoEnv
              (world_update demoEnv
                (accel_tap_service_handler demoEnv demoWorld .ACCEL_AXIS_X 1) flatReading)
              .ACCEL_AXIS_Y 1) flatReading).s_cam.map (·.rotationZ)) = some 55977
      ∧ demoEnv.SPIN_ROTATION_STEADY = -7854 := by
  decide

/-- C3 (hundredths of a second follow the world mode).  An update tick calls
`Clock3D_second100ths_update` exactly once when the world mode is dynamic and
not at all when it is steady. -/
theorem C3_second100ths_follows_mode (E : Env F) (s : World F) (ad : AccelData) :
    (s.s_world_mode = WORLD_MODE_DYNAMIC →
        count_calls is_second100ths_update (new_calls s (world_update E s ad)) = 1)
      ∧ (s.s_world_mode = WORLD_MODE_STEADY →
        count_calls is_second100ths_update (new_calls s (world_update E s ad)) = 0) := by
  constructor
  · intro h
    obtain ⟨L, hL, hc⟩ := update_active_log E (update_prologue s) ad
    have hlog : (world_update E s ad).log
        = s.log ++ ([.Clock3D_updateAnimation s.s_clock.status ANIMATION_FLIP_STEPS,
            .Clock3D_second100ths_update (update_prologue s).s_clock.status,
            .accel_service_peek,
            .Sampler_push .ACCEL_AXIS_X (update_prologue s).sampler_accelX.isSome
              (reading_pushed E ad).1,
            .Sampler_push .ACCEL_AXIS_Y (update_prologue s).sampler_accelY.isSome
              (reading_pushed E ad).2.1,
            .Sampler_push .ACCEL_AXIS_Z (update_prologue s).sampler_accelZ.isSome
              (reading_pushed E ad).2.2]
            ++ L ++ [.layer_mark_dirty]) := by
      rw [world_update_dynamic E s ad h, call_log, hL, update_prologue_log]
      simp
    rw [new_calls_append s _ _ hlog, count_calls_append, count_calls_append, hc]
    rfl
  · intro h
    have hlog : (world_update E s ad).log
        = s.log ++ [.Clock3D_updateAnimation s.s_clock.status ANIMATION_FLIP_STEPS,
            .layer_mark_dirty] := by
      rw [world_update_steady E s ad h, call_log, update_prologue_log]
      simp
    rw [new_calls_append s _ _ hlog]
    rfl

/-- Witness of C3: the first launch is in dynamic mode, where a tick makes one
hundredths update. -/
theorem C3_second100ths_follows_mode_witness :
    demoWorld.s_world_mode = WORLD_MODE_DYNAMIC
      ∧ count_calls is_second100ths_update
          (new_calls demoWorld (world_update demoEnv demoWorld flatReading)) = 1 :=
  ⟨by decide, (C3_second100ths_follows_mode demoEnv demoWorld flatReading).1 (by decide)⟩

/-- C4 (sensor unavailable).  On an update tick outside steady mode whose
accelerometer peek fails, with the three samplers allocated and seeded, each
sampler receives exactly one push, of -81, -816 and -571 respectively; the
tick then configures the camera and marks the layer dirty: the calls of the
tick are exactly the eight listed. -/
theorem C4_sensor_unavailable (E : Env F) (s : World F) (ad : AccelData)
    (hmode : s.s_world_mode ≠ WORLD_MODE_STEADY) (hfail : ad.result < 0)
    (hx : sampler_ready s.sampler_accelX = true)
    (hy : sampler_ready s.sampler_accelY = true)
    (hz : sampler_ready s.sampler_accelZ = true) :
    (world_update E s ad).sampler_accelX = s.sampler_accelX.map (Sampler_push · (-81))
      ∧ (world_update E s ad).sampler_accelY = s.sampler_accelY.map (Sampler_push · (-816))
      ∧ (world_update E s ad).sampler_accelZ = s.sampler_accelZ.map (Sampler_push · (-571))
      ∧ ∃ x y z r,
          (world_update E s ad).s_cam = some { x := x, y := y, z := z, rotationZ := r }
          ∧ new_calls s (world_update E s ad)
              = [.Clock3D_updateAnimation s.s_clock.status ANIMATION_FLIP_STEPS,
                 .Clock3D_second100ths_update s.s_clock.status,
                 .accel_service_peek,
                 .Sampler_push .ACCEL_AXIS_X true (-81),
                 .Sampler_push .ACCEL_AXIS_Y true (-816),
                 .Sampler_push .ACCEL_AXIS_Z true (-571),
                 .CamR3_lookAtOriginUpwards x y z r,
                 .layer_mark_dirty] := by
  obtain ⟨x, y, z, r, hcam, hlog, hX, hY, hZ⟩ :=
    update_active_failed E (update_prologue s) ad hfail hx hy hz
  rw [world_update_active E s ad hmode]
  refine ⟨hX, hY, hZ, x, y, z, r, hcam, ?_⟩
  apply new_calls_append
  rw [call_log, hlog, update_prologue_log]
  simp [update_prologue]

/-- Witness of C4: a failed peek in the state of a first launch. -/
theorem C4_sensor_unavailable_witness :
    demoWorld.s_world_mode ≠ WORLD_MODE_STEADY ∧ failedReading.result < 0
      ∧ sampler_ready demoWorld.sampler_accelX = true
      ∧ sampler_ready demoWorld.sampler_accelY = true
      ∧ sampler_ready demoWorld.sampler_accelZ = true
      ∧ (world_update demoEnv demoWorld failedReading).sampler_accelX
          = demoWorld.sampler_accelX.map (Sampler_push · (-81))
      ∧ (world_update demoEnv demoWorld failedReading).sampler_accelY
          = demoWorld.sampler_accelY.map (Sampler_push · (-816))
      ∧ (world_update demoEnv demoWorld failedReading).sampler_accelZ
          = demoWorld.sampler_accelZ.map (Sampler_push · (-571)) :=
  have h := C4_sensor_unavailable demoEnv demoWorld failedReading (by decide) (by decide)
    (by decide) (by decide) (by decide)
  ⟨by decide, by decide, by decide, by decide, by decide, h.1, h.2.1, h.2.2.1⟩

/-- C5 (twist toggles the world mode).  A tap on the Y axis, in either
direction, turns the dynamic mode into the steady mode and the steady mode
into the dynamic mode; a second twist restores the world mode the first one
found. -/
theorem C5_twist_toggles (E : Env F) (s : World F) (d1 d2 : Int) :
    (s.s_world_mode = WORLD_MODE_DYNAMIC →
        (accel_tap_service_handler E s .ACCEL_AXIS_Y d1).s_world_mode = WORLD_MODE_STEADY)
      ∧ (s.s_world_mode = WORLD_MODE_STEADY →
        (accel_tap_service_handler E s .ACCEL_AXIS_Y d1).s_world_mode = WORLD_MODE_DYNAMIC)
      ∧ (accel_tap_service_handler E (accel_tap_service_handler E s .ACCEL_AXIS_Y d1)
          .ACCEL_AXIS_Y d2).s_world_mode = s.s_world_mode := by
  refine ⟨?_, ?_, ?_⟩
  · intro h
    rw [twist_mode, h]
    decide
  · intro h
    rw [twist_mode, h]
    decide
  · rw [twist_mode, twist_mode]
    by_cases h1 : s.s_world_mode = WORLD_MODE_STEADY
    · rw [if_pos h1, h1]
      decide
    · by_cases h2 : s.s_world_mode = WORLD_MODE_DYNAMIC
      · rw [if_neg h1, if_pos h2, h2]
        decide
      · rw [if_neg h1, if_neg h2, if_neg h1, if_neg h2]

/-- Witness of C5: a twist takes the first launch from dynamic to steady. -/
theorem C5_twist_toggles_witness :
    demoWorld.s_world_mode = WORLD_MODE_DYNAMIC
      ∧ (accel_tap_service_handler demoEnv demoWorld .ACCEL_AXIS_Y 1).s_world_mode
          = WORLD_MODE_STEADY :=
  ⟨by decide, (C5_twist_toggles demoEnv demoWorld 1 1).1 (by decide)⟩

/-- C6 (shake resets to steady).  After a tap on the Z axis, in any state and
either direction, the spin speed is 0 and the spin rotation is
`SPIN_ROTATION_STEADY`. -/
theorem C6_shake_resets (E : Env F) (s : World F) (d : Int) :
    (accel_tap_service_handler E s .ACCEL_AXIS_Z d).s_spin_speed = 0
      ∧ (accel_tap_service_handler E s .ACCEL_AXIS_Z d).s_spin_rotation
          = E.SPIN_ROTATION_STEADY :=
  ⟨rfl, rfl⟩

/-- C7, as stated, fails at the top of the `int` range: at spin speed
2147483647 the sum 2147483647 + 1000 is not an `int`; the punch leaves
-2147482649. -/
theorem C7_punch_overflow_counterexample :
    isInt32 ({ demoWorld with s_spin_speed := 2147483647 } : World Int).s_spin_speed
      ∧ ¬ isInt32 (({ demoWorld with s_spin_speed := 2147483647 } : World Int).s_spin_speed
          + SPIN_SPEED_PUNCH_STEP)
      ∧ (accel_tap_service_handler demoEnv { demoWorld with s_spin_speed := 2147483647 }
            .ACCEL_AXIS_X 1).s_spin_speed = -2147482649
      ∧ (accel_tap_service_handler demoEnv { demoWorld with s_spin_speed := 2147483647 }
            .ACCEL_AXIS_X 1).s_spin_speed
          ≠ ({ demoWorld with s_spin_speed := 2147483647 } : World Int).s_spin_speed
              + SPIN_SPEED_PUNCH_STEP := by
  decide

/-- C7, amended (punch is a spin boost).  In a state whose spin speed is a
representable `int` of at most `INT_MAX - 1000`, a tap on the X axis adds
exactly 1000 to the spin speed.  In every state, the states at the top of the
`int` range included, it leaves the world mode and the spin rotation unchanged,
and the resulting state is the same for any two directions. -/
theorem C7_punch_boost (E : Env F) (s : World F) (d d' : Int) :
    (INT_MIN ≤ s.s_spin_speed → s.s_spin_speed + SPIN_SPEED_PUNCH_STEP ≤ INT_MAX →
        (accel_tap_service_handler E s .ACCEL_AXIS_X d).s_spin_speed
          = s.s_spin_speed + SPIN_SPEED_PUNCH_STEP)
      ∧ (accel_tap_service_handler E s .ACCEL_AXIS_X d).s_world_mode = s.s_world_mode
      ∧ (accel_tap_service_handler E s .ACCEL_AXIS_X d).s_spin_rotation = s.s_spin_rotation
      ∧ accel_tap_service_handler E s .ACCEL_AXIS_X d
          = accel_tap_service_handler E s .ACCEL_AXIS_X d' := by
  refine ⟨?_, rfl, rfl, rfl⟩
  intro hlo hhi
  unfold INT_MIN at hlo
  unfold INT_MAX SPIN_SPEED_PUNCH_STEP at hhi
  show wrapInt32 (s.s_spin_speed + SPIN_SPEED_PUNCH_STEP) = s.s_spin_speed + SPIN_SPEED_PUNCH_STEP
  unfold wrapInt32 SPIN_SPEED_PUNCH_STEP
  omega

/-- Witness of C7, amended: a punch at rest gives spin speed 1000; a punch at
spin speed 2147483647 keeps the world mode and the spin rotation, whatever its
direction. -/
theorem C7_punch_boost_witness :
    INT_MIN ≤ demoWorld.s_spin_speed
      ∧ demoWorld.s_spin_speed + SPIN_SPEED_PUNCH_STEP ≤ INT_MAX
      ∧ (accel_tap_service_handler demoEnv demoWorld .ACCEL_AXIS_X 1).s_spin_speed
          = demoWorld.s_spin_speed + SPIN_SPEED_PUNCH_STEP
      ∧ (accel_tap_service_handler demoEnv { demoWorld with s_spin_speed := 2147483647 }
            .ACCEL_AXIS_X 1).s_world_mode
          = ({ demoWorld with s_spin_speed := 2147483647 } : World Int).s_world_mode
      ∧ (accel_tap_service_handler demoEnv { demoWorld with s_spin_speed := 2147483647 }
            .ACCEL_AXIS_X 1).s_spin_rotation
          = ({ demoWorld with s_spin_speed := 2147483647 } : World Int).s_spin_rotation
      ∧ accel_tap_service_handler demoEnv { demoWorld with s_spin_speed := 2147483647 }
            .ACCEL_AXIS_X 1
          = accel_tap_service_handler demoEnv { demoWorld with s_spin_speed := 2147483647 }
            .ACCEL_AXIS_X (-1) :=
  have h := C7_punch_boost demoEnv { demoWorld with s_spin_speed := 2147483647 } 1 (-1)
  ⟨by decide, by decide, (C7_punch_boost demoEnv demoWorld 1 (-1)).1 (by decide) (by decide),
    h.2.1, h.2.2.1, h.2.2.2⟩

/-- C9 (settings round trip).  Whatever world mode and transparency mode a
state holds when `world_finalize` runs, a `world_initialize` that starts from
the store `world_finalize` leaves yields the same world mode and the same
transparency mode. -/
theorem C9_settings_round_trip (E : Env F) (s s0 : World F) (plan : AllocPlan)
    (hstore : s0.persist = (world_finalize s).persist) :
    ( world_initialize E s0 plan).s_world_mode = s.s_world_mode
      ∧ ( world_initialize E s0 plan).s_transparencyMode = s.s_transparencyMode := by
  have h := world_initialize_settings E s0 plan
  rw [load_settings_spec, hstore, world_finalize_persist] at h
  rw [lookup_write_same,
    lookup_write_other _ PKEY_TRANSPARENCY_MODE PKEY_WORLD_MODE _ (by decide),
    lookup_write_same] at h
  simp only [settings, Prod.mk.injEq, Option.getD_some] at h
  exact ⟨h.1, h.2.1⟩

/-- Witness of C9: the steady mode and transparency mode 2 survive a
finalization and the next launch. -/
theorem C9_settings_round_trip_witness :
    (World.boot demoEnv
        (world_finalize { demoWorld with s_world_mode := 2, s_transparencyMode := 2 }).persist).persist
        = (world_finalize { demoWorld with s_world_mode := 2, s_transparencyMode := 2 }).persist
      ∧ ( world_initialize demoEnv (World.boot demoEnv
          (world_finalize { demoWorld with s_world_mode := 2, s_transparencyMode := 2 }).persist)
          allocAll).s_world_mode = 2 :=
  ⟨rfl,
    (C9_settings_round_trip demoEnv { demoWorld with s_world_mode := 2, s_transparencyMode := 2 }
      (World.boot demoEnv
        (world_finalize { demoWorld with s_world_mode := 2, s_transparencyMode := 2 }).persist)
      allocAll rfl).1⟩

set_option maxRecDepth 20000 in
/-- C10 (single release), evaluated where it fails.  After 91 idle seconds the
tick handler finalizes the world and pops the window; `app_deinit` then
finalizes it again.  The run has one `Clock3D_initialize` and two
`Clock3D_finalize`, the second on the finalized clock, and ten releases of a
resource that is not live.  When the back button ends the run, every resource
is released once. -/
theorem C10_auto_exit_releases_twice :
    count_calls is_clock_initialize
        (main demoEnv [] allocAll flatReading idleEvents).log = 1
      ∧ count_calls is_clock_finalize
        (main demoEnv [] allocAll flatReading idleEvents).log = 2
      ∧ Call.Clock3D_finalize .finalized ∈ (main demoEnv [] allocAll flatReading idleEvents).log
      ∧ Call.Sampler_free .ACCEL_AXIS_X false
          ∈ (main demoEnv [] allocAll flatReading idleEvents).log
      ∧ count_calls is_bad_release
        (main demoEnv [] allocAll flatReading idleEvents).log = 10
      ∧ count_calls is_clock_finalize
        (main demoEnv [] allocAll flatReading [Event.button_back]).log = 1
      ∧ count_calls is_bad_release
        (main demoEnv [] allocAll flatReading [Event.button_back]).log = 0 := by
  decide

set_option maxRecDepth 20000 in
/-- C11 (no use after release), evaluated where it fails.  At the tick that
finds 90 idle seconds on the counter, the handler stops and finalizes the
world, pops the window and then still calls `Clock3D_setTime_DDHHMMSS` on the
finalized clock: that call is the last of the 26 calls of the handler.  In the
run of a first launch through 91 idle seconds it is the last call before
`app_deinit`. -/
theorem C11_tick_feeds_finalized_clock :
    new_calls ({ demoWorld with s_user_secondsInactive := 90 } : World Int)
        (tick_timer_service_handler { demoWorld with s_user_secondsInactive := 90 } 1 12 1 30)
      = [ .Blinker_stop .clock_minutes_inkBlinker, .app_timer_cancel,
          .tick_timer_service_unsubscribe, .accel_tap_service_unsubscribe,
          .accel_data_service_unsubscribe, .compass_service_unsubscribe,
          .Clock3D_finalize .ready,
          .Sampler_free .ACCEL_AXIS_X true, .free_sampler .ACCEL_AXIS_X true,
          .Sampler_free .ACCEL_AXIS_Y true, .free_sampler .ACCEL_AXIS_Y true,
          .Sampler_free .ACCEL_AXIS_Z true, .free_sampler .ACCEL_AXIS_Z true,
          .free_table .animRotationFraction true, .free_table .animTranslationFraction true,
          .free_table .spinRotationFraction true,
          .persist_write_int 1 1, .persist_write_int 2 0,
          .window_stack_pop_all,
          .Blinker_stop .clock_minutes_inkBlinker, .app_timer_cancel,
          .tick_timer_service_unsubscribe, .accel_tap_service_unsubscribe,
          .accel_data_service_unsubscribe, .compass_service_unsubscribe,
          .Clock3D_setTime_DDHHMMSS .finalized 1 12 1 30 ]
      ∧ (app_event_loop demoEnv demoWorld idleEvents).log.getLast?
          = some (.Clock3D_setTime_DDHHMMSS .finalized 1 12 1 30)
      ∧ count_calls uses_finalized_clock (app_event_loop demoEnv demoWorld idleEvents).log
          = 1 := by
  decide

set_option maxRecDepth 20000 in
/-- C12, as stated, fails: no allocation is checked.  When the allocation of
the X sampler fails, `world_initialize` does not abort: it goes on to the two
other `Sampler_new` calls and then applies the first `Sampler_push` of the
seeding loop to the null sampler.  When the allocation of the spin table
fails, its builder is applied to the null pointer. -/
theorem C12_failed_allocation_counterexample :
    until_null_use ( world_initialize demoEnv (World.boot demoEnv []) allocFailing).log
        = [ .persist_exists PKEY_WORLD_MODE, .persist_exists PKEY_TRANSPARENCY_MODE,
            Call.Clock3D_initialize .fresh, .mesh_inkBlinker_write .ready,
            .Sampler_new .ACCEL_AXIS_X false, .Sampler_new .ACCEL_AXIS_Y true,
            .Sampler_new .ACCEL_AXIS_Z true, .Sampler_push .ACCEL_AXIS_X false (-81) ]
      ∧ (until_null_use
            ( world_initialize demoEnv (World.boot demoEnv []) allocTableFailing).log).getLast?
          = some (.Interpolator_AccelerateDecelerate .spinRotationFraction false
              ANIMATION_SPIN_STEPS)
      ∧ Call.malloc .spinRotationFraction false
          ∈ until_null_use
              ( world_initialize demoEnv (World.boot demoEnv []) allocTableFailing).log := by
  decide

/-- C12, amended (allocations are not checked).  Up to its first call that
hands a null pointer to a sampler push or to a table builder, the calls of
`world_initialize` are those of its program text in their order, whatever the
outcome of the allocations: nothing aborts the initialization after a failed
allocation.  When the X sampler fails, the three `Sampler_new` calls are made
and the first push of the seeding loop gets the null sampler.  When the
samplers succeed and the spin table fails, the builder gets the null pointer
right after the `malloc`.  Whenever some allocation fails, the described part
of the run ends with a push or a builder on a null pointer.  When all six
allocations succeed, no push and no builder gets a null pointer, the
initialization ends with `Clock3D_config`, and the three samplers and the
three tables are built. -/
theorem C12_initialization_unchecked (E : Env F) (s : World F) (plan : AllocPlan) :
    until_null_use (new_calls s ( world_initialize E s plan))
        = until_null_use
            (load_settings_calls s.persist
              ++ [ Call.Clock3D_initialize s.s_clock.status, .mesh_inkBlinker_write .ready]
              ++ sampler_initialize_calls plan ++ interpolations_initialize_calls plan
              ++ [.Clock3D_config .ready])
      ∧ (plan.sampler_accelX = false →
          until_null_use (new_calls s ( world_initialize E s plan))
            = load_settings_calls s.persist
              ++ [ Call.Clock3D_initialize s.s_clock.status, .mesh_inkBlinker_write .ready,
                   .Sampler_new .ACCEL_AXIS_X false,
                   .Sampler_new .ACCEL_AXIS_Y plan.sampler_accelY,
                   .Sampler_new .ACCEL_AXIS_Z plan.sampler_accelZ,
                   .Sampler_push .ACCEL_AXIS_X false (-81)])
      ∧ (plan.sampler_accelX = true → plan.sampler_accelY = true →
          plan.sampler_accelZ = true → plan.spinRotationFraction = false →
          until_null_use (new_calls s ( world_initialize E s plan))
            = load_settings_calls s.persist
              ++ [ Call.Clock3D_initialize s.s_clock.status, .mesh_inkBlinker_write .ready]
              ++ sampler_initialize_calls plan
              ++ [ .malloc .spinRotationFraction false,
                   .Interpolator_AccelerateDecelerate .spinRotationFraction false
                     ANIMATION_SPIN_STEPS])
      ∧ (plan ≠ allocAll →
          ∃ c, (until_null_use (new_calls s ( world_initialize E s plan))).getLast? = some c
            ∧ is_null_use c = true)
      ∧ (plan = allocAll →
          count_calls is_null_use (new_calls s ( world_initialize E s plan)) = 0
          ∧ until_null_use (new_calls s ( world_initialize E s plan))
              = new_calls s ( world_initialize E s plan)
          ∧ (new_calls s ( world_initialize E s plan)).getLast? = some (.Clock3D_config .ready)
          ∧ ( world_initialize E s plan).sampler_accelX.isSome = true
          ∧ ( world_initialize E s plan).sampler_accelY.isSome = true
          ∧ ( world_initialize E s plan).sampler_accelZ.isSome = true
          ∧ ( world_initialize E s plan).spinRotationFraction.isSome = true
          ∧ ( world_initialize E s plan).animRotationFraction.isSome = true
          ∧ ( world_initialize E s plan).animTranslationFraction.isSome = true) := by
  have hlog := world_initialize_log E s plan
  have hnew := new_calls_append s _ _ hlog
  refine ⟨by rw [hnew], ?_, ?_, ?_, ?_⟩
  · intro hx
    obtain ⟨a, b, c, d, e, f⟩ := plan
    dsimp only at hx
    subst hx
    rw [hnew]
    simp only [List.append_assoc]
    rw [until_null_use_append_clean _ _ (load_settings_calls_clean _)]
    rfl
  · intro hx hy hz ht
    obtain ⟨a, b, c, d, e, f⟩ := plan
    dsimp only at hx hy hz ht
    subst hx hy hz ht
    rw [hnew]
    simp only [List.append_assoc]
    rw [until_null_use_append_clean _ _ (load_settings_calls_clean _)]
    rfl
  · intro hp
    rw [hnew]
    apply until_null_use_last
    have h := failed_allocation_null_use (F := F) plan hp
    simp only [List.any_append, Bool.or_eq_true] at h ⊢
    rcases h with h | h
    · exact Or.inl (Or.inl (Or.inr h))
    · exact Or.inl (Or.inr h)
  · intro hp
    subst hp
    have hclean : count_calls is_null_use (new_calls s ( world_initialize E s allocAll)) = 0 := by
      rw [hnew]
      simp only [count_calls_append]
      have h1 : count_calls is_null_use (load_settings_calls s.persist : List (Call F)) = 0 := by
        unfold load_settings_calls
        split_ifs <;> rfl
      rw [h1]
      rfl
    refine ⟨hclean, ?_, ?_, ?_⟩
    · apply until_null_use_clean
      intro c hc
      unfold count_calls at hclean
      have := List.length_eq_zero.mp hclean
      by_contra hne
      have hm : c ∈ (new_calls s ( world_initialize E s allocAll)).filter is_null_use :=
        List.mem_filter.mpr ⟨hc, by simpa using hne⟩
      rw [this] at hm
      exact List.not_mem_nil _ hm
    · rw [hnew, List.getLast?_append]
      rfl
    · obtain ⟨a, b, c, t1, t2, t3⟩ := world_initialize_pointers E s allocAll
      rw [a, b, c, t1, t2, t3]
      exact ⟨rfl, rfl, rfl, rfl, rfl, rfl⟩

/-- Witness of C12, amended: a first launch in which the allocation of the X
sampler fails, and one in which every allocation succeeds. -/
theorem C12_initialization_unchecked_witness :
    allocFailing.sampler_accelX = false
      ∧ until_null_use (new_calls (World.boot demoEnv [])
          ( world_initialize demoEnv (World.boot demoEnv []) allocFailing))
        = load_settings_calls (World.boot demoEnv []).persist
          ++ [ Call.Clock3D_initialize (World.boot demoEnv []).s_clock.status,
               .mesh_inkBlinker_write .ready,
               .Sampler_new .ACCEL_AXIS_X false,
               .Sampler_new .ACCEL_AXIS_Y allocFailing.sampler_accelY,
               .Sampler_new .ACCEL_AXIS_Z allocFailing.sampler_accelZ,
               .Sampler_push .ACCEL_AXIS_X false (-81)]
      ∧ allocAll = allocAll
      ∧ count_calls is_null_use
          (new_calls (World.boot demoEnv [])
            ( world_initialize demoEnv (World.boot demoEnv []) allocAll)) = 0 :=
  ⟨rfl,
    (C12_initialization_unchecked demoEnv (World.boot demoEnv []) allocFailing).2.1 rfl,
    rfl,
    ((C12_initialization_unchecked demoEnv (World.boot demoEnv []) allocAll).2.2.2.2 rfl).1⟩

/-- C13 (stopping the world detaches everything).  In every state that the
event loop reaches from a launch, whatever its world mode, `world_stop` leaves
no update timer pending and leaves the tick service, the tap service and the
accelerometer data service without subscriber. -/
theorem C13_world_stop_detaches (E : Env F) (store : List (Int × Int)) (plan : AllocPlan)
    (ad : AccelData) (events : List Event) :
    (world_stop (app_event_loop E (app_init E (World.boot E store) plan ad) events)).timers
        = []
      ∧ (world_stop
          (app_event_loop E (app_init E (World.boot E store) plan ad) events)).tick_subscribed
        = false
      ∧ (world_stop (app_event_loop E (app_init E (World.boot E store) plan ad)
          events)).accel_tap_subscribed = false
      ∧ (world_stop (app_event_loop E (app_init E (World.boot E store) plan ad)
          events)).accel_data_subscribed = false := by
  have hloop : timers_ok (app_event_loop E (app_init E (World.boot E store) plan ad) events) :=
    app_event_loop_invariant E timers_ok (dispatch_timers_ok E) events _
      (app_init_timers_ok E _ plan ad rfl)
  refine ⟨world_stop_timers _ hloop, ?_, ?_, ?_⟩
  · rw [world_stop_eq]
  · rw [world_stop_eq]
  · rw [world_stop_eq]

/-- C14 (the sensor subscription tracks the world mode).  Let `world_start`
run in a state in which the accelerometer data service has no subscriber, as
it does at every launch.  After any sequence of tap gestures, button clicks
and firings of the update timer, the service has a subscriber if and only if
the world mode is `WORLD_MODE_DYNAMIC`; the same holds after such a sequence
from the state in which `app_init` leaves any launch. -/
theorem C14_sensor_tracks_mode (E : Env F) (s : World F) (ad : AccelData)
    (events : List Event) (hsub : s.accel_data_subscribed = false)
    (hin : ∀ e ∈ events, is_world_input e = true) :
    ((events.foldl (dispatch E) (world_start E s ad)).accel_data_subscribed = true
        ↔ (events.foldl (dispatch E) (world_start E s ad)).s_world_mode = WORLD_MODE_DYNAMIC)
      ∧ (∀ (store : List (Int × Int)) (plan : AllocPlan),
          ((events.foldl (dispatch E)
              (app_init E (World.boot E store) plan ad)).accel_data_subscribed = true
            ↔ (events.foldl (dispatch E)
              (app_init E (World.boot E store) plan ad)).s_world_mode = WORLD_MODE_DYNAMIC)) :=
  ⟨foldl_dispatch_tracks E events hin _ (world_start_tracks E s ad hsub),
    fun store plan => foldl_dispatch_tracks E events hin _ (app_init_tracks E store plan ad)⟩

/-- Witness of C14: a first launch, then a twist, a click and an update. -/
theorem C14_sensor_tracks_mode_witness :
    ( world_initialize demoEnv (World.boot demoEnv []) allocAll).accel_data_subscribed = false
      ∧ (∀ e ∈ [Event.tap .ACCEL_AXIS_Y 1, Event.button_down, Event.update_timer flatReading],
          is_world_input e = true)
      ∧ (([Event.tap .ACCEL_AXIS_Y 1, Event.button_down,
              Event.update_timer flatReading].foldl (dispatch demoEnv)
            (world_start demoEnv ( world_initialize demoEnv (World.boot demoEnv []) allocAll)
              flatReading)).accel_data_subscribed = true
          ↔ ([Event.tap .ACCEL_AXIS_Y 1, Event.button_down,
              Event.update_timer flatReading].foldl (dispatch demoEnv)
            (world_start demoEnv ( world_initialize demoEnv (World.boot demoEnv []) allocAll)
              flatReading)).s_world_mode = WORLD_MODE_DYNAMIC) :=
  ⟨by decide, by decide,
    (C14_sensor_tracks_mode demoEnv ( world_initialize demoEnv (World.boot demoEnv []) allocAll)
      flatReading [Event.tap .ACCEL_AXIS_Y 1, Event.button_down, Event.update_timer flatReading]
      (by decide) (by decide)).1⟩

/-- C15, as stated, fails for `world_stop`: after it the minutes blinker is
stopped and the four minutes slots are still bound to it. -/
theorem C15_world_stop_keeps_binding_counterexample :
    (world_stop demoWorld).clock_minutes_inkBlinker_running = false
      ∧ (world_stop demoWorld).s_clock.minutes_leftDigitA
          = some BlinkerRef.clock_minutes_inkBlinker
      ∧ ((world_stop demoWorld).s_clock.slots.filter
            (fun b => b = some BlinkerRef.clock_minutes_inkBlinker)).length = 4 := by
  decide

/-- C15, amended (blinker bindings at a stop).  In every state,
`configMode_exit_click_handler` stops the configuration-mode blinker and leaves
none of the 16 digit slots bound to it: twelve slots are unbound and the four
minutes slots are bound to the minutes blinker.  In every state, `world_stop`
stops the minutes blinker and leaves the bindings of the 16 slots as they
are. -/
theorem C15_blinker_bindings (s : World F) :
    (configMode_exit_click_handler s).configMode_inkBlinker_running = false
      ∧ (∀ b ∈ (configMode_exit_click_handler s).s_clock.slots,
          b ≠ some BlinkerRef.configMode_inkBlinker)
      ∧ (configMode_exit_click_handler s).s_clock.slots
          = [none, none, none, none, none, none, none, none,
             some .clock_minutes_inkBlinker, some .clock_minutes_inkBlinker,
             some .clock_minutes_inkBlinker, some .clock_minutes_inkBlinker,
             none, none, none, none]
      ∧ (world_stop s).clock_minutes_inkBlinker_running = false
      ∧ (world_stop s).s_clock = s.s_clock := by
  have hslots : (configMode_exit_click_handler s).s_clock.slots
      = [none, none, none, none, none, none, none, none,
         some .clock_minutes_inkBlinker, some .clock_minutes_inkBlinker,
         some .clock_minutes_inkBlinker, some .clock_minutes_inkBlinker,
         none, none, none, none] := rfl
  refine ⟨rfl, ?_, hslots, ?_, ?_⟩
  · rw [hslots]
    decide
  · rw [world_stop_eq]
  · rw [world_stop_eq]

/-- C16 (the samplers are pre-seeded full).  When the three samplers are
allocated, `sampler_initialize` makes exactly eight pushes into each of them,
all of the attractor (-81, -816, -571 respectively); it leaves three full
samplers of capacity 8 whose means are -81, -816 and -571; and after any
positive number of update ticks outside steady mode that push only the
attractor, the view point handed to the camera is (-81, 816, 571) and the
samplers are as seeded. -/
theorem C16_samplers_preseeded (E : Env F) (s : World F) (plan : AllocPlan)
    (hX : plan.sampler_accelX = true) (hY : plan.sampler_accelY = true)
    (hZ : plan.sampler_accelZ = true) :
    (count_calls (is_push_to .ACCEL_AXIS_X) (new_calls s ( sampler_initialize s plan)) = 8
        ∧ count_calls (is_push_of .ACCEL_AXIS_X (-81))
            (new_calls s ( sampler_initialize s plan)) = 8
        ∧ count_calls (is_push_to .ACCEL_AXIS_Y) (new_calls s ( sampler_initialize s plan)) = 8
        ∧ count_calls (is_push_of .ACCEL_AXIS_Y (-816))
            (new_calls s ( sampler_initialize s plan)) = 8
        ∧ count_calls (is_push_to .ACCEL_AXIS_Z) (new_calls s ( sampler_initialize s plan)) = 8
        ∧ count_calls (is_push_of .ACCEL_AXIS_Z (-571))
            (new_calls s ( sampler_initialize s plan)) = 8)
      ∧ samplers_seeded ( sampler_initialize s plan)
      ∧ (sampler_mean ( sampler_initialize s plan).sampler_accelX = some (-81)
        ∧ sampler_mean ( sampler_initialize s plan).sampler_accelY = some (-816)
        ∧ sampler_mean ( sampler_initialize s plan).sampler_accelZ = some (-571))
      ∧ (∀ (u : World F) (ad : AccelData) (ads : List AccelData),
          samplers_seeded u → u.s_world_mode ≠ WORLD_MODE_STEADY →
          (∀ r ∈ ad :: ads, reading_pushed E r = (-81, -816, -571)) →
          view_point ((ad :: ads).foldl (world_update E) u) = some (-81, 816, 571)
          ∧ samplers_seeded ((ad :: ads).foldl (world_update E) u)) := by
  obtain ⟨a, b, c⟩ := sampler_initialize_samplers s plan
  rw [hX, if_pos rfl] at a
  rw [hY, if_pos rfl] at b
  rw [hZ, if_pos rfl] at c
  have hnew := new_calls_append s _ _ (sampler_initialize_log s plan)
  refine ⟨?_, ⟨a, b, c⟩, ?_, ?_⟩
  · rw [hnew]
    unfold sampler_initialize_calls
    rw [hX, hY, hZ]
    exact ⟨rfl, rfl, rfl, rfl, rfl, rfl⟩
  · rw [a, b, c]
    exact seeded_mean
  · intro u ad ads hs hm hall
    obtain ⟨x, y, z, v⟩ := world_update_seeded E u ad hm
      (hall ad (List.mem_cons_self _ _)) hs.1 hs.2.1 hs.2.2
    rw [List.foldl_cons]
    obtain ⟨h1, h2⟩ := foldl_world_update_seeded E ads
      (fun r hr => hall r (List.mem_cons_of_mem _ hr)) (world_update E u ad)
      (by rw [world_update_mode]; exact hm) ⟨x, y, z⟩ v
    exact ⟨h2, h1⟩

/-- Witness of C16: the samplers of a first launch, and the view point after
two failed peeks. -/
theorem C16_samplers_preseeded_witness :
    allocAll.sampler_accelX = true ∧ allocAll.sampler_accelY = true
      ∧ allocAll.sampler_accelZ = true
      ∧ samplers_seeded ( sampler_initialize (World.boot demoEnv []) allocAll)
      ∧ view_point ([failedReading, failedReading].foldl (world_update demoEnv)
          ( world_initialize demoEnv (World.boot demoEnv []) allocAll))
          = some (-81, 816, 571) :=
  have h := C16_samplers_preseeded demoEnv (World.boot demoEnv []) allocAll rfl rfl rfl
  ⟨rfl, rfl, rfl, h.2.1,
    (h.2.2.2 ( world_initialize demoEnv (World.boot demoEnv []) allocAll) failedReading
      [failedReading] (by decide) (by decide) (by decide)).1⟩

set_option maxRecDepth 20000 in
/-- C18, as stated, fails while the world spins: in steady mode one click on
the down button sets the spin speed to 20, which no update tick decays; the 91
ticks of 91 idle seconds then leave the counter at 0, the window on the stack,
the tick service subscribed and the clock ready, and the log holds no call of
`window_stack_pop_all`. -/
theorem C18_spinning_never_exits_counterexample :
    (spinSpeed_increment_click_handler demoSteadyWorld).s_world_mode = WORLD_MODE_STEADY
      ∧ (spinSpeed_increment_click_handler demoSteadyWorld).s_spin_speed = 20
      ∧ idleEvents.length = 91
      ∧ (app_event_loop demoEnv (spinSpeed_increment_click_handler demoSteadyWorld)
          idleEvents).s_user_secondsInactive = 0
      ∧ (app_event_loop demoEnv (spinSpeed_increment_click_handler demoSteadyWorld)
          idleEvents).window_on_stack = true
      ∧ (app_event_loop demoEnv (spinSpeed_increment_click_handler demoSteadyWorld)
          idleEvents).tick_subscribed = true
      ∧ (app_event_loop demoEnv (spinSpeed_increment_click_handler demoSteadyWorld)
          idleEvents).s_clock.status = .ready
      ∧ Call.window_stack_pop_all
          ∉ (app_event_loop demoEnv (spinSpeed_increment_click_handler demoSteadyWorld)
              idleEvents).log := by
  decide

/-- C18, amended (auto-exit on inactivity at rest).  Let the world run (tick
service subscribed, window on the stack) at rest (spin speed 0) with at most 90
seconds on the inactivity counter.  Once more than 90 one-second ticks have
been delivered, with nothing but firings of the update timer in between, the
tick handler has triggered the exit: the world is stopped and finalized and the
window popped.  A tick that finds a spin speed other than 0 counts nothing. -/
theorem C18_auto_exit_at_rest (E : Env F) (s : World F) (events : List Event)
    (ht : s.tick_subscribed = true) (hw : s.window_on_stack = true)
    (hs : s.s_spin_speed = 0)
    (hc : s.s_user_secondsInactive ≤ USER_SECONDSINACTIVE_MAX)
    (hidle : ∀ e ∈ events, is_idle_event e = true)
    (hn : USER_SECONDSINACTIVE_MAX < (events.filter is_tick).length) :
    exited (app_event_loop E s events)
      ∧ (∀ (u : World F) (d h m sec : Int), u.s_spin_speed ≠ 0 →
          u.s_user_secondsInactive ≤ USER_SECONDSINACTIVE_MAX →
          tick_timer_service_handler u d h m sec
            = call u (.Clock3D_setTime_DDHHMMSS u.s_clock.status d h m sec)) :=
  ⟨idle_loop_exits E events s ht hw hs hc hidle (by omega),
    fun u d h m sec hu hcu => tick_while_spinning u d h m sec hu hcu⟩

/-- Witness of C18, amended: a first launch left alone for 91 seconds. -/
theorem C18_auto_exit_at_rest_witness :
    demoWorld.tick_subscribed = true ∧ demoWorld.window_on_stack = true
      ∧ demoWorld.s_spin_speed = 0
      ∧ demoWorld.s_user_secondsInactive ≤ USER_SECONDSINACTIVE_MAX
      ∧ (∀ e ∈ idleEvents, is_idle_event e = true)
      ∧ USER_SECONDSINACTIVE_MAX < (idleEvents.filter is_tick).length
      ∧ exited (app_event_loop demoEnv demoWorld idleEvents) :=
  ⟨by decide, by decide, by decide, by decide, by decide, by decide,
    (C18_auto_exit_at_rest demoEnv demoWorld idleEvents (by decide) (by decide) (by decide)
      (by decide) (by decide) (by decide)).1⟩

/-- C19 (transparency cycling).  A click on the select button turns Solid
into X-Ray, X-Ray into Wireframe, and Wireframe or any other value into Solid.
So the mode after a click is one of the three modes, and from each of the
three modes three clicks lead back to it while one click and two clicks lead
elsewhere. -/
theorem C19_transparency_cycle (E : Env F) (s : World F) :
    (s.s_transparencyMode = E.MESH_TRANSPARENCY_SOLID →
        (transparencyMode_change_click_handler E s).s_transparencyMode
          = E.MESH_TRANSPARENCY_XRAY)
      ∧ (s.s_transparencyMode = E.MESH_TRANSPARENCY_XRAY →
        (transparencyMode_change_click_handler E s).s_transparencyMode
          = E.MESH_TRANSPARENCY_WIREFRAME)
      ∧ (s.s_transparencyMode ≠ E.MESH_TRANSPARENCY_SOLID →
          s.s_transparencyMode ≠ E.MESH_TRANSPARENCY_XRAY →
        (transparencyMode_change_click_handler E s).s_transparencyMode
          = E.MESH_TRANSPARENCY_SOLID)
      ∧ ((transparencyMode_change_click_handler E s).s_transparencyMode
            = E.MESH_TRANSPARENCY_SOLID
          ∨ (transparencyMode_change_click_handler E s).s_transparencyMode
            = E.MESH_TRANSPARENCY_XRAY
          ∨ (transparencyMode_change_click_handler E s).s_transparencyMode
            = E.MESH_TRANSPARENCY_WIREFRAME)
      ∧ ((s.s_transparencyMode = E.MESH_TRANSPARENCY_SOLID
            ∨ s.s_transparencyMode = E.MESH_TRANSPARENCY_XRAY
            ∨ s.s_transparencyMode = E.MESH_TRANSPARENCY_WIREFRAME) →
          (transparencyMode_change_click_handler E
              (transparencyMode_change_click_handler E
                (transparencyMode_change_click_handler E s))).s_transparencyMode
            = s.s_transparencyMode
          ∧ (transparencyMode_change_click_handler E s).s_transparencyMode
            ≠ s.s_transparencyMode
          ∧ (transparencyMode_change_click_handler E
              (transparencyMode_change_click_handler E s)).s_transparencyMode
            ≠ s.s_transparencyMode) := by
  have sx := E.solid_ne_xray
  have sw := E.solid_ne_wireframe
  have xw := E.xray_ne_wireframe
  refine ⟨?_, ?_, ?_, ?_, ?_⟩
  · intro h
    rw [transparency_after_click, if_pos h]
  · intro h
    rw [transparency_after_click, if_neg (by rw [h]; exact sx.symm), if_pos h]
  · intro h1 h2
    rw [transparency_after_click, if_neg h1, if_neg h2]
  · rw [transparency_after_click]
    split_ifs
    · exact Or.inr (Or.inl rfl)
    · exact Or.inr (Or.inr rfl)
    · exact Or.inl rfl
  · intro h
    simp only [transparency_after_click]
    rcases h with h | h | h
    · rw [h]
      simp [sx, sw, xw, sx.symm, sw.symm, xw.symm]
    · rw [h]
      simp [sx, sw, xw, sx.symm, sw.symm, xw.symm]
    · rw [h]
      simp [sx, sw, xw, sx.symm, sw.symm, xw.symm]

/-- Witness of C19: from the solid mode of a first launch, one click gives
X-Ray and three clicks give Solid again. -/
theorem C19_transparency_cycle_witness :
    demoWorld.s_transparencyMode = demoEnv.MESH_TRANSPARENCY_SOLID
      ∧ (transparencyMode_change_click_handler demoEnv demoWorld).s_transparencyMode
          = demoEnv.MESH_TRANSPARENCY_XRAY
      ∧ (transparencyMode_change_click_handler demoEnv
            (transparencyMode_change_click_handler demoEnv
              (transparencyMode_change_click_handler demoEnv demoWorld))).s_transparencyMode
          = demoWorld.s_transparencyMode :=
  ⟨by decide, (C19_transparency_cycle demoEnv demoWorld).1 (by decide),
    ((C19_transparency_cycle demoEnv demoWorld).2.2.2.2 (Or.inl (by decide))).1⟩

/-- C20 (steady-mode update frame).  When the world mode is steady, an update
tick changes the update counter and the log (one `Clock3D_updateAnimation`, one
`layer_mark_dirty`) and nothing else, for every accelerometer reading; over any
number of ticks the spin speed, the spin rotation, the three samplers and the
camera stay as they are.  In particular the speed that a click on the down
button sets while steady is still there after any number of ticks. -/
theorem C20_steady_update_frame (E : Env F) (s : World F)
    (h : s.s_world_mode = WORLD_MODE_STEADY) :
    (∀ ad : AccelData, world_update E s ad
        = { s with s_world_updateCount := wrapInt32 (s.s_world_updateCount + 1)
                 , log := s.log ++ [.Clock3D_updateAnimation s.s_clock.status
                                      ANIMATION_FLIP_STEPS,
                                    .layer_mark_dirty] })
      ∧ (∀ ads : List AccelData,
          (ads.foldl (world_update E) s).s_spin_speed = s.s_spin_speed
          ∧ (ads.foldl (world_update E) s).s_spin_rotation = s.s_spin_rotation
          ∧ (ads.foldl (world_update E) s).sampler_accelX = s.sampler_accelX
          ∧ (ads.foldl (world_update E) s).sampler_accelY = s.sampler_accelY
          ∧ (ads.foldl (world_update E) s).sampler_accelZ = s.sampler_accelZ
          ∧ (ads.foldl (world_update E) s).s_cam = s.s_cam)
      ∧ (∀ ads : List AccelData,
          (ads.foldl (world_update E) (spinSpeed_increment_click_handler s)).s_spin_speed
            = wrapInt32 (s.s_spin_speed + SPIN_SPEED_BUTTON_STEP)) := by
  have frame : ∀ (u : World F), u.s_world_mode = WORLD_MODE_STEADY →
      ∀ ads : List AccelData,
        (ads.foldl (world_update E) u).s_spin_speed = u.s_spin_speed
        ∧ (ads.foldl (world_update E) u).s_spin_rotation = u.s_spin_rotation
        ∧ (ads.foldl (world_update E) u).sampler_accelX = u.sampler_accelX
        ∧ (ads.foldl (world_update E) u).sampler_accelY = u.sampler_accelY
        ∧ (ads.foldl (world_update E) u).sampler_accelZ = u.sampler_accelZ
        ∧ (ads.foldl (world_update E) u).s_cam = u.s_cam := by
    intro u hu ads
    induction ads generalizing u with
    | nil => exact ⟨rfl, rfl, rfl, rfl, rfl, rfl⟩
    | cons ad ads ih =>
      have hm : (world_update E u ad).s_world_mode = WORLD_MODE_STEADY := by
        rw [world_update_mode]; exact hu
      have step := world_update_steady_frame E u ad hu
      rw [List.foldl_cons]
      obtain ⟨a, b, c, d, e, f⟩ := ih (world_update E u ad) hm
      rw [a, b, c, d, e, f, step]
      exact ⟨rfl, rfl, rfl, rfl, rfl, rfl⟩
  refine ⟨fun ad => world_update_steady_frame E s ad h, frame s h, ?_⟩
  intro ads
  exact (frame (spinSpeed_increment_click_handler s) h ads).1

/-- Witness of C20: a steady launch keeps a spin speed of 20, set by one click
on the down button, over three failed peeks. -/
theorem C20_steady_update_frame_witness :
    demoSteadyWorld.s_world_mode = WORLD_MODE_STEADY
      ∧ ((List.replicate 3 failedReading).foldl (world_update demoEnv)
            (spinSpeed_increment_click_handler demoSteadyWorld)).s_spin_speed
          = wrapInt32 (demoSteadyWorld.s_spin_speed + SPIN_SPEED_BUTTON_STEP) :=
  ⟨by decide,
    (C20_steady_update_frame demoEnv demoSteadyWorld (by decide)).2.2
      (List.replicate 3 failedReading)⟩

/-- C21 (the world mode stays defined).  Let key 1 of the persistent storage
be absent or hold `WORLD_MODE_DYNAMIC` or `WORLD_MODE_STEADY` when
`world_initialize` runs.  Then after any sequence of `world_start`, deliveries
of ticks, tap gestures, update timers and button clicks, and `world_stop`, the
world mode is `WORLD_MODE_DYNAMIC` or `WORLD_MODE_STEADY`, hence not
`WORLD_MODE_UNDEFINED`; every value written under key 1 on the way (by the
exit of the tick handler) is one of the two; and `world_finalize` in the state
reached writes the world mode of that state under key 1, once, which key 1
then holds.  The same holds along a whole run of the application: the world
mode is defined when the event loop ends, every write under key 1 up to the
end of `app_deinit` is one of the two modes, and so is the value that key 1
holds at the end. -/
theorem C21_world_mode_stays_defined (E : Env F) (s : World F) (plan : AllocPlan)
    (hkey : mode_key_ok s.persist) :
    (∀ ops : List WorldOp,
        mode_defined (apply_ops E ( world_initialize E s plan) ops)
        ∧ (apply_ops E ( world_initialize E s plan) ops).s_world_mode ≠ WORLD_MODE_UNDEFINED
        ∧ (∃ added,
            mode_writes (apply_ops E ( world_initialize E s plan) ops).log
                = mode_writes s.log ++ added
              ∧ ∀ v ∈ added, v = WORLD_MODE_DYNAMIC ∨ v = WORLD_MODE_STEADY)
        ∧ mode_writes (world_finalize (apply_ops E ( world_initialize E s plan) ops)).log
            = mode_writes (apply_ops E ( world_initialize E s plan) ops).log
                ++ [(apply_ops E ( world_initialize E s plan) ops).s_world_mode]
        ∧ (world_finalize (apply_ops E ( world_initialize E s plan) ops)).persist.lookup
              PKEY_WORLD_MODE
            = some (apply_ops E ( world_initialize E s plan) ops).s_world_mode)
      ∧ (∀ (ad : AccelData) (events : List Event),
          mode_defined (app_event_loop E (app_init E s plan ad) events)
          ∧ (∃ added,
              mode_writes (app_deinit (app_event_loop E (app_init E s plan ad) events)).log
                  = mode_writes s.log ++ added
                ∧ ∀ v ∈ added, v = WORLD_MODE_DYNAMIC ∨ v = WORLD_MODE_STEADY)
          ∧ ((app_deinit (app_event_loop E (app_init E s plan ad) events)).persist.lookup
                  PKEY_WORLD_MODE = some WORLD_MODE_DYNAMIC
              ∨ (app_deinit (app_event_loop E (app_init E s plan ad) events)).persist.lookup
                  PKEY_WORLD_MODE = some WORLD_MODE_STEADY)) := by
  have h0 := world_initialize_mode_kept E s plan hkey
  constructor
  · intro ops
    have h := apply_ops_mode_kept E ops _ h0
    refine ⟨h.1, mode_defined_ne_undefined h.1, h.2, ?_, world_finalize_mode_stored _⟩
    have hw := world_finalize_mode_trace (apply_ops E ( world_initialize E s plan) ops)
    simp only [mode_trace, Prod.mk.injEq] at hw
    exact hw.2
  · intro ad events
    have hloop : mode_kept (mode_writes s.log)
        (app_event_loop E (app_init E s plan ad) events) :=
      app_event_loop_invariant E (mode_kept (mode_writes s.log))
        (fun u e hu => dispatch_mode_kept E u e hu) events _
        (mode_kept_of_eq (app_init_mode_trace E s plan ad) h0)
    have hend := mode_kept_write (app_deinit_mode_trace _) hloop
    refine ⟨hloop.1, hend.2, ?_⟩
    rw [app_deinit_mode_stored]
    rcases hloop.1 with hm | hm
    · exact Or.inl (congrArg some hm)
    · exact Or.inr (congrArg some hm)

/-- Witness of C21: a launch that finds the steady mode stored, then a twist,
a tick and `world_stop`; and the run of `main` with a twist and a tick. -/
theorem C21_world_mode_stays_defined_witness :
    mode_key_ok (World.boot demoEnv [(1, 2)]).persist
      ∧ mode_defined (apply_ops demoEnv
          ( world_initialize demoEnv (World.boot demoEnv [(1, 2)]) allocAll)
          [.world_start flatReading, .deliver (.tap .ACCEL_AXIS_Y 1),
            .deliver (.tick 1 0 0 0), .world_stop])
      ∧ ((main demoEnv [(1, 2)] allocAll flatReading
              [.tap .ACCEL_AXIS_Y 1, .tick 1 0 0 0]).persist.lookup PKEY_WORLD_MODE
            = some WORLD_MODE_DYNAMIC
          ∨ (main demoEnv [(1, 2)] allocAll flatReading
              [.tap .ACCEL_AXIS_Y 1, .tick 1 0 0 0]).persist.lookup PKEY_WORLD_MODE
            = some WORLD_MODE_STEADY) :=
  have h := C21_world_mode_stays_defined demoEnv (World.boot demoEnv [(1, 2)]) allocAll
    (by decide)
  ⟨by decide,
    (h.1 [.world_start flatReading, .deliver (.tap .ACCEL_AXIS_Y 1),
      .deliver (.tick 1 0 0 0), .world_stop]).1,
    (h.2 flatReading [.tap .ACCEL_AXIS_Y 1, .tick 1 0 0 0]).2.2⟩


/-- C22 (friction comes before the advance of the angle).  On an update tick
in dynamic mode, with a representable spin speed `v`, rotation `r` and the
three samplers allocated and seeded: the new speed is `v` moved one unit
toward 0; the new rotation is
`FastMath_normalizeAngle(r + new speed * SPIN_ROTATION_QUANTA)` when the new
speed is not 0, and `r` itself when it is 0; so from a speed of -1, 0 or 1 the
rotation is unchanged; and the tick calls `cam_config` once, after the spin
step, with the new rotation, which is the rotation of the camera afterwards. -/
theorem C22_friction_before_advance (E : Env F) (s : World F) (ad : AccelData)
    (hmode : s.s_world_mode = WORLD_MODE_DYNAMIC) (hspeed : isInt32 s.s_spin_speed)
    (hx : sampler_ready s.sampler_accelX = true)
    (hy : sampler_ready s.sampler_accelY = true)
    (hz : sampler_ready s.sampler_accelZ = true) :
    (world_update E s ad).s_spin_speed = s.s_spin_speed - Int.sign s.s_spin_speed
      ∧ ((world_update E s ad).s_spin_speed ≠ 0 →
          (world_update E s ad).s_spin_rotation
            = E.FastMath_normalizeAngle
                (E.spin_advance s.s_spin_rotation (world_update E s ad).s_spin_speed))
      ∧ ((world_update E s ad).s_spin_speed = 0 →
          (world_update E s ad).s_spin_rotation = s.s_spin_rotation)
      ∧ (s.s_spin_speed = -1 ∨ s.s_spin_speed = 0 ∨ s.s_spin_speed = 1 →
          (world_update E s ad).s_spin_rotation = s.s_spin_rotation)
      ∧ ∃ x y z,
          (world_update E s ad).s_cam
              = some { x := x, y := y, z := z
                     , rotationZ := (world_update E s ad).s_spin_rotation }
          ∧ new_calls s (world_update E s ad)
              = [.Clock3D_updateAnimation s.s_clock.status ANIMATION_FLIP_STEPS,
                 .Clock3D_second100ths_update s.s_clock.status,
                 .accel_service_peek,
                 .Sampler_push .ACCEL_AXIS_X true (reading_pushed E ad).1,
                 .Sampler_push .ACCEL_AXIS_Y true (reading_pushed E ad).2.1,
                 .Sampler_push .ACCEL_AXIS_Z true (reading_pushed E ad).2.2,
                 .CamR3_lookAtOriginUpwards x y z (world_update E s ad).s_spin_rotation,
                 .layer_mark_dirty] := by
  have hsp := world_update_speed_dynamic E s ad hmode
  have hrot := world_update_rotation E s ad
  have hf := friction_eq _ hspeed
  have hzero : (world_update E s ad).s_spin_speed = 0 →
      (world_update E s ad).s_spin_rotation = s.s_spin_rotation := by
    intro h0
    rw [hrot, if_neg]
    intro hc
    exact hc.2 (by rw [← hsp]; exact h0)
  refine ⟨?_, ?_, hzero, ?_, ?_⟩
  · rw [hsp, hf]
    split_ifs with h1 h2
    · rw [Int.sign_eq_one_of_pos h1]
    · rw [Int.sign_eq_neg_one_of_neg h2]; omega
    · have h0 : s.s_spin_speed = 0 := by omega
      rw [h0]
      rfl
  · intro hne
    rw [hrot, if_pos ⟨hmode, by rw [← hsp]; exact hne⟩, hsp]
  · intro h
    apply hzero
    rw [hsp, hf]
    rcases h with h | h | h <;> rw [h] <;> decide
  · obtain ⟨x, y, z, hcam, hlog⟩ := update_active_dynamic E (update_prologue s) ad
      (by rw [update_prologue_mode]; exact hmode) hx hy hz
    rw [world_update_dynamic E s ad hmode]
    refine ⟨x, y, z, ?_, ?_⟩
    · rw [call_cam, call_rotation]
      exact hcam
    · apply new_calls_append
      rw [call_log, call_rotation, hlog, update_prologue_log]
      simp [update_prologue]

/-- Witness of C22: the update tick after a punch on a first launch (speed
1000, new speed 999, the rotation advanced by 999 and normalized), and the
update tick at rest (speed 0, the rotation kept). -/
theorem C22_friction_before_advance_witness :
    demoPunchedWorld.s_world_mode = WORLD_MODE_DYNAMIC
      ∧ isInt32 demoPunchedWorld.s_spin_speed
      ∧ sampler_ready demoPunchedWorld.sampler_accelX = true
      ∧ sampler_ready demoPunchedWorld.sampler_accelY = true
      ∧ sampler_ready demoPunchedWorld.sampler_accelZ = true
      ∧ (world_update demoEnv demoPunchedWorld flatReading).s_spin_speed
          = demoPunchedWorld.s_spin_speed - Int.sign demoPunchedWorld.s_spin_speed
      ∧ (world_update demoEnv demoPunchedWorld flatReading).s_spin_rotation
          = demoEnv.FastMath_normalizeAngle
              (demoEnv.spin_advance demoPunchedWorld.s_spin_rotation
                (world_update demoEnv demoPunchedWorld flatReading).s_spin_speed)
      ∧ (world_update demoEnv demoWorld flatReading).s_spin_rotation
          = demoWorld.s_spin_rotation :=
  have h := C22_friction_before_advance demoEnv demoPunchedWorld flatReading (by decide)
    (by decide) (by decide) (by decide) (by decide)
  have h0 := C22_friction_before_advance demoEnv demoWorld flatReading (by decide)
    (by decide) (by decide) (by decide) (by decide)
  ⟨by decide, by decide, by decide, by decide, by decide, h.1, h.2.1 (by decide),
    h0.2.2.2.1 (by decide)⟩


end Claims

end FlipClock3D
